import Mathlib

/-!
# Traffic manager pipeline: Messenger and LocalizationStage

A shallow embedding of `TrafficManager/source/pipeline/Messenger.h` and
`TrafficManager/source/pipeline/LocalizationStage.cpp`, followed by the
properties established about them.

Conventions of the embedding.

* `int` values are integers; the result of `x + 1` on an `int` is taken in
  two's complement (`wrapInt`), so every statement about a counter value is
  explicit about the range in which `+ 1` is the mathematical successor.
* A blocking call (`SendData`, `ReceiveData`) takes the list of things the
  other threads do to the messenger while the caller sits in `wait_for`: one
  entry per wake-up, `id` for a plain 1 ms time-out.  The call answers
  `none` when the list is used up and the caller is still waiting.
* `float` values are rationals; the rounding of arithmetic is not modelled, and a
  `float` constant is the number it is stored as (`HIGHWAY_SPEED`).
* An exception ends a pass.  The output step keeps the stage as the statements before
  the throw have left it (`GenerateOutputSteps`); the other steps return the fault only.
-/

namespace traffic_manager

/-! ## Messenger.h -/

/-- Largest value of an `int`. -/
def INT_MAX : Int := 2147483647

/-- Smallest value of an `int`. -/
def INT_MIN : Int := -2147483648

/-- Reduction of an integer to the `int` range (two's complement). -/
def wrapInt (x : Int) : Int := (x + 2147483648) % 4294967296 - 2147483648

/-- The struct `DataPacket<Data>` (Messenger.h:12-16). -/
structure DataPacket (Data : Type) where
  id : Int
  data : Data
deriving DecidableEq, Repr

/-- The private members of `Messenger<Data>` (Messenger.h:22-24); the mutex and
the two condition variables carry no data. -/
structure Messenger (Data : Type) where
  stop_messenger : Bool
  state_counter : Int
  data : Data
deriving DecidableEq, Repr

/-- What the other threads do to a messenger during one `wait_for` of the
caller (the lock is released for its duration). -/
abbrev Interference (Data : Type) := Messenger Data → Messenger Data

namespace Messenger

variable {Data : Type}

/-- The constructor (Messenger.h:32-35); `d` is the default-constructed `data`. -/
def new (d : Data) : Messenger Data :=
  { stop_messenger := false, state_counter := 0, data := d }

/-- Statements of `SendData` after its wait loop (Messenger.h:47-52). -/
def SendData_tail (m : Messenger Data) (packet : DataPacket Data) : Messenger Data × Int :=
  let m1 : Messenger Data := { m with data := packet.data }
  let m2 : Messenger Data := { m1 with state_counter := wrapInt (m1.state_counter + 1) }
  let present_state := m2.state_counter
  (m2, present_state)

/-- The method `SendData` (Messenger.h:38-53).  The list holds one interference per
wake-up from `wait_for`; `none` means the caller is still in the wait loop. -/
def SendData : List (Interference Data) → Messenger Data → DataPacket Data →
    Messenger Data × Option Int
  | env, m, packet =>
    if m.state_counter = packet.id then
      match env with
      | [] => (m, none)
      | e :: rest =>
        let m1 := e m
        if m1.stop_messenger then
          let r := SendData_tail m1 packet
          (r.1, some r.2)
        else
          SendData rest m1 packet
    else
      let r := SendData_tail m packet
      (r.1, some r.2)

/-- Statements of `ReceiveData` after its wait loop (Messenger.h:64-68). -/
def ReceiveData_tail (m : Messenger Data) : Messenger Data × DataPacket Data :=
  let m1 : Messenger Data := { m with state_counter := wrapInt (m.state_counter + 1) }
  let packet : DataPacket Data := { id := m1.state_counter, data := m1.data }
  (m1, packet)

/-- The method `ReceiveData` (Messenger.h:55-69), with the same reading of the list
as `SendData`. -/
def ReceiveData : List (Interference Data) → Messenger Data → Int →
    Messenger Data × Option (DataPacket Data)
  | env, m, old_state =>
    if m.state_counter = old_state then
      match env with
      | [] => (m, none)
      | e :: rest =>
        let m1 := e m
        if m1.stop_messenger then
          let r := ReceiveData_tail m1
          (r.1, some r.2)
        else
          ReceiveData rest m1 old_state
    else
      let r := ReceiveData_tail m
      (r.1, some r.2)

/-- The method `GetState` (Messenger.h:71-73). -/
def GetState (m : Messenger Data) : Int := m.state_counter

/-- The method `Stop` (Messenger.h:75-77). -/
def Stop (m : Messenger Data) : Messenger Data := { m with stop_messenger := true }

/-- An interference that leaves the state counter alone: time-outs, `GetState`
and `Stop` calls of other threads, but no completed send or receive. -/
def KeepsCounter (e : Interference Data) : Prop :=
  ∀ x : Messenger Data, (e x).state_counter = x.state_counter

/-- Along the wake-ups of a call entered at `m`, the other threads never lower the
state counter and keep it below `INT_MAX`: they complete sends and receives short of
overflow, time out, or call `GetState` and `Stop`. -/
def RaisedBelowMax : List (Interference Data) → Messenger Data → Prop
  | [], _ => True
  | e :: rest, m =>
    m.state_counter ≤ (e m).state_counter ∧ (e m).state_counter < INT_MAX ∧
      RaisedBelowMax rest (e m)

/-- An interference by threads that never call `Stop`. -/
def KeepsRunning (e : Interference Data) : Prop :=
  ∀ x : Messenger Data, x.stop_messenger = false → (e x).stop_messenger = false

end Messenger

end traffic_manager

namespace traffic_manager

/-! ## LocalizationStage.cpp: data -/

/-- How a pass of the stage can end other than by returning. -/
inductive Fault where
  /-- A bounds-checked `at` threw `std::out_of_range`. -/
  | out_of_range
  /-- An unchecked access (`operator[]`, `front`, `back`) hit an empty container. -/
  | undefined_behaviour
  /-- The loop was still running when the allotted number of iterations was used up. -/
  | unfinished
deriving DecidableEq, Repr

deriving instance DecidableEq for Except

/-- Bounds-checked element access, `std::vector::at` and `std::deque::at`. -/
def at_ {α : Type} (v : List α) (i : Nat) : Except Fault α :=
  match v.get? i with
  | some a => .ok a
  | none => .error Fault.out_of_range

/-- The types `carla::geom::Vector3D` and `carla::geom::Location`. -/
structure Vector3D where
  x : ℚ
  y : ℚ
  z : ℚ
deriving DecidableEq

/-- The operations of `carla::geom` and `<cmath>` the stage calls.  Their sources are
not part of the pipeline directory, so the stage is embedded over any choice of
them. -/
structure Geom where
  /-- The difference `a - b` of two locations. -/
  Sub : Vector3D → Vector3D → Vector3D
  /-- The method `Vector3D::Length`. -/
  Length : Vector3D → ℚ
  /-- The method `Vector3D::MakeUnitVector`. -/
  MakeUnitVector : Vector3D → Vector3D
  /-- The function `Math::Dot`. -/
  Dot : Vector3D → Vector3D → ℚ
  /-- The method `Location::Distance`, also behind `SimpleWaypoint::distance`. -/
  Distance : Vector3D → Vector3D → ℚ
  /-- The constant `std::numeric_limits<float>::epsilon()`. -/
  epsilon : ℚ
  /-- The value `std::cos(M_PI * 135 / 180)`. -/
  cos135 : ℚ

/-- What the stage reads from a `carla::client::Actor` (a `Vehicle`) during a pass. -/
structure Actor where
  /-- The value of `GetId()`. -/
  id : Nat
  /-- The value of `GetLocation()`. -/
  location : Vector3D
  /-- The value of `GetVelocity()`. -/
  velocity : Vector3D
  /-- The value of `GetTransform().GetForwardVector()`. -/
  forward : Vector3D
  /-- The value of `GetBoundingBox().extent.x`. -/
  extent_x : ℚ
  /-- The value of `GetSpeedLimit()`. -/
  speed_limit : ℚ
deriving DecidableEq

/-- A `std::shared_ptr<SimpleWaypoint>`: the node it points to, by number. -/
abbrev WaypointPtr := Nat

/-- What the stage reads from a `SimpleWaypoint`. -/
structure SimpleWaypoint where
  /-- The value of `getLocation()`. -/
  location : Vector3D
  /-- The value of `getWaypoint()->GetId()`, a `uint64_t`. -/
  id : Nat
  /-- The value of `getWaypoint()->GetRoadId()`. -/
  road_id : Nat
  /-- The value of `getWaypoint()->GetSectionId()`. -/
  section_id : Nat
  /-- The value of `getWaypoint()->GetLaneId()`. -/
  lane_id : Int
  /-- The value of `checkJunction()`. -/
  junction : Bool
  /-- The value of `getNextWaypoint()`. -/
  next_waypoints : List WaypointPtr
  /-- The value of `getLeftWaypoint()`, `none` for `nullptr`. -/
  left_waypoint : Option WaypointPtr
  /-- The value of `getRightWaypoint()`, `none` for `nullptr`. -/
  right_waypoint : Option WaypointPtr
deriving DecidableEq

/-- The `InMemoryMap` as the stage uses it: the node behind each pointer and the
method `GetWaypoint(location)`. -/
structure InMemoryMap where
  node : WaypointPtr → SimpleWaypoint
  GetWaypoint : Vector3D → WaypointPtr

/-- The struct `GeoIds`: road, section and lane id. -/
structure GeoIds where
  road_id : Nat
  section_id : Nat
  lane_id : Int
deriving DecidableEq

/-- Modelled from the spec: the class `TrafficDistribution` (its source is not among
the pipeline files).  The spec keeps a map from `GeoIds` to a set of vehicle ids with
its reverse; here one entry per vehicle, in the order the vehicles were last moved. -/
structure TrafficDistribution where
  entries : List (Nat × GeoIds)
deriving DecidableEq

/-- Modelled from the spec: `update(id, ids)`, remove from the old bucket and insert
into the new one. -/
def TrafficDistribution.UpdateVehicleRoadPosition (td : TrafficDistribution)
    (actor_id : Nat) (road_ids : GeoIds) : TrafficDistribution :=
  { entries := td.entries.filter (fun e => e.1 ≠ actor_id) ++ [(actor_id, road_ids)] }

/-- Modelled from the spec: `vehicles_on(ids)`, the ids in the bucket of `ids`. -/
def TrafficDistribution.GetVehicleIds (td : TrafficDistribution) (road_ids : GeoIds) :
    List Nat :=
  (td.entries.filter (fun e => e.2 = road_ids)).map (fun e => e.1)

/-- The waypoint buffer of one vehicle, a `std::deque` of waypoint pointers; the head
of the list is `front()`. -/
abbrev Buffer := List WaypointPtr

/-- One buffer per vehicle slot. -/
abbrev BufferList := List Buffer

/-- An element of `LocalizationToPlannerFrame`. -/
structure LocalizationToPlannerData where
  /-- The actor, by its slot in `actor_list`; `none` before the first write. -/
  actor : Option Nat
  deviation : ℚ
  approaching_true_junction : Bool
deriving DecidableEq

/-- An element of `LocalizationToCollisionFrame`. -/
structure LocalizationToCollisionData where
  actor : Option Nat
  /-- The buffer pointed to: which of the two lists, and the slot. -/
  buffer : Option (Bool × Nat)
deriving DecidableEq

/-- An element of `LocalizationToTrafficLightFrame`. -/
structure LocalizationToTrafficLightData where
  actor : Option Nat
  closest_waypoint : Option WaypointPtr
  junction_look_ahead_waypoint : Option WaypointPtr
deriving DecidableEq

/-- The members of `LocalizationStage` that `Action` reads or writes. -/
structure LocalizationStage where
  planner_frame_selector : Bool
  collision_frame_selector : Bool
  traffic_light_frame_selector : Bool
  buffer_list_a : BufferList
  buffer_list_b : BufferList
  planner_frame_a : List LocalizationToPlannerData
  planner_frame_b : List LocalizationToPlannerData
  collision_frame_a : List LocalizationToCollisionData
  collision_frame_b : List LocalizationToCollisionData
  traffic_light_frame_a : List LocalizationToTrafficLightData
  traffic_light_frame_b : List LocalizationToTrafficLightData
  planner_messenger_state : Int
  collision_messenger_state : Int
  traffic_light_messenger_state : Int
  /-- One `rand()` value per vehicle. -/
  divergence_choice : List Int
  last_lane_change_location : List Vector3D
  traffic_distribution : TrafficDistribution
  actor_list : List Actor
deriving DecidableEq

/-! ## LocalizationStage.cpp: constants and helpers -/

def WAYPOINT_TIME_HORIZON : ℚ := 3

def MINIMUM_HORIZON_LENGTH : ℚ := 25

def TARGET_WAYPOINT_TIME_HORIZON : ℚ := 1 / 2

def TARGET_WAYPOINT_HORIZON_LENGTH : ℚ := 2

def MINIMUM_JUNCTION_LOOK_AHEAD : Int := 5

/-- The constant `HIGHWAY_SPEED` (LocalizationStage.cpp:10), declared `const float`: the
quotient `50 / 3.6` rounded to single precision, which is `14563556 / 2^20`, that is
`3640889 / 262144 = 13.888889312744140625`, slightly above `125 / 9`. -/
def HIGHWAY_SPEED : ℚ := 3640889 / 262144

/-- The method `DeviationDotProduct` (LocalizationStage.cpp:492-508). -/
def DeviationDotProduct (g : Geom) (actor : Actor) (target_location : Vector3D) : ℚ :=
  let heading_vector := actor.forward
  let heading_vector := { heading_vector with z := 0 }
  let heading_vector := g.MakeUnitVector heading_vector
  let next_vector := g.Sub target_location actor.location
  let next_vector := { next_vector with z := 0 }
  if g.Length next_vector > 2 * g.epsilon then
    let next_vector := g.MakeUnitVector next_vector
    let dot_product := g.Dot next_vector heading_vector
    dot_product
  else
    0

/-- The method `DeviationCrossProduct` (LocalizationStage.cpp:510-522). -/
def DeviationCrossProduct (g : Geom) (actor : Actor) (target_location : Vector3D) : ℚ :=
  let heading_vector := actor.forward
  let heading_vector := { heading_vector with z := 0 }
  let heading_vector := g.MakeUnitVector heading_vector
  let next_vector := g.Sub target_location actor.location
  let next_vector := { next_vector with z := 0 }
  let next_vector := g.MakeUnitVector next_vector
  let cross_z := heading_vector.x * next_vector.y - heading_vector.y * next_vector.x
  cross_z

/-- The lookup `buffer_map.at(selector)`: list `a` under `true`, list `b` under
`false` (LocalizationStage.cpp:39-40). -/
def LocalizationStage.buffer_map (s : LocalizationStage) (selector : Bool) : BufferList :=
  if selector then s.buffer_list_a else s.buffer_list_b

/-- Writing slot `i` of the buffer list under `selector`. -/
def LocalizationStage.set_buffer (s : LocalizationStage) (selector : Bool) (i : Nat)
    (b : Buffer) : LocalizationStage :=
  if selector then { s with buffer_list_a := s.buffer_list_a.set i b }
  else { s with buffer_list_b := s.buffer_list_b.set i b }

/-- The lookup `vehicle_id_to_index.at(id)`: the map is filled in the constructor with
`insert({actor->GetId(), index})` in list order (LocalizationStage.cpp:68-72), so an
id maps to its first slot, and `at` throws for an id that has none. -/
def vehicle_id_to_index (actor_list : List Actor) (id : Nat) : Except Fault Nat :=
  match actor_list.findIdx? (fun a => a.id = id) with
  | some k => .ok k
  | none => .error Fault.out_of_range

/-- The difference of two `size_t` values, taken modulo 2^64. -/
def size_sub (a b : Nat) : Nat := (a + 18446744073709551616 - b % 18446744073709551616)
  % 18446744073709551616

/-- The result of a floating-point division when the divisor may be zero. -/
inductive FloatQuotient where
  | finite (q : ℚ)
  | pos_inf
  | neg_inf
  | nan
deriving DecidableEq

/-- Floating-point `a / b`: a non-zero number over zero is an infinity, zero over zero
is not a number. -/
def float_div (a b : ℚ) : FloatQuotient :=
  if b = 0 then
    if 0 < a then FloatQuotient.pos_inf
    else if a < 0 then FloatQuotient.neg_inf
    else FloatQuotient.nan
  else FloatQuotient.finite (a / b)

/-- Floating-point `a > b` on such results. -/
def FloatQuotient.gt : FloatQuotient → FloatQuotient → Bool
  | .nan, _ => false
  | _, .nan => false
  | .finite a, .finite b => decide (b < a)
  | .finite _, .neg_inf => true
  | .finite _, .pos_inf => false
  | .pos_inf, .pos_inf => false
  | .pos_inf, _ => true
  | .neg_inf, _ => false

/-! ## LocalizationStage.cpp: the steps of `Action` -/

/-- The condition of "Sync lane change from buffer copy" (LocalizationStage.cpp:101-111). -/
def SyncCondition (map : InMemoryMap) (waypoint_buffer copy_waypoint_buffer : Buffer) : Bool :=
  match waypoint_buffer, copy_waypoint_buffer with
  | w :: _, c :: _ =>
    decide ((map.node c).lane_id ≠ (map.node w).lane_id) ||
      decide ((map.node c).section_id ≠ (map.node w).section_id)
  | _, _ => false

/-- The step "Purge passed waypoints" (LocalizationStage.cpp:117-132): the front is
popped for as long as the buffer is non-empty and the dot product of its front is at
most zero. -/
def PurgePassedWaypoints (g : Geom) (map : InMemoryMap) (vehicle : Actor) : Buffer → Buffer
  | [] => []
  | w :: rest =>
    if DeviationDotProduct g vehicle (map.node w).location ≤ 0 then
      PurgePassedWaypoints g map vehicle rest
    else
      w :: rest

/-- The step "Initialize buffer if empty" (LocalizationStage.cpp:134-138). -/
def InitializeIfEmpty (map : InMemoryMap) (vehicle_location : Vector3D)
    (waypoint_buffer : Buffer) : Buffer :=
  if waypoint_buffer.isEmpty then
    let closest_waypoint := map.GetWaypoint vehicle_location
    waypoint_buffer ++ [closest_waypoint]
  else waypoint_buffer

/-- The test of one co-lane vehicle (LocalizationStage.cpp:209-220): not the vehicle
itself, with a non-empty buffer whose front is ahead and closer than 20 m. -/
def IsBlocking (g : Geom) (map : InMemoryMap) (vehicle : Actor) (actor_id : Nat)
    (same_lane_vehicle_id : Nat) (other_vehicle_buffer : Buffer) : Bool :=
  decide (same_lane_vehicle_id ≠ actor_id) &&
    match other_vehicle_buffer with
    | [] => false
    | same_lane_vehicle_waypoint :: _ =>
      decide (DeviationDotProduct g vehicle (map.node same_lane_vehicle_waypoint).location > 0) &&
        decide (g.Distance (map.node same_lane_vehicle_waypoint).location vehicle.location < 20)

/-- The outcome of the scan of the co-lane vehicles. -/
structure LaneChangeNeed where
  need_to_change_lane : Bool
  /-- Left for `true`, right for `false`; read only when `need_to_change_lane`. -/
  lane_change_direction : Bool
deriving DecidableEq

/-- The loop over `co_lane_vehicles` (LocalizationStage.cpp:198-246); `co_size` is
`co_lane_vehicles.size()`. -/
def ScanCoLaneVehicles (g : Geom) (map : InMemoryMap) (s : LocalizationStage)
    (vehicle : Actor) (current_road_ids : GeoIds)
    (left_waypoint right_waypoint : Option WaypointPtr) (co_size : Nat) :
    List Nat → Except Fault LaneChangeNeed
  | [] => .ok { need_to_change_lane := false, lane_change_direction := false }
  | same_lane_vehicle_id :: rest => do
    let index ← vehicle_id_to_index s.actor_list same_lane_vehicle_id
    let other_vehicle_buffer ← at_ (s.buffer_map s.collision_frame_selector) index
    if IsBlocking g map vehicle vehicle.id same_lane_vehicle_id other_vehicle_buffer then
      match left_waypoint with
      | some left =>
        let left_lane_vehicles := s.traffic_distribution.GetVehicleIds
          { road_id := current_road_ids.road_id, section_id := current_road_ids.section_id,
            lane_id := (map.node left).lane_id }
        if size_sub co_size left_lane_vehicles.length > 1 then
          .ok { need_to_change_lane := true, lane_change_direction := true }
        else
          ScanCoLaneVehicles g map s vehicle current_road_ids left_waypoint right_waypoint
            co_size rest
      | none =>
        match right_waypoint with
        | some right =>
          let right_lane_vehicles := s.traffic_distribution.GetVehicleIds
            { road_id := current_road_ids.road_id, section_id := current_road_ids.section_id,
              lane_id := (map.node right).lane_id }
          if size_sub co_size right_lane_vehicles.length > 1 then
            .ok { need_to_change_lane := true, lane_change_direction := false }
          else
            ScanCoLaneVehicles g map s vehicle current_road_ids left_waypoint right_waypoint
              co_size rest
        | none =>
          ScanCoLaneVehicles g map s vehicle current_road_ids left_waypoint right_waypoint
            co_size rest
    else
      ScanCoLaneVehicles g map s vehicle current_road_ids left_waypoint right_waypoint
        co_size rest

/-- The conversion `static_cast<int>` of a floating-point value: truncation towards
zero (values beyond the `int` range are not modelled). -/
def static_cast_int (q : ℚ) : Int := if 0 ≤ q then ⌊q⌋ else ⌈q⌉

/-- The value of `change_over_distance` (LocalizationStage.cpp:262-264). -/
def change_over_distance (vehicle_velocity : ℚ) : Int :=
  static_cast_int (max ((⌈(1 / 2 : ℚ) * vehicle_velocity⌉ : Int) : ℚ) 5)

/-- The hazard test of one vehicle of the target lane (LocalizationStage.cpp:299-330):
`true` when the loop body sets `found_hazard`. -/
def IsHazard (g : Geom) (map : InMemoryMap) (vehicle other_vehicle : Actor)
    (change_over_point : WaypointPtr) (change_over_distance : Int)
    (other_vehicle_location : Vector3D) : Bool :=
  let relative_deviation := DeviationDotProduct g vehicle other_vehicle_location
  if relative_deviation < 0 then
    let time_to_reach_other := float_div
      (g.Distance (map.node change_over_point).location other_vehicle_location
        + change_over_distance)
      (g.Length other_vehicle.velocity)
    let time_to_reach_reference := float_div
      (g.Distance (map.node change_over_point).location vehicle.location
        + change_over_distance)
      (g.Length vehicle.velocity)
    decide (relative_deviation > g.cos135) ||
      time_to_reach_other.gt time_to_reach_reference
  else
    decide (g.Distance (map.node change_over_point).location other_vehicle_location
      < 1 + change_over_distance + vehicle.extent_x * 2)

/-- The loop over `target_lane_vehicles` (LocalizationStage.cpp:287-332): the final
value of `found_hazard`. -/
def ScanTargetLaneVehicles (g : Geom) (map : InMemoryMap) (s : LocalizationStage)
    (vehicle : Actor) (change_over_point : WaypointPtr) (lane_change_id : Int)
    (change_over_distance : Int) : List Nat → Except Fault Bool
  | [] => .ok false
  | other_vehicle_id :: rest => do
    let index ← vehicle_id_to_index s.actor_list other_vehicle_id
    let other_vehicle_buffer ← at_ (s.buffer_map s.collision_frame_selector) index
    match other_vehicle_buffer with
    | [] =>
      ScanTargetLaneVehicles g map s vehicle change_over_point lane_change_id
        change_over_distance rest
    | other_front :: _ =>
      if (map.node other_front).lane_id = lane_change_id then do
        let other_vehicle ← at_ s.actor_list index
        let other_vehicle_location := (map.node other_front).location
        if IsHazard g map vehicle other_vehicle change_over_point change_over_distance
            other_vehicle_location then
          .ok true
        else
          ScanTargetLaneVehicles g map s vehicle change_over_point lane_change_id
            change_over_distance rest
      else
        ScanTargetLaneVehicles g map s vehicle change_over_point lane_change_id
          change_over_distance rest

/-- The block that decides `possible_to_lane_change` (LocalizationStage.cpp:267-342),
together with the `change_over_point` it selects. -/
def PossibleToLaneChange (g : Geom) (map : InMemoryMap) (s : LocalizationStage)
    (vehicle : Actor) (current_road_ids : GeoIds)
    (left_waypoint right_waypoint : Option WaypointPtr) (need : LaneChangeNeed)
    (change_over_distance : Int) : Except Fault (Bool × Option WaypointPtr) :=
  if need.need_to_change_lane then
    let change_over_point := if need.lane_change_direction then left_waypoint else right_waypoint
    match change_over_point with
    | some cop => do
      let lane_change_id := (map.node cop).lane_id
      let target_lane_vehicles := s.traffic_distribution.GetVehicleIds
        { road_id := current_road_ids.road_id, section_id := current_road_ids.section_id,
          lane_id := lane_change_id }
      if target_lane_vehicles.length > 0 then do
        let found_hazard ← ScanTargetLaneVehicles g map s vehicle cop lane_change_id
          change_over_distance target_lane_vehicles
        .ok (!found_hazard, change_over_point)
      else
        .ok (true, change_over_point)
    | none => .ok (false, change_over_point)
  else
    .ok (false, none)

/-- The loop `for (int i = change_over_distance; i >= 0; i--)` that moves
`change_over_point` to `getNextWaypoint()[0]` (LocalizationStage.cpp:360-362); the
argument counts the iterations left. -/
def AdvanceChangeOverPoint (map : InMemoryMap) : Nat → WaypointPtr → Except Fault WaypointPtr
  | 0, change_over_point => .ok change_over_point
  | n + 1, change_over_point =>
    match (map.node change_over_point).next_waypoints with
    | [] => .error Fault.undefined_behaviour
    | next :: _ => AdvanceChangeOverPoint map n next

/-- The value of `selection_index` (LocalizationStage.cpp:379-382); the product of the
`int` seed and the `uint64_t` sum is taken modulo 2^64. -/
def selection_index (s : LocalizationStage) (i : Nat) (pre_selection_id : Nat)
    (fanout : Nat) : Except Fault Nat :=
  if fanout > 1 then do
    let choice ← at_ s.divergence_choice i
    .ok (((choice * ((1 + pre_selection_id : Nat) : Int)) % 18446744073709551616).toNat
      % fanout)
  else
    .ok 0

/-- The loop "Populate buffer" (LocalizationStage.cpp:370-386); the first argument
bounds the number of iterations. -/
def PopulateBuffer (g : Geom) (map : InMemoryMap) (s : LocalizationStage) (i : Nat)
    (horizon_size : ℚ) : Nat → Buffer → Except Fault Buffer
  | fuel, waypoint_buffer =>
    match waypoint_buffer.head?, waypoint_buffer.getLast? with
    | some front, some back =>
      if g.Distance (map.node back).location (map.node front).location ≤ horizon_size then
        match fuel with
        | 0 => .error Fault.unfinished
        | fuel + 1 => do
          let way_front := back
          let pre_selection_id := (map.node way_front).id
          let next_waypoints := (map.node way_front).next_waypoints
          let index ← selection_index s i pre_selection_id next_waypoints.length
          let way_front ← at_ next_waypoints index
          PopulateBuffer g map s i horizon_size fuel (waypoint_buffer ++ [way_front])
      else
        .ok waypoint_buffer
    | _, _ => .error Fault.undefined_behaviour

/-- The value of `horizon_index` (LocalizationStage.cpp:391-396). -/
def horizon_index (vehicle_velocity : ℚ) : Int :=
  static_cast_int
    (max ((⌈vehicle_velocity * TARGET_WAYPOINT_TIME_HORIZON⌉ : Int) : ℚ)
      TARGET_WAYPOINT_HORIZON_LENGTH)

/-- The value of `look_ahead_index` (LocalizationStage.cpp:408-411). -/
def look_ahead_index (vehicle_velocity : ℚ) : Int :=
  max (static_cast_int ((⌊2 * vehicle_velocity⌋ : Int) : ℚ)) MINIMUM_JUNCTION_LOOK_AHEAD

/-- The value written to `planner_message.deviation` (LocalizationStage.cpp:398-403). -/
def deviation (g : Geom) (vehicle : Actor) (target_location : Vector3D) : ℚ :=
  let dot_product := DeviationDotProduct g vehicle target_location
  let cross_product := DeviationCrossProduct g vehicle target_location
  let dot_product := 1 - dot_product
  if cross_product < 0 then dot_product * (-1) else dot_product

/-- The loop `for (int i=0; i<look_ahead_index; ++i)` of the junction filter
(LocalizationStage.cpp:427-433): `n` iterations are left and `i` is the loop variable;
the result is the value `approaching_junction` ends with. -/
def ScanFanOut (map : InMemoryMap) (waypoint_buffer : Buffer) : Nat → Nat → Except Fault Bool
  | 0, _ => .ok false
  | n + 1, i => do
    let swp ← at_ waypoint_buffer i
    if (map.node swp).next_waypoints.length > 1 then .ok true
    else ScanFanOut map waypoint_buffer n (i + 1)

/-- The value of `look_ahead_point` (LocalizationStage.cpp:413-418). -/
def look_ahead_point (waypoint_buffer : Buffer) (look_ahead_index : Int) :
    Except Fault WaypointPtr :=
  if (waypoint_buffer.length : Int) > look_ahead_index then
    at_ waypoint_buffer look_ahead_index.toNat
  else
    match waypoint_buffer.getLast? with
    | some back => .ok back
    | none => .error Fault.undefined_behaviour

/-- The value of `approaching_junction` (LocalizationStage.cpp:405-437). -/
def ApproachingJunction (map : InMemoryMap) (vehicle : Actor) (vehicle_velocity : ℚ)
    (waypoint_buffer : Buffer) : Except Fault Bool := do
  let speed_limit := vehicle.speed_limit
  let look_ahead_index := look_ahead_index vehicle_velocity
  let look_ahead_point ← look_ahead_point waypoint_buffer look_ahead_index
  match waypoint_buffer.head? with
  | none => .error Fault.undefined_behaviour
  | some front =>
    if (map.node look_ahead_point).junction && !(map.node front).junction then
      if speed_limit > HIGHWAY_SPEED then
        ScanFanOut map waypoint_buffer look_ahead_index.toNat 0
      else
        .ok true
    else
      .ok false

/-- Bounds-checked write of slot `i`, for `frame->at(i)` used as a reference. -/
def set_at {α : Type} (v : List α) (i : Nat) (a : α) : Except Fault (List α) :=
  if i < v.length then .ok (v.set i a) else .error Fault.out_of_range

/-- The step "Sync lane change from buffer copy" on slot `i`
(LocalizationStage.cpp:97-115). -/
def SyncLaneChange (map : InMemoryMap) (s : LocalizationStage) (i : Nat)
    (vehicle : Actor) : Except Fault LocalizationStage := do
  let vehicle_location := vehicle.location
  let waypoint_buffer ← at_ (s.buffer_map s.collision_frame_selector) i
  let copy_waypoint_buffer ← at_ (s.buffer_map (!s.collision_frame_selector)) i
  if SyncCondition map waypoint_buffer copy_waypoint_buffer then do
    let s := s.set_buffer s.collision_frame_selector i copy_waypoint_buffer
    let locations ← set_at s.last_lane_change_location i vehicle_location
    .ok { s with last_lane_change_location := locations }
  else
    .ok s

/-- The steps "Purge passed waypoints" and "Initialize buffer if empty" on the current
buffer of slot `i` (LocalizationStage.cpp:117-138). -/
def PurgeAndInitialize (g : Geom) (map : InMemoryMap) (s : LocalizationStage) (i : Nat)
    (vehicle : Actor) : Except Fault LocalizationStage := do
  let vehicle_location := vehicle.location
  let waypoint_buffer ← at_ (s.buffer_map s.collision_frame_selector) i
  let waypoint_buffer := PurgePassedWaypoints g map vehicle waypoint_buffer
  let waypoint_buffer := InitializeIfEmpty map vehicle_location waypoint_buffer
  .ok (s.set_buffer s.collision_frame_selector i waypoint_buffer)

/-- The value of `need_to_change_lane`, with its direction, after the block
LocalizationStage.cpp:191-247. -/
def NeedToChangeLane (g : Geom) (map : InMemoryMap) (s : LocalizationStage)
    (vehicle : Actor) (current_road_ids : GeoIds)
    (left_waypoint right_waypoint : Option WaypointPtr) (co_lane_vehicles : List Nat) :
    Except Fault LaneChangeNeed :=
  if co_lane_vehicles.length ≥ 2 then
    ScanCoLaneVehicles g map s vehicle current_road_ids left_waypoint right_waypoint
      co_lane_vehicles.length co_lane_vehicles
  else
    .ok { need_to_change_lane := false, lane_change_direction := false }

/-- The block `if (need_to_change_lane and possible_to_lane_change)`
(LocalizationStage.cpp:358-367). -/
def ChangeLane (map : InMemoryMap) (s : LocalizationStage) (i : Nat)
    (change_over_distance : Int) (need_to_change_lane possible_to_lane_change : Bool)
    (change_over_point : Option WaypointPtr) : Except Fault LocalizationStage :=
  if need_to_change_lane && possible_to_lane_change then
    match change_over_point with
    | none => .error Fault.undefined_behaviour
    | some change_over_point => do
      let change_over_point ←
        AdvanceChangeOverPoint map (change_over_distance + 1).toNat change_over_point
      .ok (s.set_buffer s.collision_frame_selector i [change_over_point])
  else
    .ok s

/-- The lane-change block entered when the front waypoint is not a junction
(LocalizationStage.cpp:178-368). -/
def LaneChangeBlock (g : Geom) (map : InMemoryMap) (s : LocalizationStage) (i : Nat)
    (vehicle : Actor) (front_waypoint : WaypointPtr) (current_road_ids : GeoIds) :
    Except Fault LocalizationStage := do
  let vehicle_velocity := g.Length vehicle.velocity
  let co_lane_vehicles := s.traffic_distribution.GetVehicleIds current_road_ids
  let left_waypoint := (map.node front_waypoint).left_waypoint
  let right_waypoint := (map.node front_waypoint).right_waypoint
  let need ← NeedToChangeLane g map s vehicle current_road_ids left_waypoint right_waypoint
    co_lane_vehicles
  let change_over_distance := change_over_distance vehicle_velocity
  let possible ← PossibleToLaneChange g map s vehicle current_road_ids left_waypoint
    right_waypoint need change_over_distance
  ChangeLane map s i change_over_distance need.need_to_change_lane possible.1 possible.2

/-- The part of the pass from "Assign lane change" to the reseeding of the buffer from
the change-over point (LocalizationStage.cpp:140-368). -/
def AssignLaneChange (g : Geom) (map : InMemoryMap) (s : LocalizationStage) (i : Nat)
    (vehicle : Actor) : Except Fault LocalizationStage := do
  let actor_id := vehicle.id
  let waypoint_buffer ← at_ (s.buffer_map s.collision_frame_selector) i
  match waypoint_buffer.head? with
  | none => .error Fault.undefined_behaviour
  | some front_waypoint =>
    let current_road_ids : GeoIds :=
      { road_id := (map.node front_waypoint).road_id,
        section_id := (map.node front_waypoint).section_id,
        lane_id := (map.node front_waypoint).lane_id }
    let s := { s with traffic_distribution :=
      s.traffic_distribution.UpdateVehicleRoadPosition actor_id current_road_ids }
    if !(map.node front_waypoint).junction then
      LaneChangeBlock g map s i vehicle front_waypoint current_road_ids
    else
      .ok s

/-- The write `planner_frame_map.at(planner_frame_selector)->at(i) = message`. -/
def LocalizationStage.write_planner_frame (s : LocalizationStage) (i : Nat)
    (message : LocalizationToPlannerData) : Except Fault LocalizationStage :=
  if s.planner_frame_selector then
    (set_at s.planner_frame_a i message).map (fun f => { s with planner_frame_a := f })
  else
    (set_at s.planner_frame_b i message).map (fun f => { s with planner_frame_b := f })

/-- The write `collision_frame_map.at(collision_frame_selector)->at(i) = message`. -/
def LocalizationStage.write_collision_frame (s : LocalizationStage) (i : Nat)
    (message : LocalizationToCollisionData) : Except Fault LocalizationStage :=
  if s.collision_frame_selector then
    (set_at s.collision_frame_a i message).map (fun f => { s with collision_frame_a := f })
  else
    (set_at s.collision_frame_b i message).map (fun f => { s with collision_frame_b := f })

/-- The write `traffic_light_frame_map.at(traffic_light_frame_selector)->at(i) = message`. -/
def LocalizationStage.write_traffic_light_frame (s : LocalizationStage) (i : Nat)
    (message : LocalizationToTrafficLightData) : Except Fault LocalizationStage :=
  if s.traffic_light_frame_selector then
    (set_at s.traffic_light_frame_a i message).map
      (fun f => { s with traffic_light_frame_a := f })
  else
    (set_at s.traffic_light_frame_b i message).map
      (fun f => { s with traffic_light_frame_b := f })

/-- The read of `traffic_light_frame_map.at(traffic_light_frame_selector)->at(i)`. -/
def LocalizationStage.read_traffic_light_frame (s : LocalizationStage) (i : Nat) :
    Except Fault LocalizationToTrafficLightData :=
  at_ (if s.traffic_light_frame_selector then s.traffic_light_frame_a
    else s.traffic_light_frame_b) i

/-- An exception thrown in the stage state `s`: the state is kept with the fault, since
the writes made before the throw stay in the members of the stage. -/
def thrown_at {α : Type} (s : LocalizationStage) (x : Except Fault α) :
    Except (LocalizationStage × Fault) α :=
  match x with
  | .ok a => .ok a
  | .error e => .error (s, e)

/-- The part of the pass from "Generate output" to the end
(LocalizationStage.cpp:390-453), statement by statement in the order of the source: the
target read (397), the junction test (405-437), the write of the planner message
(441-444), of the collision message (446-448), of the first two fields of the
traffic-light message (450-452), the read `waypoint_buffer.at(look_ahead_index)` and
the write of the third field (453).  A throw returns the stage as the statements
before it have left it. -/
def GenerateOutputSteps (g : Geom) (map : InMemoryMap) (s : LocalizationStage) (i : Nat)
    (vehicle : Actor) : Except (LocalizationStage × Fault) LocalizationStage := do
  let vehicle_velocity := g.Length vehicle.velocity
  let waypoint_buffer ← thrown_at s (at_ (s.buffer_map s.collision_frame_selector) i)
  let horizon_index := horizon_index vehicle_velocity
  let target_waypoint ← thrown_at s (at_ waypoint_buffer horizon_index.toNat)
  let dot_product := deviation g vehicle (map.node target_waypoint).location
  let approaching_junction ←
    thrown_at s (ApproachingJunction map vehicle vehicle_velocity waypoint_buffer)
  let planner_message : LocalizationToPlannerData :=
    { actor := some i, deviation := dot_product,
      approaching_true_junction := approaching_junction }
  let s1 ← thrown_at s (s.write_planner_frame i planner_message)
  let collision_message : LocalizationToCollisionData :=
    { actor := some i, buffer := some (s.collision_frame_selector, i) }
  let s2 ← thrown_at s1 (s1.write_collision_frame i collision_message)
  let traffic_light_message ← thrown_at s2 (s2.read_traffic_light_frame i)
  let traffic_light_message : LocalizationToTrafficLightData :=
    { traffic_light_message with actor := some i,
                                 closest_waypoint := waypoint_buffer.head? }
  let s3 ← thrown_at s2 (s2.write_traffic_light_frame i traffic_light_message)
  let junction_look_ahead_waypoint ←
    thrown_at s3 (at_ waypoint_buffer (look_ahead_index vehicle_velocity).toNat)
  thrown_at s3 (s3.write_traffic_light_frame i
    { traffic_light_message with
      junction_look_ahead_waypoint := some junction_look_ahead_waypoint })

/-- The output step as a step of the pass: the stage it returns, or the exception that
ends the pass. -/
def GenerateOutput (g : Geom) (map : InMemoryMap) (s : LocalizationStage) (i : Nat)
    (vehicle : Actor) : Except Fault LocalizationStage :=
  match GenerateOutputSteps g map s i vehicle with
  | .ok s1 => .ok s1
  | .error (_, e) => .error e

/-- The step "Populate buffer" on the current buffer of slot `i`
(LocalizationStage.cpp:370-386). -/
def ExtendBuffer (g : Geom) (map : InMemoryMap) (fuel : Nat) (s : LocalizationStage)
    (i : Nat) (vehicle : Actor) : Except Fault LocalizationStage := do
  let vehicle_velocity := g.Length vehicle.velocity
  let horizon_size := max (WAYPOINT_TIME_HORIZON * vehicle_velocity) MINIMUM_HORIZON_LENGTH
  let waypoint_buffer ← at_ (s.buffer_map s.collision_frame_selector) i
  let waypoint_buffer ← PopulateBuffer g map s i horizon_size fuel waypoint_buffer
  .ok (s.set_buffer s.collision_frame_selector i waypoint_buffer)

/-- The body of the loop of `Action` for vehicle `i` (LocalizationStage.cpp:84-455);
`fuel` bounds the iterations of "Populate buffer". -/
def ActionPass (g : Geom) (map : InMemoryMap) (fuel : Nat) (s : LocalizationStage)
    (i : Nat) : Except Fault LocalizationStage := do
  let vehicle ← at_ s.actor_list i
  let s ← SyncLaneChange map s i vehicle
  let s ← PurgeAndInitialize g map s i vehicle
  let s ← AssignLaneChange g map s i vehicle
  let s ← ExtendBuffer g map fuel s i vehicle
  GenerateOutput g map s i vehicle

/-- The method `Action(start_index, end_index)` (LocalizationStage.cpp:82-456): the
passes for `start_index`, ..., `end_index` in turn; `count` is the number of passes. -/
def Action (g : Geom) (map : InMemoryMap) (fuel : Nat) :
    LocalizationStage → Nat → Nat → Except Fault LocalizationStage
  | s, _, 0 => .ok s
  | s, start_index, count + 1 => do
    let s ← ActionPass g map fuel s start_index
    Action g map fuel s (start_index + 1) count

/-! ## Worked examples: a geometry and two maps -/

/-- A geometry for worked examples.  Lengths are sums of absolute coordinates, which is
the Euclidean length for every vector along a coordinate axis; the examples only ever
measure such vectors. -/
def axisGeom : Geom where
  Sub a b := { x := a.x - b.x, y := a.y - b.y, z := a.z - b.z }
  Length v := |v.x| + |v.y| + |v.z|
  MakeUnitVector v :=
    let k := 1 / (|v.x| + |v.y| + |v.z|)
    { x := v.x * k, y := v.y * k, z := v.z * k }
  Dot a b := a.x * b.x + a.y * b.y + a.z * b.z
  Distance a b := |a.x - b.x| + |a.y - b.y| + |a.z - b.z|
  epsilon := 1 / 8388608
  cos135 := -7071068 / 10000000

/-- A straight one-lane road along the x axis: node `k` lies at `x = 5 k` and leads to
node `k + 1`. -/
def straightRoad : InMemoryMap where
  node k :=
    { location := { x := 5 * (k : ℚ), y := 0, z := 0 }, id := k, road_id := 1,
      section_id := 0, lane_id := 1, junction := false, next_waypoints := [k + 1],
      left_waypoint := none, right_waypoint := none }
  GetWaypoint location := ⌊location.x / 5 + 1 / 2⌋.toNat

/-- A road that ends: node 0 at the origin has no successor (every other node is as on
the straight road). -/
def deadEnd : InMemoryMap where
  node k :=
    { location := { x := 5 * (k : ℚ), y := 0, z := 0 }, id := k, road_id := 1,
      section_id := 0, lane_id := 1, junction := false,
      next_waypoints := if k = 0 then [] else [k + 1],
      left_waypoint := none, right_waypoint := none }
  GetWaypoint _ := 0

/-- A half circle of radius 5 around the origin: node 0 at `(5, 0)`, node 1 at
`(0, 5)`, node 2 (and every later one) at `(-5, 0)`. -/
def halfCircle : InMemoryMap where
  node k :=
    { location :=
        if k = 0 then { x := 5, y := 0, z := 0 }
        else if k = 1 then { x := 0, y := 5, z := 0 }
        else { x := -5, y := 0, z := 0 },
      id := k, road_id := 1, section_id := 0, lane_id := 1, junction := false,
      next_waypoints := [k + 1], left_waypoint := none, right_waypoint := none }
  GetWaypoint _ := 0

/-- A vehicle at `(x, 0, 0)` heading along the x axis with speed `v`. -/
def vehicleAt (x v : ℚ) : Actor :=
  { id := 42, location := { x := x, y := 0, z := 0 }, velocity := { x := v, y := 0, z := 0 },
    forward := { x := 1, y := 0, z := 0 }, extent_x := 2, speed_limit := 10 }

/-- A stage with the single vehicle `a` in slot 0, its two buffers `current` (under the
selector `true`) and `other`, and freshly constructed frames. -/
def singleVehicleStage (a : Actor) (current other : Buffer) : LocalizationStage :=
  { planner_frame_selector := true, collision_frame_selector := true,
    traffic_light_frame_selector := true,
    buffer_list_a := [current], buffer_list_b := [other],
    planner_frame_a := [{ actor := none, deviation := 0, approaching_true_junction := false }],
    planner_frame_b := [{ actor := none, deviation := 0, approaching_true_junction := false }],
    collision_frame_a := [{ actor := none, buffer := none }],
    collision_frame_b := [{ actor := none, buffer := none }],
    traffic_light_frame_a :=
      [{ actor := none, closest_waypoint := none, junction_look_ahead_waypoint := none }],
    traffic_light_frame_b :=
      [{ actor := none, closest_waypoint := none, junction_look_ahead_waypoint := none }],
    planner_messenger_state := -1, collision_messenger_state := -1,
    traffic_light_messenger_state := -1,
    divergence_choice := [7], last_lane_change_location := [a.location],
    traffic_distribution := { entries := [] }, actor_list := [a] }

/-! ## The spec's wording of the deviation -/

/-- The sign function of the spec's formula: `-1`, `0` or `1`. -/
def spec_sign (q : ℚ) : ℚ := if q < 0 then -1 else if q = 0 then 0 else 1

/-- The deviation in the spec's words, `(1 − dot) · sign(cross_z)`. -/
def spec_deviation (dot cross_z : ℚ) : ℚ := (1 - dot) * spec_sign cross_z

/-- The lookup `planner_frame_map.at(selector)`: frame `a` under `true`, frame `b`
under `false` (LocalizationStage.cpp:45-46). -/
def LocalizationStage.planner_frame_map (s : LocalizationStage) (selector : Bool) :
    List LocalizationToPlannerData :=
  if selector then s.planner_frame_a else s.planner_frame_b

/-! ## LocalizationStage.cpp: `DataSender` -/

/-- The three messengers the stage holds.  A payload is a pointer to one of the two
frames of its kind, named here by the selector value under which the frame map holds
it. -/
structure StageMessengers where
  planner_messenger : Messenger Bool
  collision_messenger : Messenger Bool
  traffic_light_messenger : Messenger Bool
deriving DecidableEq

/-- What the other threads do to the messengers during one call of `DataSender`: the
wake-ups of each `SendData`, and what happens to a messenger between the `GetState`
that reads it and the `SendData` that then takes its lock. -/
structure SenderInterference where
  planner_waits : List (Interference Bool)
  collision_gap : Interference Bool
  collision_waits : List (Interference Bool)
  traffic_light_gap : Interference Bool
  traffic_light_waits : List (Interference Bool)

/-- The collision part of `DataSender` (LocalizationStage.cpp:470-479); `none` when the
send has not returned. -/
def SendCollisionFrame (env : SenderInterference) (s : LocalizationStage)
    (ms : StageMessengers) : Option (LocalizationStage × StageMessengers) :=
  let collision_messenger_current_state := ms.collision_messenger.GetState
  if collision_messenger_current_state ≠ s.collision_messenger_state then
    let collision_data_packet : DataPacket Bool :=
      { id := s.collision_messenger_state, data := s.collision_frame_selector }
    match Messenger.SendData env.collision_waits (env.collision_gap ms.collision_messenger)
        collision_data_packet with
    | (_, none) => none
    | (collision_messenger, some present_state) =>
      some ({ s with collision_messenger_state := present_state,
                     collision_frame_selector := !s.collision_frame_selector },
        { ms with collision_messenger := collision_messenger })
  else
    some (s, ms)

/-- The traffic-light part of `DataSender` (LocalizationStage.cpp:481-489); `none` when
the send has not returned. -/
def SendTrafficLightFrame (env : SenderInterference) (s : LocalizationStage)
    (ms : StageMessengers) : Option (LocalizationStage × StageMessengers) :=
  let traffic_light_data_packet : DataPacket Bool :=
    { id := s.traffic_light_messenger_state, data := s.traffic_light_frame_selector }
  let traffic_light_messenger_current_state := ms.traffic_light_messenger.GetState
  if traffic_light_messenger_current_state ≠ s.traffic_light_messenger_state then
    match Messenger.SendData env.traffic_light_waits
        (env.traffic_light_gap ms.traffic_light_messenger) traffic_light_data_packet with
    | (_, none) => none
    | (traffic_light_messenger, some present_state) =>
      some ({ s with traffic_light_messenger_state := present_state,
                     traffic_light_frame_selector := !s.traffic_light_frame_selector },
        { ms with traffic_light_messenger := traffic_light_messenger })
  else
    some (s, ms)

/-- The planner part of `DataSender` (LocalizationStage.cpp:463-468); `none` when the
send has not returned. -/
def SendPlannerFrame (env : SenderInterference) (s : LocalizationStage)
    (ms : StageMessengers) : Option (LocalizationStage × StageMessengers) :=
  let planner_data_packet : DataPacket Bool :=
    { id := s.planner_messenger_state, data := s.planner_frame_selector }
  let s := { s with planner_frame_selector := !s.planner_frame_selector }
  match Messenger.SendData env.planner_waits ms.planner_messenger planner_data_packet with
  | (_, none) => none
  | (planner_messenger, some present_state) =>
    some ({ s with planner_messenger_state := present_state },
      { ms with planner_messenger := planner_messenger })

/-- The method `DataSender` (LocalizationStage.cpp:461-490); `none` when one of its
sends has not returned. -/
def DataSender (env : SenderInterference) (s : LocalizationStage) (ms : StageMessengers) :
    Option (LocalizationStage × StageMessengers) :=
  match SendPlannerFrame env s ms with
  | none => none
  | some (s, ms) =>
    match SendCollisionFrame env s ms with
    | none => none
    | some (s, ms) => SendTrafficLightFrame env s ms


/-! ## Worked examples: the U-turn -/

/-- A road that turns back: node 0 at `(5, 0)`, node 1 at `(0, 5)`, and node `k ≥ 2`
at `(-5 (k - 1), 0)`, each leading to the next. -/
def uTurn : InMemoryMap where
  node k :=
    { location :=
        if k = 0 then { x := 5, y := 0, z := 0 }
        else if k = 1 then { x := 0, y := 5, z := 0 }
        else { x := -5 * ((k : ℚ) - 1), y := 0, z := 0 },
      id := k, road_id := 1, section_id := 0, lane_id := 1, junction := false,
      next_waypoints := [k + 1], left_waypoint := none, right_waypoint := none }
  GetWaypoint _ := 0


/-- A straight one-lane road whose nodes are 30 m apart: node `k` lies at `x = 30 k`
and leads to node `k + 1`. -/
def sparseRoad : InMemoryMap where
  node k :=
    { location := { x := 30 * (k : ℚ), y := 0, z := 0 }, id := k, road_id := 1,
      section_id := 0, lane_id := 1, junction := false, next_waypoints := [k + 1],
      left_waypoint := none, right_waypoint := none }
  GetWaypoint location := ⌊location.x / 30 + 1 / 2⌋.toNat


/-- The value of `current_road_ids` for a front waypoint (LocalizationStage.cpp:142-146). -/
def current_road_ids (map : InMemoryMap) (front_waypoint : WaypointPtr) : GeoIds :=
  { road_id := (map.node front_waypoint).road_id,
    section_id := (map.node front_waypoint).section_id,
    lane_id := (map.node front_waypoint).lane_id }

/-- The stage after `traffic_distribution.UpdateVehicleRoadPosition(actor_id,
current_road_ids)` (LocalizationStage.cpp:148-151). -/
def LocalizationStage.publish_road_position (s : LocalizationStage) (map : InMemoryMap)
    (vehicle : Actor) (front_waypoint : WaypointPtr) : LocalizationStage :=
  let traffic_distribution := s.traffic_distribution.UpdateVehicleRoadPosition vehicle.id
    (current_road_ids map front_waypoint)
  { s with traffic_distribution := traffic_distribution }


/-- Three freshly constructed messengers (counter 0), each holding the pointer to
frame `a`. -/
def freshMessengers : StageMessengers :=
  { planner_messenger := Messenger.new true, collision_messenger := Messenger.new true,
    traffic_light_messenger := Messenger.new true }

/-- A call of `DataSender` during which no other thread touches the messengers. -/
def quietSender : SenderInterference :=
  { planner_waits := [], collision_gap := id, collision_waits := [],
    traffic_light_gap := id, traffic_light_waits := [] }

/-- The single-vehicle stage whose last observed traffic-light messenger state is 0,
the state of a fresh messenger, the other two observed states being `-1`. -/
def senderStage : LocalizationStage :=
  { singleVehicleStage (vehicleAt 4 0) [] [] with traffic_light_messenger_state := 0 }


/-! ## The spec's wording of the hazard rule -/

/-- The hazard rule in the spec's words, for a candidate with relative dot product
`relative_dot`, at the distances `d_other` and `d_self` of the candidate and of the
vehicle from the merge point. -/
def spec_hazard (cos135 relative_dot d_other d_self speed_other speed_self : ℚ)
    (change_over_distance : Int) (bbox_extent_x : ℚ) : Prop :=
  if relative_dot < 0 then
    relative_dot > cos135 ∨
      (d_other + change_over_distance) / speed_other
        > (d_self + change_over_distance) / speed_self
  else
    d_other < 1 + change_over_distance + 2 * bbox_extent_x

/-- A vehicle the hazard loop counts as a hazard: it has a slot, a non-empty buffer
whose front is on the target lane, and the hazard test of that front succeeds. -/
def HazardCandidate (g : Geom) (map : InMemoryMap) (s : LocalizationStage) (vehicle : Actor)
    (change_over_point : WaypointPtr) (change_over_distance : Int)
    (other_vehicle_id : Nat) : Prop :=
  ∃ (index : Nat) (other_front : WaypointPtr) (rest : Buffer) (other_vehicle : Actor),
    vehicle_id_to_index s.actor_list other_vehicle_id = .ok index ∧
    at_ (s.buffer_map s.collision_frame_selector) index = .ok (other_front :: rest) ∧
    (map.node other_front).lane_id = (map.node change_over_point).lane_id ∧
    at_ s.actor_list index = .ok other_vehicle ∧
    IsHazard g map vehicle other_vehicle change_over_point change_over_distance
      (map.node other_front).location = true

/-- The vehicles `traffic_distribution` holds on the lane of `change_over_point`, on
the road and section of `current_road_ids` (LocalizationStage.cpp:278-283). -/
def target_lane_vehicles (map : InMemoryMap) (s : LocalizationStage)
    (current_road_ids : GeoIds) (change_over_point : WaypointPtr) : List Nat :=
  s.traffic_distribution.GetVehicleIds
    { road_id := current_road_ids.road_id, section_id := current_road_ids.section_id,
      lane_id := (map.node change_over_point).lane_id }

/-! ## Worked examples: two lanes -/

/-- The least `k` at or above the start value with `n ≤ k * k`, searched upwards for at
most the given number of steps. -/
def sqrt_search (n : Nat) : Nat → Nat → Nat
  | 0, k => k
  | fuel + 1, k => if n ≤ k * k then k else sqrt_search n fuel (k + 1)

/-- The square root of a rational that is the square of a rational. -/
def exact_sqrt (q : ℚ) : ℚ :=
  (sqrt_search q.num.toNat q.num.toNat 0 : ℚ) / (sqrt_search q.den q.den 0 : ℚ)

/-- Euclidean geometry on vectors of rational length; the examples on two lanes only
ever measure such vectors (along an axis, or with legs 4 and 3). -/
def planeGeom : Geom where
  Sub a b := { x := a.x - b.x, y := a.y - b.y, z := a.z - b.z }
  Length v := exact_sqrt (v.x * v.x + v.y * v.y + v.z * v.z)
  MakeUnitVector v :=
    let k := 1 / exact_sqrt (v.x * v.x + v.y * v.y + v.z * v.z)
    { x := v.x * k, y := v.y * k, z := v.z * k }
  Dot a b := a.x * b.x + a.y * b.y + a.z * b.z
  Distance a b :=
    exact_sqrt ((a.x - b.x) * (a.x - b.x) + (a.y - b.y) * (a.y - b.y)
      + (a.z - b.z) * (a.z - b.z))
  epsilon := 1 / 8388608
  cos135 := -7071068 / 10000000

/-- A straight road of two lanes with nodes 4 m apart.  Node `k < 1000` lies on the
right lane (lane 1) at `(4 k, 0)` and has node `1000 + k` as its left sibling; node
`1000 + k` lies on the left lane (lane 2) at `(4 k, 3)`.  Every node leads to the next
one of its lane. -/
def twoLaneRoad : InMemoryMap where
  node k :=
    if k < 1000 then
      { location := { x := 4 * (k : ℚ), y := 0, z := 0 }, id := k, road_id := 1,
        section_id := 0, lane_id := 1, junction := false, next_waypoints := [k + 1],
        left_waypoint := some (1000 + k), right_waypoint := none }
    else
      { location := { x := 4 * ((k : ℚ) - 1000), y := 3, z := 0 }, id := k, road_id := 1,
        section_id := 0, lane_id := 2, junction := false, next_waypoints := [k + 1],
        left_waypoint := none, right_waypoint := some (k - 1000) }
  GetWaypoint location := ⌊location.x / 4 + 1 / 2⌋.toNat

/-- A vehicle with the given id at `(x, y, 0)`, heading along the x axis with speed `v`. -/
def laneVehicle (id : Nat) (x y v : ℚ) : Actor :=
  { id := id, location := { x := x, y := y, z := 0 }, velocity := { x := v, y := 0, z := 0 },
    forward := { x := 1, y := 0, z := 0 }, extent_x := 2, speed_limit := 10 }

/-- A stage with the given vehicles, their current buffers (under the selector `true`)
and the given content of the traffic distribution; the other buffers are empty and the
frames freshly constructed. -/
def laneStage (actors : List Actor) (buffers : BufferList) (entries : List (Nat × GeoIds)) :
    LocalizationStage :=
  { planner_frame_selector := true, collision_frame_selector := true,
    traffic_light_frame_selector := true,
    buffer_list_a := buffers, buffer_list_b := List.replicate actors.length [],
    planner_frame_a := List.replicate actors.length
      { actor := none, deviation := 0, approaching_true_junction := false },
    planner_frame_b := List.replicate actors.length
      { actor := none, deviation := 0, approaching_true_junction := false },
    collision_frame_a := List.replicate actors.length { actor := none, buffer := none },
    collision_frame_b := List.replicate actors.length { actor := none, buffer := none },
    traffic_light_frame_a := List.replicate actors.length
      { actor := none, closest_waypoint := none, junction_look_ahead_waypoint := none },
    traffic_light_frame_b := List.replicate actors.length
      { actor := none, closest_waypoint := none, junction_look_ahead_waypoint := none },
    planner_messenger_state := -1, collision_messenger_state := -1,
    traffic_light_messenger_state := -1,
    divergence_choice := List.replicate actors.length 7,
    last_lane_change_location := actors.map (fun a => a.location),
    traffic_distribution := { entries := entries }, actor_list := actors }

/-- The follower of the two-lane examples: id 1 at `x = 8` on the right lane, 10 m/s. -/
def follower : Actor := laneVehicle 1 8 0 10

/-- The leader of the two-lane examples: id 2 at `x = 23` on the right lane, 2 m/s. -/
def leader : Actor := laneVehicle 2 23 0 2

/-- The right lane of the two-lane road as a key of the traffic distribution. -/
def rightLane : GeoIds := { road_id := 1, section_id := 0, lane_id := 1 }

/-- The left lane of the two-lane road as a key of the traffic distribution. -/
def leftLane : GeoIds := { road_id := 1, section_id := 0, lane_id := 2 }

/-- Follower and leader on the right lane, the left lane empty.  The follower's buffer
starts at node 3 (`x = 12`), the leader's at node 6 (`x = 24`, 16 m ahead of the
follower). -/
def overtakeStage : LocalizationStage :=
  laneStage [follower, leader]
    [[3, 4, 5, 6, 7, 8, 9, 10], [6, 7, 8, 9, 10, 11, 12, 13]]
    [(1, rightLane), (2, rightLane)]

/-- The stage `overtakeStage` with two more vehicles: id 3 at `x = 3` on the left lane at
12 m/s, whose buffer starts at node 1001 (`(4, 3)`, behind the follower), and id 4 far
ahead on the right lane, so that the right lane holds 3 vehicles and the left lane 1. -/
def blockedStage : LocalizationStage :=
  laneStage [follower, leader, laneVehicle 3 3 3 12, laneVehicle 4 99 0 10]
    [[3, 4, 5, 6, 7, 8, 9, 10], [6, 7, 8, 9, 10, 11, 12, 13],
      [1001, 1002, 1003, 1004, 1005, 1006, 1007, 1008],
      [25, 26, 27, 28, 29, 30, 31, 32]]
    [(1, rightLane), (2, rightLane), (3, leftLane), (4, rightLane)]

/-- The stage `overtakeStage` with three more vehicles, ids 3, 4 and 5, on the left
lane: the left lane holds 3 vehicles and the right lane 2. -/
def crowdedStage : LocalizationStage :=
  laneStage
    [follower, leader, laneVehicle 3 40 3 10, laneVehicle 4 60 3 10, laneVehicle 5 80 3 10]
    [[3, 4, 5, 6, 7, 8, 9, 10], [6, 7, 8, 9, 10, 11, 12, 13],
      [1011, 1012, 1013, 1014, 1015, 1016, 1017, 1018],
      [1016, 1017, 1018, 1019, 1020, 1021, 1022, 1023],
      [1021, 1022, 1023, 1024, 1025, 1026, 1027, 1028]]
    [(1, rightLane), (2, rightLane), (3, leftLane), (4, leftLane), (5, leftLane)]


/-- The straight road of `straightRoad` with a junction at node 41. -/
def junctionRoad : InMemoryMap where
  node k :=
    { location := { x := 5 * (k : ℚ), y := 0, z := 0 }, id := k, road_id := 1,
      section_id := 0, lane_id := 1, junction := decide (k = 41), next_waypoints := [k + 1],
      left_waypoint := none, right_waypoint := none }
  GetWaypoint location := ⌊location.x / 5 + 1 / 2⌋.toNat

/-- A vehicle at `x = 4` on the x axis at 20 m/s under a speed limit of 25 m/s. -/
def highwayVehicle : Actor := { vehicleAt 4 20 with speed_limit := 25 }

/-- The same vehicle under a speed limit equal to the single-precision value of
`HIGHWAY_SPEED`, which lies above `50 / 3.6`. -/
def roundedLimitVehicle : Actor := { vehicleAt 4 20 with speed_limit := 3640889 / 262144 }

/-- The junction verdict in the spec's words for the look-ahead index `k`: `buffer[k]` is
a junction, the front is not, and either the speed limit is at most `50 / 3.6` or some
buffer node at an index below `k` has more than one successor. -/
def spec_approaching_junction (map : InMemoryMap) (speed_limit : ℚ) (k : Nat)
    (waypoint_buffer : Buffer) : Prop :=
  ∃ front ahead, waypoint_buffer.head? = some front ∧ waypoint_buffer.get? k = some ahead ∧
    (map.node ahead).junction = true ∧ (map.node front).junction = false ∧
    (speed_limit ≤ 50 / (36 / 10) ∨
      ∃ j, j < k ∧ ∃ w, waypoint_buffer.get? j = some w ∧
        1 < (map.node w).next_waypoints.length)


/-- The follower of the two-lane road with its current buffer on the right lane and its
other buffer on the left lane, as after a lane change made in the other buffer; the
recorded location of the last lane change is the origin. -/
def syncStage : LocalizationStage :=
  let s := laneStage [follower] [[3, 4, 5, 6]] [(1, rightLane)]
  { s with buffer_list_b := [[1004, 1005, 1006]],
           last_lane_change_location := [{ x := 0, y := 0, z := 0 }] }

/-- The same vehicle with both buffers on the right lane, their fronts two nodes apart. -/
def agreeingStage : LocalizationStage :=
  let s := laneStage [follower] [[3, 4, 5, 6]] [(1, rightLane)]
  { s with buffer_list_b := [[5, 6, 7]],
           last_lane_change_location := [{ x := 0, y := 0, z := 0 }] }


/-! ## Worked examples: three lanes -/

/-- A straight road of three lanes with nodes 4 m apart.  Node `k < 1000` is on the
middle lane (lane id 2) at `(4 k, 0)`, with the left sibling `1000 + k` and the right
sibling `2000 + k`; node `1000 + k` is on the left lane (lane id 1) at `(4 k, 3)` and
node `2000 + k` on the right lane (lane id 3) at `(4 k, -3)`. -/
def threeLaneRoad : InMemoryMap where
  node k :=
    if k < 1000 then
      { location := { x := 4 * (k : ℚ), y := 0, z := 0 }, id := k, road_id := 1,
        section_id := 0, lane_id := 2, junction := false, next_waypoints := [k + 1],
        left_waypoint := some (1000 + k), right_waypoint := some (2000 + k) }
    else if k < 2000 then
      { location := { x := 4 * ((k : ℚ) - 1000), y := 3, z := 0 }, id := k, road_id := 1,
        section_id := 0, lane_id := 1, junction := false, next_waypoints := [k + 1],
        left_waypoint := none, right_waypoint := some (k - 1000) }
    else
      { location := { x := 4 * ((k : ℚ) - 2000), y := -3, z := 0 }, id := k, road_id := 1,
        section_id := 0, lane_id := 3, junction := false, next_waypoints := [k + 1],
        left_waypoint := some (k - 2000), right_waypoint := none }
  GetWaypoint location := ⌊location.x / 4 + 1 / 2⌋.toNat

/-- The middle lane of the three-lane road as a key of the traffic distribution. -/
def middleLane : GeoIds := { road_id := 1, section_id := 0, lane_id := 2 }

/-- The left lane of the three-lane road as a key of the traffic distribution. -/
def outerLeftLane : GeoIds := { road_id := 1, section_id := 0, lane_id := 1 }

/-- The right lane of the three-lane road as a key of the traffic distribution. -/
def outerRightLane : GeoIds := { road_id := 1, section_id := 0, lane_id := 3 }

/-- On the middle lane of the three-lane road: the follower, the leader 15 m ahead and
vehicle 4 far ahead.  On the left lane vehicle 3 at 12 m/s, its buffer front at node 1001
(`(4, 3)`, behind the follower).  The right lane is empty. -/
def hemmedStage : LocalizationStage :=
  laneStage [follower, leader, laneVehicle 3 3 3 12, laneVehicle 4 99 0 10]
    [[3, 4, 5, 6, 7, 8, 9, 10], [6, 7, 8, 9, 10, 11, 12, 13],
      [1001, 1002, 1003, 1004, 1005, 1006, 1007, 1008],
      [25, 26, 27, 28, 29, 30, 31, 32]]
    [(1, middleLane), (2, middleLane), (3, outerLeftLane), (4, middleLane)]

/-- On the middle lane of the three-lane road the follower and the leader only, on the
left lane vehicle 3 far ahead, and the right lane empty: the count for the left lane is
`2 - 1 = 1`. -/
def outnumberedStage : LocalizationStage :=
  laneStage [follower, leader, laneVehicle 3 99 3 10]
    [[3, 4, 5, 6, 7, 8, 9, 10], [6, 7, 8, 9, 10, 11, 12, 13],
      [1025, 1026, 1027, 1028, 1029, 1030, 1031, 1032]]
    [(1, middleLane), (2, middleLane), (3, outerLeftLane)]


/-! ## The spec's wording of the divergence choice -/

/-- The index in the spec's words, `(divergence_choice[i] · (1 + back.id)) mod fanout`
on mathematical integers. -/
def spec_selection_index (choice : Int) (pre_selection_id fanout : Nat) : Int :=
  (choice * (1 + (pre_selection_id : Int))) % (fanout : Int)

/-- The straight road of `straightRoad` with a fork at node 1: node 1 carries the id
`2^62 - 1` and leads to the nodes 2, 102 and 202, each of which starts a branch of its
own; node `k` lies at `x = 5 (k mod 100)`. -/
def forkRoad : InMemoryMap where
  node k :=
    { location := { x := 5 * ((k % 100 : Nat) : ℚ), y := 0, z := 0 },
      id := if k = 1 then 4611686018427387903 else k, road_id := 1,
      section_id := 0, lane_id := 1, junction := false,
      next_waypoints := if k = 1 then [2, 102, 202] else [k + 1],
      left_waypoint := none, right_waypoint := none }
  GetWaypoint location := ⌊location.x / 5 + 1 / 2⌋.toNat


/-! ## Buffers as paths of the waypoint graph -/

/-- A buffer that is a successor chain: each node after the first is one of the
successors of the node before it. -/
def successor_chain (map : InMemoryMap) (b : Buffer) : Prop :=
  List.Chain' (fun a w => w ∈ (map.node a).next_waypoints) b


/-! ## The observed messenger states -/

/-- The assignments `planner_messenger_state = planner_messenger->GetState() - 1` and
the two that follow it in the constructor (LocalizationStage.cpp:59-61). -/
def LocalizationStage.observe_messengers (s : LocalizationStage) (ms : StageMessengers) :
    LocalizationStage :=
  let planner_messenger_state := wrapInt (ms.planner_messenger.GetState - 1)
  let collision_messenger_state := wrapInt (ms.collision_messenger.GetState - 1)
  let traffic_light_messenger_state := wrapInt (ms.traffic_light_messenger.GetState - 1)
  { s with planner_messenger_state := planner_messenger_state,
           collision_messenger_state := collision_messenger_state,
           traffic_light_messenger_state := traffic_light_messenger_state }

/-- The packet `DataSender` passes to the planner messenger. -/
def planner_data_packet (s : LocalizationStage) : DataPacket Bool :=
  { id := s.planner_messenger_state, data := s.planner_frame_selector }

/-- The packet `DataSender` passes to the collision messenger. -/
def collision_data_packet (s : LocalizationStage) : DataPacket Bool :=
  { id := s.collision_messenger_state, data := s.collision_frame_selector }

/-- The packet `DataSender` passes to the traffic-light messenger. -/
def traffic_light_data_packet (s : LocalizationStage) : DataPacket Bool :=
  { id := s.traffic_light_messenger_state, data := s.traffic_light_frame_selector }

/-- The stage whose last observed planner state is 0, the state of the fresh planner
messenger: nothing has been received since the last send. -/
def waitingStage : LocalizationStage :=
  { singleVehicleStage (vehicleAt 4 0) [] [] with planner_messenger_state := 0 }

/-- A call of `DataSender` during which the receivers complete one `ReceiveData` on the
collision and on the traffic-light messenger between the `GetState` and the `SendData`
of the sender. -/
def busySender : SenderInterference :=
  { planner_waits := [],
    collision_gap := fun m => (Messenger.ReceiveData [] m (m.state_counter - 1)).1,
    collision_waits := [],
    traffic_light_gap := fun m => (Messenger.ReceiveData [] m (m.state_counter - 1)).1,
    traffic_light_waits := [] }


/-! ## Frames sized for the vehicles -/

/-- Slot `i` exists in each of the six frames, as it does for every vehicle index after
the constructor has made the frames with `number_of_vehicles` elements
(LocalizationStage.cpp:41-57). -/
def LocalizationStage.frames_have_slot (s : LocalizationStage) (i : Nat) : Prop :=
  i < s.planner_frame_a.length ∧ i < s.planner_frame_b.length ∧
  i < s.collision_frame_a.length ∧ i < s.collision_frame_b.length ∧
  i < s.traffic_light_frame_a.length ∧ i < s.traffic_light_frame_b.length

instance (s : LocalizationStage) (i : Nat) : Decidable (s.frames_have_slot i) :=
  inferInstanceAs (Decidable (_ ∧ _))


/-- What a thrown output step has left in the planner frame under the selector, with
the exception: the verdicts `approaching_true_junction` of the slots; `none` for a step
that returned. -/
def thrown_planner_verdicts (r : Except (LocalizationStage × Fault) LocalizationStage) :
    Option (List Bool × Fault) :=
  match r with
  | .ok _ => none
  | .error (s, e) =>
    some ((s.planner_frame_map s.planner_frame_selector).map
      (fun m => m.approaching_true_junction), e)


end traffic_manager

namespace traffic_manager

namespace Messenger

variable {Data : Type}

/-! ## Properties of the messenger -/

lemma wrapInt_succ_ne (c : Int) : wrapInt (c + 1) ≠ c := by
  unfold wrapInt; omega

lemma wrapInt_succ_eq (c : Int) (h0 : INT_MIN ≤ c) (h1 : c < INT_MAX) :
    wrapInt (c + 1) = c + 1 := by
  unfold wrapInt INT_MIN INT_MAX at *; omega

lemma wrapInt_succ_range (c : Int) :
    INT_MIN ≤ wrapInt (c + 1) ∧ wrapInt (c + 1) ≤ INT_MAX := by
  unfold wrapInt INT_MIN INT_MAX; omega

/-- A send entered with a counter other than the packet id runs straight through. -/
lemma SendData_of_ne (env : List (Interference Data)) (m : Messenger Data)
    (packet : DataPacket Data) (h : m.state_counter ≠ packet.id) :
    SendData env m packet =
      ({ m with data := packet.data, state_counter := wrapInt (m.state_counter + 1) },
        some (wrapInt (m.state_counter + 1))) := by
  unfold SendData
  simp [h, SendData_tail]

/-- A receive entered with a counter other than `old_state` runs straight through. -/
lemma ReceiveData_of_ne (env : List (Interference Data)) (m : Messenger Data)
    (old_state : Int) (h : m.state_counter ≠ old_state) :
    ReceiveData env m old_state =
      ({ m with state_counter := wrapInt (m.state_counter + 1) },
        some { id := wrapInt (m.state_counter + 1), data := m.data }) := by
  unfold ReceiveData
  simp [h, ReceiveData_tail]

/-- A send whose counter equals the packet id stays in its wait loop for as long as
the other threads neither touch the counter nor stop the messenger. -/
lemma SendData_blocked (env : List (Interference Data)) :
    ∀ (m : Messenger Data) (packet : DataPacket Data),
      m.state_counter = packet.id → m.stop_messenger = false →
      (∀ e ∈ env, KeepsCounter e ∧ KeepsRunning e) →
      (SendData env m packet).2 = none ∧
        (SendData env m packet).1.state_counter = m.state_counter ∧
        (SendData env m packet).1.stop_messenger = false := by
  induction env with
  | nil =>
    intro m packet hc hs _
    unfold SendData
    simp [hc, hs]
  | cons e rest ih =>
    intro m packet hc hs henv
    have he := henv e (List.mem_cons_self e rest)
    have hstop : (e m).stop_messenger = false := he.2 m hs
    have hcnt : (e m).state_counter = packet.id := by rw [he.1 m]; exact hc
    have hrest := ih (e m) packet hcnt hstop
      (fun x hx => henv x (List.mem_cons_of_mem e hx))
    unfold SendData
    simp only [hc, if_true, hstop, Bool.false_eq_true, if_false]
    exact ⟨hrest.1, by rw [hrest.2.1, hcnt], hrest.2.2⟩

/-- The receive counterpart of `SendData_blocked`. -/
lemma ReceiveData_blocked (env : List (Interference Data)) :
    ∀ (m : Messenger Data) (old_state : Int),
      m.state_counter = old_state → m.stop_messenger = false →
      (∀ e ∈ env, KeepsCounter e ∧ KeepsRunning e) →
      (ReceiveData env m old_state).2 = none ∧
        (ReceiveData env m old_state).1.state_counter = m.state_counter ∧
        (ReceiveData env m old_state).1.stop_messenger = false := by
  induction env with
  | nil =>
    intro m old_state hc hs _
    unfold ReceiveData
    simp [hc, hs]
  | cons e rest ih =>
    intro m old_state hc hs henv
    have he := henv e (List.mem_cons_self e rest)
    have hstop : (e m).stop_messenger = false := he.2 m hs
    have hcnt : (e m).state_counter = old_state := by rw [he.1 m]; exact hc
    have hrest := ih (e m) old_state hcnt hstop
      (fun x hx => henv x (List.mem_cons_of_mem e hx))
    unfold ReceiveData
    simp only [hc, if_true, hstop, Bool.false_eq_true, if_false]
    exact ⟨hrest.1, by rw [hrest.2.1, hcnt], hrest.2.2⟩

/-- A send that returns does so from some messenger state with the entry counter,
provided the other threads left the counter alone: the result is the tail applied
to a state that differs from the entry state in the stop flag and payload at most. -/
lemma SendData_returns (env : List (Interference Data)) :
    ∀ (m m1 : Messenger Data) (packet : DataPacket Data) (r : Int),
      (∀ e ∈ env, KeepsCounter e) →
      SendData env m packet = (m1, some r) →
      m1.state_counter = wrapInt (m.state_counter + 1) ∧ r = m1.state_counter ∧
        m1.data = packet.data := by
  induction env with
  | nil =>
    intro m m1 packet r _ h
    unfold SendData at h
    by_cases hc : m.state_counter = packet.id
    · simp [hc] at h
    · simp [hc, SendData_tail] at h
      obtain ⟨h1, h2⟩ := h
      subst h1
      simp [← h2]
  | cons e rest ih =>
    intro m m1 packet r henv h
    unfold SendData at h
    by_cases hc : m.state_counter = packet.id
    · have he := henv e (List.mem_cons_self e rest)
      by_cases hs : (e m).stop_messenger = true
      · simp [hc, hs, SendData_tail] at h
        obtain ⟨h1, h2⟩ := h
        subst h1
        simp [← h2, he m, hc]
      · simp only [hc, if_true, hs] at h
        have := ih (e m) m1 packet r (fun x hx => henv x (List.mem_cons_of_mem e hx)) h
        rw [he m] at this
        exact this
    · simp [hc, SendData_tail] at h
      obtain ⟨h1, h2⟩ := h
      subst h1
      simp [← h2]

/-- The receive counterpart of `SendData_returns`; the payload handed out is the one
stored when the receive leaves its loop. -/
lemma ReceiveData_returns (env : List (Interference Data)) :
    ∀ (m m1 : Messenger Data) (old_state : Int) (p : DataPacket Data),
      (∀ e ∈ env, KeepsCounter e) →
      ReceiveData env m old_state = (m1, some p) →
      m1.state_counter = wrapInt (m.state_counter + 1) ∧ p.id = m1.state_counter ∧
        p.data = m1.data := by
  induction env with
  | nil =>
    intro m m1 old_state p _ h
    unfold ReceiveData at h
    by_cases hc : m.state_counter = old_state
    · simp [hc] at h
    · simp [hc, ReceiveData_tail] at h
      obtain ⟨h1, h2⟩ := h
      subst h1
      simp [← h2]
  | cons e rest ih =>
    intro m m1 old_state p henv h
    unfold ReceiveData at h
    by_cases hc : m.state_counter = old_state
    · have he := henv e (List.mem_cons_self e rest)
      by_cases hs : (e m).stop_messenger = true
      · simp [hc, hs, ReceiveData_tail] at h
        obtain ⟨h1, h2⟩ := h
        subst h1
        simp [← h2, he m, hc]
      · simp only [hc, if_true, hs] at h
        have := ih (e m) m1 old_state p (fun x hx => henv x (List.mem_cons_of_mem e hx)) h
        rw [he m] at this
        exact this
    · simp [hc, ReceiveData_tail] at h
      obtain ⟨h1, h2⟩ := h
      subst h1
      simp [← h2]

/-- Whatever the other threads did, a send that returns hands back the counter it
left behind, and the payload it left behind is the packet's. -/
lemma SendData_result (env : List (Interference Data)) :
    ∀ (m m1 : Messenger Data) (packet : DataPacket Data) (r : Int),
      SendData env m packet = (m1, some r) →
      r = m1.state_counter ∧ m1.data = packet.data := by
  induction env with
  | nil =>
    intro m m1 packet r h
    unfold SendData at h
    by_cases hc : m.state_counter = packet.id
    · simp [hc] at h
    · simp [hc, SendData_tail] at h
      obtain ⟨h1, h2⟩ := h
      subst h1
      simp [← h2]
  | cons e rest ih =>
    intro m m1 packet r h
    unfold SendData at h
    by_cases hc : m.state_counter = packet.id
    · by_cases hs : (e m).stop_messenger = true
      · simp [hc, hs, SendData_tail] at h
        obtain ⟨h1, h2⟩ := h
        subst h1
        simp [← h2]
      · simp only [hc, if_true, hs] at h
        exact ih (e m) m1 packet r h
    · simp [hc, SendData_tail] at h
      obtain ⟨h1, h2⟩ := h
      subst h1
      simp [← h2]

/-- Whatever the other threads did, a receive that returns hands back the counter
and the payload it left behind. -/
lemma ReceiveData_result (env : List (Interference Data)) :
    ∀ (m m1 : Messenger Data) (old_state : Int) (p : DataPacket Data),
      ReceiveData env m old_state = (m1, some p) →
      p.id = m1.state_counter ∧ p.data = m1.data := by
  induction env with
  | nil =>
    intro m m1 old_state p h
    unfold ReceiveData at h
    by_cases hc : m.state_counter = old_state
    · simp [hc] at h
    · simp [hc, ReceiveData_tail] at h
      obtain ⟨h1, h2⟩ := h
      subst h1
      simp [← h2]
  | cons e rest ih =>
    intro m m1 old_state p h
    unfold ReceiveData at h
    by_cases hc : m.state_counter = old_state
    · by_cases hs : (e m).stop_messenger = true
      · simp [hc, hs, ReceiveData_tail] at h
        obtain ⟨h1, h2⟩ := h
        subst h1
        simp [← h2]
      · simp only [hc, if_true, hs] at h
        exact ih (e m) m1 old_state p h
    · simp [hc, ReceiveData_tail] at h
      obtain ⟨h1, h2⟩ := h
      subst h1
      simp [← h2]

/-- Plain time-outs keep the counter and never stop the messenger. -/
lemma timeouts_quiet (n : Nat) :
    ∀ e ∈ List.replicate n (id : Interference Data), KeepsCounter e ∧ KeepsRunning e := by
  intro e he
  rw [List.eq_of_mem_replicate he]
  exact ⟨fun _ => rfl, fun _ h => h⟩

/-! ### C1: round trip -/

/-- C1 (counterexample). On the freshly constructed messenger (counter 0, running) the
call `SendData({id = 0, data = 7})`, whose id is the current counter, never returns
however many time-outs it sits through, so no receive follows it and no round trip
with counter 2 takes place. -/
theorem C1_send_with_current_counter_never_returns :
    ¬ ∃ (n k : Nat) (m1 m2 : Messenger Nat) (r : Int) (p : DataPacket Nat),
        SendData (List.replicate n id) (Messenger.new 0) { id := 0, data := 7 } = (m1, some r) ∧
        ReceiveData (List.replicate k id) m1 0 = (m2, some p) ∧
        p.data = 7 ∧ m2.state_counter = 2 := by
  rintro ⟨n, k, m1, m2, r, p, hs, -⟩
  have hb := (SendData_blocked (List.replicate n id) (Messenger.new 0)
    { id := 0, data := 7 } rfl rfl (timeouts_quiet n)).1
  rw [hs] at hb
  exact Option.some_ne_none r hb

/-- C1 (amended). For every messenger and payload `X`, with `state_before` the counter
before the calls, `SendData({id = i, data = X})` with an id `i` other than
`state_before`, immediately followed by `ReceiveData(state_before)`, returns (neither
call waits) a packet whose data is `X`, and leaves the counter two `int` increments
above `state_before`: at `state_before + 2` whenever that does not overflow. -/
theorem C1_round_trip (env1 env2 : List (Interference Data)) (m : Messenger Data)
    (i : Int) (X : Data) (hi : i ≠ m.state_counter) :
    ∃ m1 m2 : Messenger Data,
      SendData env1 m { id := i, data := X } = (m1, some (wrapInt (m.state_counter + 1))) ∧
      ReceiveData env2 m1 m.state_counter
        = (m2, some { id := m2.state_counter, data := X }) ∧
      m2.state_counter = wrapInt (wrapInt (m.state_counter + 1) + 1) ∧
      (INT_MIN ≤ m.state_counter → m.state_counter + 2 ≤ INT_MAX →
        m2.state_counter = m.state_counter + 2) := by
  refine ⟨{ m with data := X, state_counter := wrapInt (m.state_counter + 1) },
    { m with data := X, state_counter := wrapInt (wrapInt (m.state_counter + 1) + 1) },
    SendData_of_ne env1 m _ (fun h => hi h.symm), ?_, rfl, ?_⟩
  · rw [ReceiveData_of_ne env2 _ _ (wrapInt_succ_ne m.state_counter)]
  · intro h0 h1
    show wrapInt (wrapInt (m.state_counter + 1) + 1) = m.state_counter + 2
    unfold wrapInt INT_MIN INT_MAX at *
    omega

/-- C1 (witness): the constructed messenger, id `-1`, payload 7. -/
theorem C1_round_trip_witness :
    ((-1 : Int) ≠ (Messenger.new (0 : Nat)).state_counter) ∧
    ∃ m1 m2 : Messenger Nat,
      SendData [] (Messenger.new 0) { id := -1, data := 7 } = (m1, some 1) ∧
      ReceiveData [] m1 0 = (m2, some { id := m2.state_counter, data := 7 }) ∧
      m2.state_counter = 2 :=
  ⟨by decide, by
    obtain ⟨m1, m2, h1, h2, h3, -⟩ :=
      C1_round_trip [] [] (Messenger.new (0 : Nat)) (-1) 7 (by decide)
    exact ⟨m1, m2, h1, h2, h3⟩⟩

/-- A send that returns leaves the counter above the value it was called at, however
many sends and receives of other threads completed while it waited. -/
lemma SendData_counter_lt (env : List (Interference Data)) :
    ∀ (m m1 : Messenger Data) (packet : DataPacket Data) (r : Int),
      INT_MIN ≤ m.state_counter → m.state_counter < INT_MAX →
      RaisedBelowMax env m →
      SendData env m packet = (m1, some r) →
      m.state_counter < m1.state_counter := by
  induction env with
  | nil =>
    intro m m1 packet r hlo hhi _ h
    have h1 := (SendData_returns [] m m1 packet r (by simp) h).1
    rw [wrapInt_succ_eq _ hlo hhi] at h1
    omega
  | cons e rest ih =>
    intro m m1 packet r hlo hhi henv h
    have he : m.state_counter ≤ (e m).state_counter ∧ (e m).state_counter < INT_MAX :=
      ⟨henv.1, henv.2.1⟩
    unfold SendData at h
    by_cases hc : m.state_counter = packet.id
    · by_cases hs : (e m).stop_messenger = true
      · simp [hc, hs, SendData_tail] at h
        obtain ⟨h1, -⟩ := h
        subst h1
        show m.state_counter < wrapInt ((e m).state_counter + 1)
        rw [wrapInt_succ_eq _ (by omega) he.2]
        omega
      · simp only [hc, if_true, hs] at h
        have := ih (e m) m1 packet r (by omega) he.2 henv.2.2 h
        omega
    · simp [hc, SendData_tail] at h
      obtain ⟨h1, -⟩ := h
      subst h1
      show m.state_counter < wrapInt (m.state_counter + 1)
      rw [wrapInt_succ_eq _ hlo hhi]
      omega

/-- The receive counterpart of `SendData_counter_lt`. -/
lemma ReceiveData_counter_lt (env : List (Interference Data)) :
    ∀ (m m1 : Messenger Data) (old_state : Int) (p : DataPacket Data),
      INT_MIN ≤ m.state_counter → m.state_counter < INT_MAX →
      RaisedBelowMax env m →
      ReceiveData env m old_state = (m1, some p) →
      m.state_counter < m1.state_counter := by
  induction env with
  | nil =>
    intro m m1 old_state p hlo hhi _ h
    have h1 := (ReceiveData_returns [] m m1 old_state p (by simp) h).1
    rw [wrapInt_succ_eq _ hlo hhi] at h1
    omega
  | cons e rest ih =>
    intro m m1 old_state p hlo hhi henv h
    have he : m.state_counter ≤ (e m).state_counter ∧ (e m).state_counter < INT_MAX :=
      ⟨henv.1, henv.2.1⟩
    unfold ReceiveData at h
    by_cases hc : m.state_counter = old_state
    · by_cases hs : (e m).stop_messenger = true
      · simp [hc, hs, ReceiveData_tail] at h
        obtain ⟨h1, -⟩ := h
        subst h1
        show m.state_counter < wrapInt ((e m).state_counter + 1)
        rw [wrapInt_succ_eq _ (by omega) he.2]
        omega
      · simp only [hc, if_true, hs] at h
        have := ih (e m) m1 old_state p (by omega) he.2 henv.2.2 h
        omega
    · simp [hc, ReceiveData_tail] at h
      obtain ⟨h1, -⟩ := h
      subst h1
      show m.state_counter < wrapInt (m.state_counter + 1)
      rw [wrapInt_succ_eq _ hlo hhi]
      omega

/-! ### C2: the counter only grows -/

/-- C2. On a messenger whose counter is an `int` below the maximum (the constructed
messenger starts at 0): a `SendData` that completes and a `ReceiveData` that
completes each leave the counter strictly larger than they found it, whatever sends
and receives of other threads completed while they waited (the counter staying below
`INT_MAX`), and exactly one higher when no other thread touched the counter;
`GetState` and `Stop` leave it unchanged; and a completed send followed by the receive
that consumes it leaves it exactly 2 higher. -/
theorem C2_counter_strictly_increasing (d : Data) (m : Messenger Data)
    (hlo : INT_MIN ≤ m.state_counter) (hhi : m.state_counter < INT_MAX) :
    (Messenger.new d).state_counter = 0 ∧
    (∀ env packet m1 r, SendData env m packet = (m1, some r) →
      (RaisedBelowMax env m → m.state_counter < m1.state_counter) ∧
      ((∀ e ∈ env, KeepsCounter e) → m1.state_counter = m.state_counter + 1)) ∧
    (∀ env old_state m1 p, ReceiveData env m old_state = (m1, some p) →
      (RaisedBelowMax env m → m.state_counter < m1.state_counter) ∧
      ((∀ e ∈ env, KeepsCounter e) → m1.state_counter = m.state_counter + 1)) ∧
    (GetState m = m.state_counter ∧ (Stop m).state_counter = m.state_counter) ∧
    (∀ env1 env2 packet old_state m1 r m2 p,
      (∀ e ∈ env1, KeepsCounter e) → (∀ e ∈ env2, KeepsCounter e) →
      m.state_counter + 1 < INT_MAX →
      SendData env1 m packet = (m1, some r) →
      ReceiveData env2 m1 old_state = (m2, some p) →
      m2.state_counter = m.state_counter + 2) := by
  refine ⟨rfl, ?_, ?_, ⟨rfl, rfl⟩, ?_⟩
  · intro env packet m1 r h
    refine ⟨fun henv => SendData_counter_lt env m m1 packet r hlo hhi henv h, ?_⟩
    intro henv
    have h1 := (SendData_returns env m m1 packet r henv h).1
    rw [wrapInt_succ_eq _ hlo hhi] at h1
    exact h1
  · intro env old_state m1 p h
    refine ⟨fun henv => ReceiveData_counter_lt env m m1 old_state p hlo hhi henv h, ?_⟩
    intro henv
    have h1 := (ReceiveData_returns env m m1 old_state p henv h).1
    rw [wrapInt_succ_eq _ hlo hhi] at h1
    exact h1
  · intro env1 env2 packet old_state m1 r m2 p henv1 henv2 hb hs hr
    have h1 := (SendData_returns env1 m m1 packet r henv1 hs).1
    rw [wrapInt_succ_eq _ hlo hhi] at h1
    have h2 := (ReceiveData_returns env2 m1 m2 old_state p henv2 hr).1
    rw [h1, wrapInt_succ_eq _ (by omega) hb] at h2
    omega

/-- C2 (witness): the messenger left by the producer's first send, counter 1.  A second
send with id 1 waits, the consumer's `ReceiveData(0)` completes meanwhile (counter 2),
and the send returns with the counter at 3. -/
theorem C2_counter_strictly_increasing_witness :
    (INT_MIN ≤ (1 : Int) ∧ (1 : Int) < INT_MAX) ∧
    RaisedBelowMax [fun x => (ReceiveData [] x 0).1]
      ({ stop_messenger := false, state_counter := 1, data := 7 } : Messenger Nat) ∧
    SendData [fun x => (ReceiveData [] x 0).1]
        { stop_messenger := false, state_counter := 1, data := 7 } { id := 1, data := 8 }
      = ({ stop_messenger := false, state_counter := 3, data := 8 }, some 3) ∧
    (1 : Int) < 3 :=
  ⟨⟨by decide, by decide⟩, ⟨by decide, by decide, trivial⟩, by decide,
    ((C2_counter_strictly_increasing (0 : Nat)
        { stop_messenger := false, state_counter := 1, data := 7 } (by decide) (by decide)).2.1
      [fun x => (ReceiveData [] x 0).1] { id := 1, data := 8 }
      { stop_messenger := false, state_counter := 3, data := 8 } 3 (by decide)).1
      ⟨by decide, by decide, trivial⟩⟩

/-! ### C3, C4: the two contracts -/

/-- C3. A `SendData` entered while the counter differs from `packet.id` does not wait
(it returns whatever the wake-up list, the empty one included), stores `packet.data`,
raises the counter by one `int` increment (`+ 1` below `INT_MAX`) and returns the new
counter; one entered while the counter equals `packet.id` on a running messenger does
not complete for as long as no other thread changes the counter or stops the
messenger. -/
theorem C3_SendData_contract (m : Messenger Data) (packet : DataPacket Data) :
    (m.state_counter ≠ packet.id →
      (∀ env, SendData env m packet =
        ({ m with data := packet.data, state_counter := wrapInt (m.state_counter + 1) },
          some (wrapInt (m.state_counter + 1)))) ∧
      (INT_MIN ≤ m.state_counter → m.state_counter < INT_MAX →
        wrapInt (m.state_counter + 1) = m.state_counter + 1)) ∧
    (m.state_counter = packet.id → m.stop_messenger = false →
      ∀ env, (∀ e ∈ env, KeepsCounter e ∧ KeepsRunning e) →
        (SendData env m packet).2 = none) := by
  refine ⟨fun h => ⟨fun env => SendData_of_ne env m packet h, wrapInt_succ_eq _⟩, ?_⟩
  intro hc hs env henv
  exact (SendData_blocked env m packet hc hs henv).1

/-- C3 (witness): counter 0 against id 5 returns 1 at once; counter 0 against id 0
is still waiting after three time-outs. -/
theorem C3_SendData_contract_witness :
    SendData [] (Messenger.new (0 : Nat)) { id := 5, data := 7 }
      = ({ stop_messenger := false, state_counter := 1, data := 7 }, some 1) ∧
    (SendData [id, id, id] (Messenger.new (0 : Nat)) { id := 0, data := 7 }).2 = none :=
  ⟨((C3_SendData_contract (Messenger.new (0 : Nat)) { id := 5, data := 7 }).1
      (by decide)).1 [],
    (C3_SendData_contract (Messenger.new (0 : Nat)) { id := 0, data := 7 }).2 rfl rfl
      [id, id, id] (timeouts_quiet 3)⟩

/-- C4. A `ReceiveData` entered while the counter differs from `old_state` does not
wait, raises the counter by one `int` increment (`+ 1` below `INT_MAX`), returns a
packet whose id is the raised counter and whose data is the stored payload, and
leaves the stored payload as it was; one entered while the counter equals `old_state`
on a running messenger does not complete for as long as no other thread changes the
counter or stops the messenger. -/
theorem C4_ReceiveData_contract (m : Messenger Data) (old_state : Int) :
    (m.state_counter ≠ old_state →
      (∀ env, ReceiveData env m old_state =
        ({ m with state_counter := wrapInt (m.state_counter + 1) },
          some { id := wrapInt (m.state_counter + 1), data := m.data })) ∧
      (INT_MIN ≤ m.state_counter → m.state_counter < INT_MAX →
        wrapInt (m.state_counter + 1) = m.state_counter + 1)) ∧
    (m.state_counter = old_state → m.stop_messenger = false →
      ∀ env, (∀ e ∈ env, KeepsCounter e ∧ KeepsRunning e) →
        (ReceiveData env m old_state).2 = none) := by
  refine ⟨fun h => ⟨fun env => ReceiveData_of_ne env m old_state h, wrapInt_succ_eq _⟩, ?_⟩
  intro hc hs env henv
  exact (ReceiveData_blocked env m old_state hc hs henv).1

/-- C4 (witness): counter 0 against `old_state` 5 returns packet 1 at once; counter 0
against `old_state` 0 is still waiting after three time-outs. -/
theorem C4_ReceiveData_contract_witness :
    ReceiveData [] (Messenger.new (3 : Nat)) 5
      = ({ stop_messenger := false, state_counter := 1, data := 3 },
          some { id := 1, data := 3 }) ∧
    (ReceiveData [id, id, id] (Messenger.new (3 : Nat)) 0).2 = none :=
  ⟨((C4_ReceiveData_contract (Messenger.new (3 : Nat)) 5).1 (by decide)).1 [],
    (C4_ReceiveData_contract (Messenger.new (3 : Nat)) 0).2 rfl rfl
      [id, id, id] (timeouts_quiet 3)⟩

/-! ### C5: stopping -/

/-- C5 (counterexample). Messenger with counter 0 and payload 1; `SendData({id = 0,
data = 9})` is blocked, and `Stop` is called during its first wait.  The send then
returns 1 and the stored payload is 9: it did overwrite the payload. -/
theorem C5_stopped_send_overwrites_payload :
    SendData [Stop] (Messenger.new (1 : Nat)) { id := 0, data := 9 }
      = ({ stop_messenger := true, state_counter := 1, data := 9 }, some 1) ∧
    (SendData [Stop] (Messenger.new (1 : Nat)) { id := 0, data := 9 }).1.data
      ≠ (Messenger.new (1 : Nat)).data := by
  decide

/-- C5 (amended). Once `Stop` has been called, a blocked `SendData` (counter equal to
`packet.id`) and a blocked `ReceiveData` (counter equal to `old_state`) return at
their next wake-up, whatever else is pending; the send still stores `packet.data` and
raises the counter, the receive raises the counter and returns the stored payload,
which it leaves as it was. -/
theorem C5_stop_releases_blocked_calls (m : Messenger Data) (packet : DataPacket Data)
    (old_state : Int) (e : Interference Data) (rest : List (Interference Data))
    (hstop : (e m).stop_messenger = true) :
    (m.state_counter = packet.id →
      SendData (e :: rest) m packet =
        ({ (e m) with data := packet.data,
                      state_counter := wrapInt ((e m).state_counter + 1) },
          some (wrapInt ((e m).state_counter + 1)))) ∧
    (m.state_counter = old_state →
      ReceiveData (e :: rest) m old_state =
        ({ (e m) with state_counter := wrapInt ((e m).state_counter + 1) },
          some { id := wrapInt ((e m).state_counter + 1), data := (e m).data })) := by
  constructor
  · intro hc
    unfold SendData
    simp [hc, hstop, SendData_tail]
  · intro hc
    unfold ReceiveData
    simp [hc, hstop, ReceiveData_tail]

/-- C5 (witness): `Stop` arrives during the first wait of a blocked send and of a
blocked receive on the constructed messenger. -/
theorem C5_stop_releases_blocked_calls_witness :
    (Stop (Messenger.new (1 : Nat))).stop_messenger = true ∧
    SendData [Stop, id] (Messenger.new (1 : Nat)) { id := 0, data := 9 }
      = ({ stop_messenger := true, state_counter := 1, data := 9 }, some 1) ∧
    ReceiveData [Stop, id] (Messenger.new (1 : Nat)) 0
      = ({ stop_messenger := true, state_counter := 1, data := 1 },
          some { id := 1, data := 1 }) :=
  ⟨rfl,
    (C5_stop_releases_blocked_calls (Messenger.new (1 : Nat)) { id := 0, data := 9 } 0
      Stop [id] rfl).1 rfl,
    (C5_stop_releases_blocked_calls (Messenger.new (1 : Nat)) { id := 0, data := 9 } 0
      Stop [id] rfl).2 rfl⟩

/-! ### C6: back-pressure -/

/-- C6 (counterexample). Constructed messenger (counter 0), id `-1`: the first
`SendData({-1, 10})` completes and returns 1; the second `SendData({-1, 20})`, called
right after with the same id, completes too without a single wake-up (its wait
condition `counter == packet.id` is `1 == -1`) and returns 2; the receive that follows
returns the payload 20 of the second send, not the 10 of the first. -/
theorem C6_second_send_same_id_does_not_block :
    SendData [] (Messenger.new (0 : Nat)) { id := -1, data := 10 }
      = ({ stop_messenger := false, state_counter := 1, data := 10 }, some 1) ∧
    SendData [] { stop_messenger := false, state_counter := 1, data := 10 }
        { id := -1, data := 20 }
      = ({ stop_messenger := false, state_counter := 2, data := 20 }, some 2) ∧
    (ReceiveData [] { stop_messenger := false, state_counter := 2, data := 20 } 0).2
      = some { id := 3, data := 20 } := by
  decide

/-- C6 (amended). Running messenger with counter `c`, and the id one `int` increment
above `c` (for any other id a completed first send leaves a counter different from the
id, and the second send does not block).  The first `SendData` with that id completes
at once and returns the id; a second `SendData` called immediately afterwards with the
same id blocks for as long as no other thread changes the counter or stops the
messenger; a `ReceiveData(old_state)` with `old_state` other than the id, run by the
consumer during that wait, returns the payload of the first send; at the wake-up after
it the second send completes; and a subsequent receive returns the payload of the
second send. -/
theorem C6_back_pressure (m : Messenger Data) (X1 X2 : Data) (old_state : Int)
    (hrun : m.stop_messenger = false) (hold : old_state ≠ wrapInt (m.state_counter + 1)) :
    ∃ m1 m2 m3 : Messenger Data,
      (∀ env, SendData env m { id := wrapInt (m.state_counter + 1), data := X1 }
        = (m1, some (wrapInt (m.state_counter + 1)))) ∧
      (∀ env, (∀ e ∈ env, KeepsCounter e ∧ KeepsRunning e) →
        (SendData env m1 { id := wrapInt (m.state_counter + 1), data := X2 }).2 = none) ∧
      (∀ env, ReceiveData env m1 old_state = (m2, some { id := m2.state_counter, data := X1 })) ∧
      (∀ rest, SendData ((fun x => (ReceiveData [] x old_state).1) :: rest) m1
          { id := wrapInt (m.state_counter + 1), data := X2 }
        = (m3, some m3.state_counter)) ∧
      (∀ env old2, old2 ≠ m3.state_counter →
        (ReceiveData env m3 old2).2
          = some { id := wrapInt (m3.state_counter + 1), data := X2 }) ∧
      (∀ i env, i ≠ m.state_counter → i ≠ wrapInt (m.state_counter + 1) →
        (SendData env (SendData env m { id := i, data := X1 }).1 { id := i, data := X2 }).2
          ≠ none) := by
  have hne := wrapInt_succ_ne m.state_counter
  have hne2 := wrapInt_succ_ne (wrapInt (m.state_counter + 1))
  refine ⟨{ m with data := X1, state_counter := wrapInt (m.state_counter + 1) },
    { m with data := X1, state_counter := wrapInt (wrapInt (m.state_counter + 1) + 1) },
    { m with data := X2,
             state_counter := wrapInt (wrapInt (wrapInt (m.state_counter + 1) + 1) + 1) },
    ?_, ?_, ?_, ?_, ?_, ?_⟩
  · intro env
    exact SendData_of_ne env m _ (fun h => hne h.symm)
  · intro env henv
    exact (SendData_blocked env
      { m with data := X1, state_counter := wrapInt (m.state_counter + 1) }
      { id := wrapInt (m.state_counter + 1), data := X2 } rfl hrun henv).1
  · intro env
    rw [ReceiveData_of_ne env _ _ (fun h => hold h.symm)]
  · intro rest
    unfold SendData
    simp only [if_true]
    rw [ReceiveData_of_ne [] _ _ (fun h => hold h.symm)]
    simp only [hrun, Bool.false_eq_true, if_false]
    rw [SendData_of_ne rest _ _ hne2]
  · intro env old2 h2
    rw [ReceiveData_of_ne env _ _ (fun h => h2 h.symm)]
  · intro i env hi1 hi2
    rw [SendData_of_ne env m _ (fun h => hi1 h.symm)]
    rw [SendData_of_ne env _ _ (fun h => hi2 h.symm)]
    simp

/-- C6 (witness): the constructed messenger, id 1, consumer with `old_state = 0`. -/
theorem C6_back_pressure_witness :
    ((Messenger.new (0 : Nat)).stop_messenger = false ∧
      (0 : Int) ≠ wrapInt ((Messenger.new (0 : Nat)).state_counter + 1)) ∧
    ∃ m1 m2 m3 : Messenger Nat,
      SendData [] (Messenger.new 0) { id := 1, data := 10 } = (m1, some 1) ∧
      (SendData [id, id] m1 { id := 1, data := 20 }).2 = none ∧
      ReceiveData [] m1 0 = (m2, some { id := m2.state_counter, data := 10 }) ∧
      SendData [fun x => (ReceiveData [] x 0).1] m1 { id := 1, data := 20 }
        = (m3, some m3.state_counter) ∧
      (ReceiveData [] m3 2).2 = some { id := wrapInt (m3.state_counter + 1), data := 20 } ∧
      m3.state_counter = 3 :=
  ⟨⟨rfl, by decide⟩, by
    obtain ⟨m1, m2, m3, h1, h2, h3, h4, h5, -⟩ :=
      C6_back_pressure (Messenger.new (0 : Nat)) 10 20 0 rfl (by decide)
    have e1 : m1 = { stop_messenger := false, state_counter := 1, data := 10 } :=
      (congrArg Prod.fst (h1 [])).symm
    have e3 : m3.state_counter = 3 := by
      have h4a : _ = m3 := congrArg Prod.fst (h4 [])
      rw [e1] at h4a
      rw [← h4a]
      decide
    exact ⟨m1, m2, m3, h1 [], h2 [id, id] (timeouts_quiet 2), h3 [], h4 [],
      h5 [] 2 (by rw [e3]; decide), e3⟩⟩

/-! ### C7: each side skips its own transition -/

/-- C7. Running messenger.  If a `SendData` returned `p`, a following `SendData` with
`packet.id = p` waits for as long as no other thread changes the counter (no
`ReceiveData` completes), and the wake-up after one `ReceiveData` of the consumer has
completed releases it: it returns, the counter two increments above `p`.
Symmetrically, if a `ReceiveData` returned a packet with id `r`, a following
`ReceiveData(r)` waits for as long as no `SendData` completes and is released by one
completed `SendData`, whose payload it returns. -/
theorem C7_own_transition_skipped (m1 : Messenger Data)
    (hrun : m1.stop_messenger = false) :
    (∀ env0 m packet p, SendData env0 m packet = (m1, some p) →
      ∀ X : Data,
        (∀ env, (∀ e ∈ env, KeepsCounter e ∧ KeepsRunning e) →
          (SendData env m1 { id := p, data := X }).2 = none) ∧
        (∀ old_state rest, old_state ≠ p →
          (SendData ((fun x => (ReceiveData [] x old_state).1) :: rest) m1
            { id := p, data := X }).2 = some (wrapInt (wrapInt (p + 1) + 1)))) ∧
    (∀ env0 m old_state r, ReceiveData env0 m old_state = (m1, some r) →
        (∀ env, (∀ e ∈ env, KeepsCounter e ∧ KeepsRunning e) →
          (ReceiveData env m1 r.id).2 = none) ∧
        (∀ packet rest, packet.id ≠ r.id →
          (ReceiveData ((fun x => (SendData [] x packet).1) :: rest) m1 r.id).2
            = some { id := wrapInt (wrapInt (r.id + 1) + 1), data := packet.data })) := by
  constructor
  · intro env0 m packet p h X
    have hp : m1.state_counter = p := (SendData_result env0 m m1 packet p h).1.symm
    refine ⟨fun env henv => (SendData_blocked env m1 _ hp hrun henv).1, ?_⟩
    intro old_state rest hold
    unfold SendData
    simp only [hp, if_true]
    rw [ReceiveData_of_ne [] _ _ (by rw [hp]; exact fun h => hold h.symm)]
    simp only [hrun, Bool.false_eq_true, if_false, hp]
    rw [SendData_of_ne rest _ _ (wrapInt_succ_ne p)]
  · intro env0 m old_state r h
    have hp : m1.state_counter = r.id := (ReceiveData_result env0 m m1 old_state r h).1.symm
    refine ⟨fun env henv => (ReceiveData_blocked env m1 _ hp hrun henv).1, ?_⟩
    intro packet rest hid
    unfold ReceiveData
    simp only [hp, if_true]
    rw [SendData_of_ne [] _ _ (by rw [hp]; exact fun h => hid h.symm)]
    simp only [hrun, Bool.false_eq_true, if_false, hp]
    rw [ReceiveData_of_ne rest _ _ (wrapInt_succ_ne r.id)]

/-- C7 (witness): the producer's first send on the constructed messenger returned 1;
its next send with id 1 waits through two time-outs and is released by the consumer's
`ReceiveData(0)`, returning 3. -/
theorem C7_own_transition_skipped_witness :
    (SendData [] (Messenger.new (0 : Nat)) { id := -1, data := 7 }).1.stop_messenger = false ∧
    (SendData [id, id] (SendData [] (Messenger.new (0 : Nat)) { id := -1, data := 7 }).1
      { id := 1, data := 8 }).2 = none ∧
    (SendData [fun x => (ReceiveData [] x 0).1]
      (SendData [] (Messenger.new (0 : Nat)) { id := -1, data := 7 }).1
      { id := 1, data := 8 }).2 = some 3 :=
  ⟨rfl,
    (((C7_own_transition_skipped
        (SendData [] (Messenger.new (0 : Nat)) { id := -1, data := 7 }).1 rfl).1
      [] (Messenger.new 0) { id := -1, data := 7 } 1 rfl) 8).1 [id, id] (timeouts_quiet 2),
    (((C7_own_transition_skipped
        (SendData [] (Messenger.new (0 : Nat)) { id := -1, data := 7 }).1 rfl).1
      [] (Messenger.new 0) { id := -1, data := 7 } 1 rfl) 8).2 0 [] (by decide)⟩

end Messenger

end traffic_manager

namespace traffic_manager

/-! ## Properties of the localization stage -/

/-- A sequenced step returns exactly when its first part returns and the rest, run on
that result, returns. -/
lemma bind_eq_ok {α β : Type} (x : Except Fault α) (f : α → Except Fault β) (b : β) :
    (x >>= f) = .ok b ↔ ∃ a, x = .ok a ∧ f a = .ok b := by
  cases x with
  | error e => simp [bind, Except.bind]
  | ok a => simp [bind, Except.bind]

lemma at__eq_ok {α : Type} (v : List α) (i : Nat) (a : α) :
    at_ v i = .ok a ↔ v.get? i = some a := by
  unfold at_
  cases h : v.get? i <;> simp

lemma at__lt {α : Type} (v : List α) (i : Nat) (a : α) (h : at_ v i = .ok a) :
    i < v.length := by
  rw [at__eq_ok] at h
  exact (List.get?_eq_some.mp h).1

lemma at__ne_nil {α : Type} (v : List α) (i : Nat) (a : α) (h : at_ v i = .ok a) :
    v ≠ [] := by
  intro hv
  have := at__lt v i a h
  rw [hv] at this
  exact Nat.not_lt_zero _ this

lemma set_at_eq_ok {α : Type} (v w : List α) (i : Nat) (a : α) (h : set_at v i a = .ok w) :
    w = v.set i a := by
  unfold set_at at h
  split_ifs at h
  exact (Except.ok.inj h).symm

/-- Reading back the slot just written. -/
lemma buffer_map_set_buffer (s : LocalizationStage) (sel : Bool) (i : Nat) (b : Buffer)
    (hi : i < (s.buffer_map sel).length) :
    at_ ((s.set_buffer sel i b).buffer_map sel) i = .ok b := by
  cases sel <;>
    simp [LocalizationStage.set_buffer, LocalizationStage.buffer_map, at__eq_ok] at hi ⊢ <;>
    simp [List.getElem?_set, hi]

lemma set_buffer_selector (s : LocalizationStage) (sel : Bool) (i : Nat) (b : Buffer) :
    (s.set_buffer sel i b).collision_frame_selector = s.collision_frame_selector := by
  cases sel <;> simp [LocalizationStage.set_buffer]

lemma map_eq_ok {α β : Type} (x : Except Fault α) (f : α → β) (b : β)
    (h : x.map f = .ok b) : ∃ a, x = .ok a ∧ f a = b := by
  cases x with
  | error e => simp [Except.map] at h
  | ok a => exact ⟨a, rfl, by simpa [Except.map] using h⟩

/-- Writing a frame leaves the buffer lists and the collision selector alone. -/
lemma write_frames_buffers (s s1 : LocalizationStage) (i : Nat) :
    (∀ m, s.write_planner_frame i m = .ok s1 →
      s1.buffer_list_a = s.buffer_list_a ∧ s1.buffer_list_b = s.buffer_list_b ∧
        s1.collision_frame_selector = s.collision_frame_selector) ∧
    (∀ m, s.write_collision_frame i m = .ok s1 →
      s1.buffer_list_a = s.buffer_list_a ∧ s1.buffer_list_b = s.buffer_list_b ∧
        s1.collision_frame_selector = s.collision_frame_selector) ∧
    (∀ m, s.write_traffic_light_frame i m = .ok s1 →
      s1.buffer_list_a = s.buffer_list_a ∧ s1.buffer_list_b = s.buffer_list_b ∧
        s1.collision_frame_selector = s.collision_frame_selector) := by
  refine ⟨?_, ?_, ?_⟩ <;> intro m h
  · unfold LocalizationStage.write_planner_frame at h
    split_ifs at h <;> obtain ⟨f, -, hf⟩ := map_eq_ok _ _ _ h <;> subst hf <;>
      exact ⟨rfl, rfl, rfl⟩
  · unfold LocalizationStage.write_collision_frame at h
    split_ifs at h <;> obtain ⟨f, -, hf⟩ := map_eq_ok _ _ _ h <;> subst hf <;>
      exact ⟨rfl, rfl, rfl⟩
  · unfold LocalizationStage.write_traffic_light_frame at h
    split_ifs at h <;> obtain ⟨f, -, hf⟩ := map_eq_ok _ _ _ h <;> subst hf <;>
      exact ⟨rfl, rfl, rfl⟩

/-- A failed bounds-checked read has thrown `std::out_of_range`. -/
lemma at__error {α : Type} (v : List α) (i : Nat) (e : Fault) (h : at_ v i = .error e) :
    e = Fault.out_of_range := by
  unfold at_ at h
  split at h
  · simp at h
  · exact (Except.error.inj h).symm

lemma set_at_error {α : Type} (v : List α) (i : Nat) (a : α) (e : Fault)
    (h : set_at v i a = .error e) : e = Fault.out_of_range := by
  unfold set_at at h
  split_ifs at h
  exact (Except.error.inj h).symm

/-- The write of a traffic-light message succeeds exactly when the read of the slot
does, and a second write to the slot replaces the first. -/
lemma write_traffic_light_frame_twice (s : LocalizationStage) (i : Nat)
    (m1 m2 : LocalizationToTrafficLightData) :
    (∀ e, s.read_traffic_light_frame i = .error e →
      e = Fault.out_of_range ∧ s.write_traffic_light_frame i m2 = .error Fault.out_of_range) ∧
    (∀ m0, s.read_traffic_light_frame i = .ok m0 →
      ∃ s3 s4, s.write_traffic_light_frame i m1 = .ok s3 ∧
        s3.write_traffic_light_frame i m2 = .ok s4 ∧
        s.write_traffic_light_frame i m2 = .ok s4) := by
  unfold LocalizationStage.read_traffic_light_frame LocalizationStage.write_traffic_light_frame
    set_at
  cases hsel : s.traffic_light_frame_selector
  · simp only [Bool.false_eq_true, if_false]
    constructor
    · intro e h
      have hn : ¬ i < s.traffic_light_frame_b.length := by
        intro hlt
        rw [(at__eq_ok _ _ _).mpr (List.get?_eq_get hlt)] at h
        simp at h
      exact ⟨at__error _ _ _ h, by simp [hn, Except.map]⟩
    · intro m0 h
      have hlt := at__lt _ _ _ h
      simp [hlt, Except.map, hsel]
  · simp only [if_true]
    constructor
    · intro e h
      have hn : ¬ i < s.traffic_light_frame_a.length := by
        intro hlt
        rw [(at__eq_ok _ _ _).mpr (List.get?_eq_get hlt)] at h
        simp at h
      exact ⟨at__error _ _ _ h, by simp [hn, Except.map]⟩
    · intro m0 h
      have hlt := at__lt _ _ _ h
      simp [hlt, Except.map, hsel]

lemma write_frame_error (s : LocalizationStage) (i : Nat) (e : Fault) :
    (∀ m, s.write_planner_frame i m = .error e → e = Fault.out_of_range) ∧
    (∀ m, s.write_collision_frame i m = .error e → e = Fault.out_of_range) ∧
    (∀ m, s.write_traffic_light_frame i m = .error e → e = Fault.out_of_range) := by
  refine ⟨?_, ?_, ?_⟩ <;> intro m h
  · unfold LocalizationStage.write_planner_frame set_at at h
    split_ifs at h <;> simp [Except.map] at h <;> exact h.symm
  · unfold LocalizationStage.write_collision_frame set_at at h
    split_ifs at h <;> simp [Except.map] at h <;> exact h.symm
  · unfold LocalizationStage.write_traffic_light_frame set_at at h
    split_ifs at h <;> simp [Except.map] at h <;> exact h.symm

/-- The output step with its reads gathered in front of its writes: the same result,
since every statement that can throw throws `std::out_of_range`. -/
lemma GenerateOutput_eq (g : Geom) (map : InMemoryMap) (s : LocalizationStage) (i : Nat)
    (vehicle : Actor) :
    GenerateOutput g map s i vehicle = (do
      let waypoint_buffer ← at_ (s.buffer_map s.collision_frame_selector) i
      let target_waypoint ←
        at_ waypoint_buffer (horizon_index (g.Length vehicle.velocity)).toNat
      let approaching_junction ←
        ApproachingJunction map vehicle (g.Length vehicle.velocity) waypoint_buffer
      let junction_look_ahead_waypoint ←
        at_ waypoint_buffer (look_ahead_index (g.Length vehicle.velocity)).toNat
      let s1 ← s.write_planner_frame i
        { actor := some i,
          deviation := deviation g vehicle (map.node target_waypoint).location,
          approaching_true_junction := approaching_junction }
      let s2 ← s1.write_collision_frame i
        { actor := some i, buffer := some (s.collision_frame_selector, i) }
      s2.write_traffic_light_frame i
        { actor := some i, closest_waypoint := waypoint_buffer.head?,
          junction_look_ahead_waypoint := some junction_look_ahead_waypoint }) := by
  unfold GenerateOutput GenerateOutputSteps
  cases h1 : at_ (s.buffer_map s.collision_frame_selector) i with
  | error e => simp [thrown_at, bind, Except.bind]
  | ok wb =>
    cases h2 : at_ wb (horizon_index (g.Length vehicle.velocity)).toNat with
    | error e => simp [thrown_at, bind, Except.bind, h2]
    | ok tw =>
      cases h3 : ApproachingJunction map vehicle (g.Length vehicle.velocity) wb with
      | error e => simp [thrown_at, bind, Except.bind, h2, h3]
      | ok aj =>
        cases h5 : s.write_planner_frame i
            { actor := some i, deviation := deviation g vehicle (map.node tw).location,
              approaching_true_junction := aj } with
        | error e =>
          have he := (write_frame_error s i e).1 _ h5
          subst he
          cases h4 : at_ wb (look_ahead_index (g.Length vehicle.velocity)).toNat with
          | error e4 =>
            have he4 := at__error _ _ _ h4
            subst he4
            simp [thrown_at, bind, Except.bind, h2, h3, h4, h5]
          | ok jl => simp [thrown_at, bind, Except.bind, h2, h3, h4, h5]
        | ok s1 =>
          cases h6 : s1.write_collision_frame i
              { actor := some i, buffer := some (s.collision_frame_selector, i) } with
          | error e =>
            have he := (write_frame_error s1 i e).2.1 _ h6
            subst he
            cases h4 : at_ wb (look_ahead_index (g.Length vehicle.velocity)).toNat with
            | error e4 =>
              have he4 := at__error _ _ _ h4
              subst he4
              simp [thrown_at, bind, Except.bind, h2, h3, h4, h5, h6]
            | ok jl => simp [thrown_at, bind, Except.bind, h2, h3, h4, h5, h6]
          | ok s2 =>
            cases h7 : s2.read_traffic_light_frame i with
            | error e =>
              cases h4 : at_ wb (look_ahead_index (g.Length vehicle.velocity)).toNat with
              | error e4 =>
                have he4 := at__error _ _ _ h4
                subst he4
                obtain ⟨he, -⟩ := (write_traffic_light_frame_twice s2 i
                  { actor := none, closest_waypoint := none,
                    junction_look_ahead_waypoint := none }
                  { actor := none, closest_waypoint := none,
                    junction_look_ahead_waypoint := none }).1 e h7
                subst he
                simp [thrown_at, bind, Except.bind, h2, h3, h4, h5, h6, h7]
              | ok jl =>
                obtain ⟨he, hw⟩ := (write_traffic_light_frame_twice s2 i
                  { actor := none, closest_waypoint := none,
                    junction_look_ahead_waypoint := none }
                  { actor := some i, closest_waypoint := wb.head?,
                    junction_look_ahead_waypoint := some jl }).1 e h7
                subst he
                simp [thrown_at, bind, Except.bind, h2, h3, h4, h5, h6, h7, hw]
            | ok m0 =>
              cases h4 : at_ wb (look_ahead_index (g.Length vehicle.velocity)).toNat with
              | error e4 =>
                obtain ⟨s3, s4, hw1, -, -⟩ := (write_traffic_light_frame_twice s2 i
                  { m0 with actor := some i, closest_waypoint := wb.head? }
                  { actor := none, closest_waypoint := none,
                    junction_look_ahead_waypoint := none }).2 m0 h7
                simp [thrown_at, bind, Except.bind, h2, h3, h4, h5, h6, h7, hw1]
              | ok jl =>
                obtain ⟨s3, s4, hw1, hw2, hw3⟩ := (write_traffic_light_frame_twice s2 i
                  { m0 with actor := some i, closest_waypoint := wb.head? }
                  { actor := some i, closest_waypoint := wb.head?,
                    junction_look_ahead_waypoint := some jl }).2 m0 h7
                simp [thrown_at, bind, Except.bind, h2, h3, h4, h5, h6, h7, hw1, hw2, hw3]


/-- The output step writes frames only: a completed one leaves both buffer lists and
the collision selector as they were, and the buffer it read was not empty. -/
lemma GenerateOutput_ok (g : Geom) (map : InMemoryMap) (s s1 : LocalizationStage) (i : Nat)
    (vehicle : Actor) (h : GenerateOutput g map s i vehicle = .ok s1) :
    s1.buffer_list_a = s.buffer_list_a ∧ s1.buffer_list_b = s.buffer_list_b ∧
      s1.collision_frame_selector = s.collision_frame_selector ∧
      ∃ b, at_ (s.buffer_map s.collision_frame_selector) i = .ok b ∧ b ≠ [] := by
  rw [GenerateOutput_eq] at h
  simp only [bind_eq_ok] at h
  obtain ⟨wb, hwb, tw, htw, aj, haj, jl, hjl, s2, hs2, s3, hs3, h⟩ := h
  have e2 := (write_frames_buffers s s2 i).1 _ hs2
  have e3 := (write_frames_buffers s2 s3 i).2.1 _ hs3
  have e4 := (write_frames_buffers s3 s1 i).2.2 _ h
  exact ⟨by rw [e4.1, e3.1, e2.1], by rw [e4.2.1, e3.2.1, e2.2.1],
    by rw [e4.2.2, e3.2.2, e2.2.2], wb, hwb, at__ne_nil wb _ tw htw⟩

lemma buffer_map_length_set_buffer (s : LocalizationStage) (sel sel1 : Bool) (i : Nat)
    (b : Buffer) :
    ((s.set_buffer sel i b).buffer_map sel1).length = (s.buffer_map sel1).length := by
  cases sel <;> cases sel1 <;>
    simp [LocalizationStage.set_buffer, LocalizationStage.buffer_map]

lemma InitializeIfEmpty_ne_nil (map : InMemoryMap) (l : Vector3D) (b : Buffer) :
    InitializeIfEmpty map l b ≠ [] := by
  unfold InitializeIfEmpty
  cases b <;> simp

/-- After "Initialize buffer if empty" the current buffer of the slot is not empty. -/
lemma PurgeAndInitialize_ok (g : Geom) (map : InMemoryMap) (s s1 : LocalizationStage)
    (i : Nat) (vehicle : Actor) (h : PurgeAndInitialize g map s i vehicle = .ok s1) :
    s1.collision_frame_selector = s.collision_frame_selector ∧
      ∃ b, at_ (s1.buffer_map s1.collision_frame_selector) i = .ok b ∧ b ≠ [] := by
  unfold PurgeAndInitialize at h
  simp only [bind_eq_ok] at h
  obtain ⟨wb, hwb, h⟩ := h
  have hs := (Except.ok.inj h).symm
  subst hs
  rw [set_buffer_selector]
  exact ⟨rfl, _, buffer_map_set_buffer s _ i _ (at__lt _ _ _ hwb),
    InitializeIfEmpty_ne_nil _ _ _⟩

/-- What "Purge passed waypoints" leaves: a tail of the buffer whose front, if there is
one, has a positive dot product, all the popped nodes having a dot product of at most
zero. -/
lemma PurgePassedWaypoints_spec (g : Geom) (map : InMemoryMap) (vehicle : Actor)
    (b : Buffer) :
    (∃ popped, b = popped ++ PurgePassedWaypoints g map vehicle b ∧
      ∀ w ∈ popped, DeviationDotProduct g vehicle (map.node w).location ≤ 0) ∧
    (∀ w rest, PurgePassedWaypoints g map vehicle b = w :: rest →
      0 < DeviationDotProduct g vehicle (map.node w).location) := by
  induction b with
  | nil =>
    refine ⟨⟨[], by simp [PurgePassedWaypoints], by simp⟩, ?_⟩
    intro w rest h
    simp [PurgePassedWaypoints] at h
  | cons a t ih =>
    by_cases hd : DeviationDotProduct g vehicle (map.node a).location ≤ 0
    · have e : PurgePassedWaypoints g map vehicle (a :: t)
          = PurgePassedWaypoints g map vehicle t := by
        simp [PurgePassedWaypoints, hd]
      rw [e]
      obtain ⟨⟨popped, hp, hall⟩, hfront⟩ := ih
      refine ⟨⟨a :: popped, by rw [List.cons_append, ← hp], ?_⟩, hfront⟩
      intro w hw
      rcases List.mem_cons.mp hw with rfl | hw
      · exact hd
      · exact hall w hw
    · have e : PurgePassedWaypoints g map vehicle (a :: t) = a :: t := by
        simp [PurgePassedWaypoints, hd]
      rw [e]
      refine ⟨⟨[], by simp, by simp⟩, ?_⟩
      intro w rest h
      rw [List.cons.injEq] at h
      rw [← h.1]
      exact lt_of_not_ge hd

/-- What a completed "Populate buffer" loop leaves: the buffer it started from with
nodes appended, its back farther than `horizon_size` from its front. -/
lemma PopulateBuffer_ok (g : Geom) (map : InMemoryMap) (s : LocalizationStage) (i : Nat)
    (horizon_size : ℚ) (fuel : Nat) :
    ∀ b b1 : Buffer, PopulateBuffer g map s i horizon_size fuel b = .ok b1 →
      (∃ added, b1 = b ++ added) ∧
      ∃ front back, b1.head? = some front ∧ b1.getLast? = some back ∧
        horizon_size < g.Distance (map.node back).location (map.node front).location := by
  induction fuel with
  | zero =>
    intro b b1 h
    unfold PopulateBuffer at h
    split at h
    · rename_i front back hf hb
      split_ifs at h with hd
      have := Except.ok.inj h
      subst this
      exact ⟨⟨[], by simp⟩, front, back, hf, hb, lt_of_not_ge hd⟩
    · simp at h
  | succ n ih =>
    intro b b1 h
    unfold PopulateBuffer at h
    split at h
    · rename_i front back hf hb
      split_ifs at h with hd
      · simp only [bind_eq_ok] at h
        obtain ⟨index, -, way, -, h⟩ := h
        obtain ⟨⟨added, hadd⟩, hrest⟩ := ih _ _ h
        exact ⟨⟨way :: added, by rw [hadd]; simp⟩, hrest⟩
      · have := (Except.ok.inj h).symm
        subst this
        exact ⟨⟨[], by simp⟩, front, back, hf, hb, lt_of_not_ge hd⟩
    · simp at h

lemma SyncLaneChange_selector (map : InMemoryMap) (s s1 : LocalizationStage) (i : Nat)
    (vehicle : Actor) (h : SyncLaneChange map s i vehicle = .ok s1) :
    s1.collision_frame_selector = s.collision_frame_selector := by
  unfold SyncLaneChange at h
  simp only [bind_eq_ok] at h
  obtain ⟨wb, -, cb, -, h⟩ := h
  split_ifs at h
  · simp only [bind_eq_ok] at h
    obtain ⟨l, -, h⟩ := h
    rw [← Except.ok.inj h]
    exact set_buffer_selector _ _ _ _
  · rw [← Except.ok.inj h]

/-- What a completed "Assign lane change" step does to the stage: it records the road
position of the vehicle and either leaves the buffers alone or replaces the current
buffer of the slot by a single node. -/
lemma AssignLaneChange_ok (g : Geom) (map : InMemoryMap) (s s1 : LocalizationStage)
    (i : Nat) (vehicle : Actor) (h : AssignLaneChange g map s i vehicle = .ok s1) :
    ∃ td : TrafficDistribution,
      s1 = { s with traffic_distribution := td } ∨
      ∃ change_over_point : WaypointPtr,
        s1 = ({ s with traffic_distribution := td } : LocalizationStage).set_buffer
          s.collision_frame_selector i [change_over_point] := by
  unfold AssignLaneChange at h
  simp only [bind_eq_ok] at h
  obtain ⟨wb, -, h⟩ := h
  split at h
  · exact absurd h (by simp)
  · rename_i front hfront
    by_cases hj : (!(map.node front).junction) = true
    · rw [if_pos hj] at h
      unfold LaneChangeBlock at h
      simp only [bind_eq_ok] at h
      obtain ⟨need, -, possible, -, h⟩ := h
      unfold ChangeLane at h
      by_cases hn : (need.need_to_change_lane && possible.1) = true
      · rw [if_pos hn] at h
        split at h
        · exact absurd h (by simp)
        · simp only [bind_eq_ok] at h
          obtain ⟨cop, -, h⟩ := h
          exact ⟨_, Or.inr ⟨cop, (Except.ok.inj h).symm⟩⟩
      · rw [if_neg hn] at h
        exact ⟨_, Or.inl (Except.ok.inj h).symm⟩
    · rw [if_neg hj] at h
      exact ⟨_, Or.inl (Except.ok.inj h).symm⟩

lemma AssignLaneChange_selector (g : Geom) (map : InMemoryMap) (s s1 : LocalizationStage)
    (i : Nat) (vehicle : Actor) (h : AssignLaneChange g map s i vehicle = .ok s1) :
    s1.collision_frame_selector = s.collision_frame_selector := by
  obtain ⟨td, h1 | ⟨cop, h1⟩⟩ := AssignLaneChange_ok g map s s1 i vehicle h
  · rw [h1]
  · rw [h1]
    exact set_buffer_selector _ _ _ _

lemma ExtendBuffer_selector (g : Geom) (map : InMemoryMap) (fuel : Nat)
    (s s1 : LocalizationStage) (i : Nat) (vehicle : Actor)
    (h : ExtendBuffer g map fuel s i vehicle = .ok s1) :
    s1.collision_frame_selector = s.collision_frame_selector := by
  unfold ExtendBuffer at h
  simp only [bind_eq_ok] at h
  obtain ⟨wb, -, b, -, h⟩ := h
  rw [← Except.ok.inj h]
  exact set_buffer_selector _ _ _ _

/-! ### C8: the buffer is not empty after a pass -/

/-- C8. For every stage state (whatever the two buffers of the vehicle hold, empty
included), every vehicle slot `i` and every bound on the populate loop: when the pass
of `Action` for `i` completes, the collision selector is the one the pass started
with and the vehicle's current waypoint buffer, `buffer_map.at(selector)->at(i)`, is
not empty. -/
theorem C8_buffer_non_empty_after_pass (g : Geom) (map : InMemoryMap) (fuel : Nat)
    (s s1 : LocalizationStage) (i : Nat) (h : ActionPass g map fuel s i = .ok s1) :
    s1.collision_frame_selector = s.collision_frame_selector ∧
      ∃ b : Buffer, at_ (s1.buffer_map s1.collision_frame_selector) i = .ok b ∧ b ≠ [] := by
  unfold ActionPass at h
  simp only [bind_eq_ok] at h
  obtain ⟨vehicle, -, s2, h2, s3, h3, s4, h4, s5, h5, h⟩ := h
  obtain ⟨ea, eb, esel, b, hb, hne⟩ := GenerateOutput_ok g map s5 s1 i vehicle h
  constructor
  · rw [esel, ExtendBuffer_selector g map fuel s4 s5 i vehicle h5,
      AssignLaneChange_selector g map s3 s4 i vehicle h4,
      (PurgeAndInitialize_ok g map s2 s3 i vehicle h3).1,
      SyncLaneChange_selector map s s2 i vehicle h2]
  · refine ⟨b, ?_, hne⟩
    rw [← hb, esel]
    unfold LocalizationStage.buffer_map
    rw [ea, eb]

/-- C8 (witness): one vehicle at `x = 4` on the straight road, both of its buffers
empty; the pass completes and leaves the buffer `[1, ..., 7]`. -/
theorem C8_buffer_non_empty_after_pass_witness :
    ∃ s1 : LocalizationStage,
      ActionPass axisGeom straightRoad 10 (singleVehicleStage (vehicleAt 4 0) [] []) 0 = .ok s1 ∧
      at_ (s1.buffer_map s1.collision_frame_selector) 0 = .ok [1, 2, 3, 4, 5, 6, 7] ∧
      ∃ b : Buffer, at_ (s1.buffer_map s1.collision_frame_selector) 0 = .ok b ∧ b ≠ [] := by
  have hok : (ActionPass axisGeom straightRoad 10
      (singleVehicleStage (vehicleAt 4 0) [] []) 0).toOption.map
        (fun s => s.buffer_map s.collision_frame_selector) = some [[1, 2, 3, 4, 5, 6, 7]] := by
    decide!
  cases h : ActionPass axisGeom straightRoad 10 (singleVehicleStage (vehicleAt 4 0) [] []) 0 with
  | error e => rw [h] at hok; simp [Except.toOption] at hok
  | ok s1 =>
    rw [h] at hok
    simp only [Except.toOption, Option.map_some', Option.some.injEq] at hok
    exact ⟨s1, rfl, by rw [hok]; rfl,
      (C8_buffer_non_empty_after_pass axisGeom straightRoad 10 _ s1 0 h).2⟩

/-! ### C9: what the purge leaves -/

/-- C9 (counterexample). Vehicle at the origin heading along x, buffer `[0, 1, 2]` on
the half circle: the front node `(5, 0)` has dot product 1, so nothing is popped, and
node 2 at `(-5, 0)` stays in the buffer with dot product `-1`. -/
theorem C9_purge_keeps_node_behind_vehicle :
    PurgePassedWaypoints axisGeom halfCircle (vehicleAt 0 0) [0, 1, 2] = [0, 1, 2] ∧
    DeviationDotProduct axisGeom (vehicleAt 0 0) (halfCircle.node 0).location = 1 ∧
    DeviationDotProduct axisGeom (vehicleAt 0 0) (halfCircle.node 2).location = -1 ∧
    ¬ ∀ w ∈ PurgePassedWaypoints axisGeom halfCircle (vehicleAt 0 0) [0, 1, 2],
        0 ≤ DeviationDotProduct axisGeom (vehicleAt 0 0) (halfCircle.node w).location := by
  decide!

/-- C9 (amended). For every buffer and vehicle pose, the "purge passed waypoints" step
pops a run of leading nodes whose forward dot product is at most zero and stops at the
first node whose dot product is positive: the front of what remains, if anything
remains, has a strictly positive, hence non-negative, forward dot product.  The nodes
behind that front are not examined. -/
theorem C9_purge_postcondition (g : Geom) (map : InMemoryMap) (vehicle : Actor)
    (b : Buffer) :
    (∀ w rest, PurgePassedWaypoints g map vehicle b = w :: rest →
      0 < DeviationDotProduct g vehicle (map.node w).location ∧
      0 ≤ DeviationDotProduct g vehicle (map.node w).location) ∧
    (∃ popped, b = popped ++ PurgePassedWaypoints g map vehicle b ∧
      ∀ w ∈ popped, DeviationDotProduct g vehicle (map.node w).location ≤ 0) := by
  obtain ⟨hpop, hfront⟩ := PurgePassedWaypoints_spec g map vehicle b
  exact ⟨fun w rest h => ⟨hfront w rest h, le_of_lt (hfront w rest h)⟩, hpop⟩

/-! ### C10: the horizon -/

/-- C10 (counterexample). On the road that ends at node 0, a vehicle at `x = -1` with
the buffer `[0]`: the back node is 0 m from the front, within the horizon of 25 m, and
has no successor; the extension does not stop there, the bounds-checked
`next_waypoints.at(0)` throws, and so does the whole pass. -/
theorem C10_extension_fails_at_dead_end :
    (deadEnd.node 0).next_waypoints = [] ∧
    ExtendBuffer axisGeom deadEnd 10 (singleVehicleStage (vehicleAt (-1) 0) [0] []) 0
      (vehicleAt (-1) 0) = .error Fault.out_of_range ∧
    ActionPass axisGeom deadEnd 10 (singleVehicleStage (vehicleAt (-1) 0) [0] []) 0
      = .error Fault.out_of_range := by
  decide!

/-- C10 (amended). For every vehicle, with `horizon = max(3.0 * v, 25.0)`: whenever the
"extend buffer to horizon" step completes, the buffer is the one the step started from
with nodes appended at the back, and `distance(buffer.back, buffer.front) > horizon`.
The step has no other way to complete. -/
theorem C10_horizon_postcondition (g : Geom) (map : InMemoryMap) (fuel : Nat)
    (s s1 : LocalizationStage) (i : Nat) (vehicle : Actor)
    (h : ExtendBuffer g map fuel s i vehicle = .ok s1) :
    ∃ (b0 b : Buffer) (front back : WaypointPtr),
      at_ (s.buffer_map s.collision_frame_selector) i = .ok b0 ∧
      at_ (s1.buffer_map s1.collision_frame_selector) i = .ok b ∧
      (∃ added, b = b0 ++ added) ∧
      b.head? = some front ∧ b.getLast? = some back ∧
      max (3 * g.Length vehicle.velocity) 25
        < g.Distance (map.node back).location (map.node front).location := by
  unfold ExtendBuffer at h
  simp only [bind_eq_ok] at h
  obtain ⟨b0, hb0, b, hb, h⟩ := h
  have hs := (Except.ok.inj h).symm
  subst hs
  obtain ⟨hadd, front, back, hf, hl, hd⟩ := PopulateBuffer_ok g map s i _ fuel b0 b hb
  refine ⟨b0, b, front, back, hb0, ?_, hadd, hf, hl, ?_⟩
  · rw [set_buffer_selector]
    exact buffer_map_set_buffer s _ i b (at__lt _ _ _ hb0)
  · simpa [WAYPOINT_TIME_HORIZON, MINIMUM_HORIZON_LENGTH] using hd

/-- C10 (witness): on the straight road (nodes 5 m apart) the buffer `[1]` of a
standing vehicle is extended to `[1, ..., 7]`, whose back is 30 m from its front. -/
theorem C10_horizon_postcondition_witness :
    ExtendBuffer axisGeom straightRoad 10 (singleVehicleStage (vehicleAt 4 0) [1] []) 0
        (vehicleAt 4 0)
      = .ok (singleVehicleStage (vehicleAt 4 0) [1, 2, 3, 4, 5, 6, 7] []) ∧
    ∃ (b0 b : Buffer) (front back : WaypointPtr),
      at_ ((singleVehicleStage (vehicleAt 4 0) [1] []).buffer_map true) 0 = .ok b0 ∧
      at_ ((singleVehicleStage (vehicleAt 4 0) [1, 2, 3, 4, 5, 6, 7] []).buffer_map true) 0
        = .ok b ∧
      (∃ added, b = b0 ++ added) ∧
      b.head? = some front ∧ b.getLast? = some back ∧
      max (3 * axisGeom.Length (vehicleAt 4 0).velocity) 25
        < axisGeom.Distance (straightRoad.node back).location
            (straightRoad.node front).location :=
  ⟨by decide!,
    C10_horizon_postcondition axisGeom straightRoad 10
      (singleVehicleStage (vehicleAt 4 0) [1] [])
      (singleVehicleStage (vehicleAt 4 0) [1, 2, 3, 4, 5, 6, 7] []) 0 (vehicleAt 4 0)
      (by decide!)⟩

/-! ### C11, C12: the deviation -/

lemma write_planner_frame_ok (s s1 : LocalizationStage) (i : Nat)
    (m : LocalizationToPlannerData) (h : s.write_planner_frame i m = .ok s1) :
    s1.planner_frame_selector = s.planner_frame_selector ∧
      at_ (s1.planner_frame_map s1.planner_frame_selector) i = .ok m := by
  unfold LocalizationStage.write_planner_frame at h
  by_cases hsel : s.planner_frame_selector = true
  · rw [if_pos hsel] at h
    obtain ⟨f, hf, hs⟩ := map_eq_ok _ _ _ h
    subst hs
    refine ⟨rfl, ?_⟩
    have hlen : i < s.planner_frame_a.length := by
      unfold set_at at hf
      split_ifs at hf with hi
      exact hi
    rw [set_at_eq_ok _ _ _ _ hf]
    simp [LocalizationStage.planner_frame_map, hsel, at__eq_ok, List.getElem?_set, hlen]
  · rw [if_neg hsel] at h
    obtain ⟨f, hf, hs⟩ := map_eq_ok _ _ _ h
    subst hs
    refine ⟨rfl, ?_⟩
    have hlen : i < s.planner_frame_b.length := by
      unfold set_at at hf
      split_ifs at hf with hi
      exact hi
    rw [set_at_eq_ok _ _ _ _ hf]
    simp [LocalizationStage.planner_frame_map, hsel, at__eq_ok, List.getElem?_set, hlen]

/-- Writing a collision or a traffic-light frame leaves the planner frames and their
selector alone. -/
lemma write_other_frames_planner (s s1 : LocalizationStage) (i : Nat) :
    (∀ m, s.write_collision_frame i m = .ok s1 →
      s1.planner_frame_a = s.planner_frame_a ∧ s1.planner_frame_b = s.planner_frame_b ∧
        s1.planner_frame_selector = s.planner_frame_selector) ∧
    (∀ m, s.write_traffic_light_frame i m = .ok s1 →
      s1.planner_frame_a = s.planner_frame_a ∧ s1.planner_frame_b = s.planner_frame_b ∧
        s1.planner_frame_selector = s.planner_frame_selector) := by
  refine ⟨?_, ?_⟩ <;> intro m h
  · unfold LocalizationStage.write_collision_frame at h
    split_ifs at h <;> obtain ⟨f, -, hf⟩ := map_eq_ok _ _ _ h <;> subst hf <;>
      exact ⟨rfl, rfl, rfl⟩
  · unfold LocalizationStage.write_traffic_light_frame at h
    split_ifs at h <;> obtain ⟨f, -, hf⟩ := map_eq_ok _ _ _ h <;> subst hf <;>
      exact ⟨rfl, rfl, rfl⟩

/-- What a completed output step has read and what it has written to the planner
frame: the target waypoint is the buffer node at `horizon_index`, and the message in
slot `i` holds the deviation towards it and the junction verdict. -/
lemma GenerateOutput_planner (g : Geom) (map : InMemoryMap) (s s1 : LocalizationStage)
    (i : Nat) (vehicle : Actor) (h : GenerateOutput g map s i vehicle = .ok s1) :
    ∃ (waypoint_buffer : Buffer) (target_waypoint : WaypointPtr) (approaching : Bool),
      at_ (s.buffer_map s.collision_frame_selector) i = .ok waypoint_buffer ∧
      at_ waypoint_buffer (horizon_index (g.Length vehicle.velocity)).toNat
        = .ok target_waypoint ∧
      ApproachingJunction map vehicle (g.Length vehicle.velocity) waypoint_buffer
        = .ok approaching ∧
      s1.planner_frame_selector = s.planner_frame_selector ∧
      at_ (s1.planner_frame_map s1.planner_frame_selector) i
        = .ok { actor := some i,
                deviation := deviation g vehicle (map.node target_waypoint).location,
                approaching_true_junction := approaching } := by
  rw [GenerateOutput_eq] at h
  simp only [bind_eq_ok] at h
  obtain ⟨wb, hwb, tw, htw, aj, haj, jl, hjl, s2, hs2, s3, hs3, h⟩ := h
  obtain ⟨e2, hm⟩ := write_planner_frame_ok s s2 i _ hs2
  have e3 := (write_other_frames_planner s2 s3 i).1 _ hs3
  have e4 := (write_other_frames_planner s3 s1 i).2 _ h
  refine ⟨wb, tw, aj, hwb, htw, haj, by rw [e4.2.2, e3.2.2, e2], ?_⟩
  rw [← hm]
  unfold LocalizationStage.planner_frame_map
  rw [e4.1, e4.2.1, e4.2.2, e3.1, e3.2.1, e3.2.2]


/-- The deviation is `1 - dot`, negated exactly when the cross product is negative. -/
lemma deviation_eq (g : Geom) (vehicle : Actor) (target_location : Vector3D) :
    deviation g vehicle target_location =
      (1 - DeviationDotProduct g vehicle target_location) *
        (if DeviationCrossProduct g vehicle target_location < 0 then -1 else 1) := by
  unfold deviation
  by_cases hc : DeviationCrossProduct g vehicle target_location < 0
  · simp only [if_pos hc]
  · simp only [if_neg hc, mul_one]

/-- C11 (counterexample). Vehicle at the origin heading along x on the U-turn, with the
buffer `[0, ..., 6]`: the target waypoint is node 2 at `(-5, 0)`, exactly behind, so
the dot product is `-1` and the cross product is `0`.  The pass writes the deviation 2
to the planner frame, whereas `(1 - dot) * sign(cross_z)` is `2 * 0 = 0`. -/
theorem C11_target_exactly_behind :
    DeviationDotProduct axisGeom (vehicleAt 0 0) (uTurn.node 2).location = -1 ∧
    DeviationCrossProduct axisGeom (vehicleAt 0 0) (uTurn.node 2).location = 0 ∧
    (ActionPass axisGeom uTurn 10
        (singleVehicleStage (vehicleAt 0 0) [0, 1, 2, 3, 4, 5, 6] []) 0).toOption.map
      (fun s => (s.planner_frame_map s.planner_frame_selector).map (fun m => m.deviation))
      = some [2] ∧
    spec_deviation (-1) 0 = 0 := by
  decide!

/-- C11 (amended). Whenever the output step completes, the deviation written to the
Planner frame of the vehicle, for the target waypoint at `horizon_index` with dot
product `dot` and z cross product `cross_z`, equals `(1 - dot) * s` with `s = -1` when
`cross_z < 0` and `s = +1` otherwise, `cross_z = 0` included; it equals
`(1 - dot) * sign(cross_z)` whenever `cross_z` is not zero. -/
theorem C11_deviation_formula (g : Geom) (map : InMemoryMap) (s s1 : LocalizationStage)
    (i : Nat) (vehicle : Actor) (h : GenerateOutput g map s i vehicle = .ok s1) :
    ∃ (waypoint_buffer : Buffer) (target_waypoint : WaypointPtr)
        (message : LocalizationToPlannerData),
      at_ (s.buffer_map s.collision_frame_selector) i = .ok waypoint_buffer ∧
      at_ waypoint_buffer (horizon_index (g.Length vehicle.velocity)).toNat
        = .ok target_waypoint ∧
      at_ (s1.planner_frame_map s1.planner_frame_selector) i = .ok message ∧
      message.deviation =
        (1 - DeviationDotProduct g vehicle (map.node target_waypoint).location) *
          (if DeviationCrossProduct g vehicle (map.node target_waypoint).location < 0
            then -1 else 1) ∧
      (DeviationCrossProduct g vehicle (map.node target_waypoint).location ≠ 0 →
        message.deviation =
          spec_deviation (DeviationDotProduct g vehicle (map.node target_waypoint).location)
            (DeviationCrossProduct g vehicle (map.node target_waypoint).location)) := by
  obtain ⟨wb, tw, aj, hwb, htw, -, -, hm⟩ := GenerateOutput_planner g map s s1 i vehicle h
  refine ⟨wb, tw, _, hwb, htw, hm, deviation_eq g vehicle _, ?_⟩
  intro hc
  show deviation g vehicle (map.node tw).location = _
  rw [deviation_eq]
  unfold spec_deviation spec_sign
  split_ifs
  · rfl
  · rfl

/-- C11 (witness): the output step on the U-turn stage of the counterexample completes
and writes the deviation `(1 - (-1)) * 1 = 2`. -/
theorem C11_deviation_formula_witness :
    ∃ (s1 : LocalizationStage) (message : LocalizationToPlannerData),
      GenerateOutput axisGeom uTurn
        (singleVehicleStage (vehicleAt 0 0) [0, 1, 2, 3, 4, 5, 6] []) 0 (vehicleAt 0 0)
        = .ok s1 ∧
      at_ (s1.planner_frame_map s1.planner_frame_selector) 0 = .ok message ∧
      message.deviation = 2 := by
  have hok : (GenerateOutput axisGeom uTurn
      (singleVehicleStage (vehicleAt 0 0) [0, 1, 2, 3, 4, 5, 6] []) 0
      (vehicleAt 0 0)).toOption.map
        (fun s => (s.planner_frame_map s.planner_frame_selector).map (fun m => m.deviation))
      = some [2] := by
    decide!
  cases h : GenerateOutput axisGeom uTurn
      (singleVehicleStage (vehicleAt 0 0) [0, 1, 2, 3, 4, 5, 6] []) 0 (vehicleAt 0 0) with
  | error e => rw [h] at hok; simp [Except.toOption] at hok
  | ok s1 =>
    rw [h] at hok
    simp only [Except.toOption, Option.map_some', Option.some.injEq] at hok
    obtain ⟨wb, tw, message, -, -, hm, -, -⟩ :=
      C11_deviation_formula axisGeom uTurn _ s1 0 (vehicleAt 0 0) h
    refine ⟨s1, message, rfl, hm, ?_⟩
    rw [at__eq_ok, List.get?_eq_getElem?] at hm
    have hmap := congrArg (fun l => l[0]?) hok
    simp only [List.getElem?_map, hm, Option.map_some', List.getElem?_cons_zero] at hmap
    exact Option.some.inj hmap

/-- C12. Whenever the heading-vs-target dot product lies in `[-1, 1]`, the deviation
computed for the Planner frame lies in `[-2, 2]` and its absolute value is `1 - dot`,
so that of two targets the one with the smaller dot product (the larger angle) never
has the smaller absolute deviation; the degenerate dot product returned for a target
closer than `2 * epsilon` is `0`, which lies in that range. -/
theorem C12_deviation_range (g : Geom) (vehicle vehicle2 : Actor)
    (target target2 : Vector3D)
    (h1 : -1 ≤ DeviationDotProduct g vehicle target ∧ DeviationDotProduct g vehicle target ≤ 1)
    (h2 : -1 ≤ DeviationDotProduct g vehicle2 target2 ∧
      DeviationDotProduct g vehicle2 target2 ≤ 1) :
    (-2 ≤ deviation g vehicle target ∧ deviation g vehicle target ≤ 2) ∧
    |deviation g vehicle target| = 1 - DeviationDotProduct g vehicle target ∧
    (DeviationDotProduct g vehicle2 target2 ≤ DeviationDotProduct g vehicle target →
      |deviation g vehicle target| ≤ |deviation g vehicle2 target2|) ∧
    (¬ g.Length { g.Sub target vehicle.location with z := 0 } > 2 * g.epsilon →
      DeviationDotProduct g vehicle target = 0) := by
  have habs : ∀ (a : Actor) (t : Vector3D), DeviationDotProduct g a t ≤ 1 →
      |deviation g a t| = 1 - DeviationDotProduct g a t := by
    intro a t ht
    rw [deviation_eq]
    split_ifs
    · rw [mul_neg_one, abs_neg, abs_of_nonneg (by linarith)]
    · rw [mul_one, abs_of_nonneg (by linarith)]
  have hb := habs vehicle target h1.2
  refine ⟨?_, hb, ?_, ?_⟩
  · have := abs_le.mp (le_of_eq hb)
    constructor <;> linarith [this.1, this.2, h1.1]
  · intro hle
    rw [hb, habs vehicle2 target2 h2.2]
    linarith
  · intro hlen
    unfold DeviationDotProduct
    simp only [if_neg hlen]

/-- C12 (witness): a target straight ahead (dot 1, deviation 0) and one exactly behind
(dot `-1`, deviation 2) of a vehicle at the origin. -/
theorem C12_deviation_range_witness :
    (-1 ≤ DeviationDotProduct axisGeom (vehicleAt 0 0) { x := 5, y := 0, z := 0 } ∧
      DeviationDotProduct axisGeom (vehicleAt 0 0) { x := 5, y := 0, z := 0 } ≤ 1) ∧
    (-1 ≤ DeviationDotProduct axisGeom (vehicleAt 0 0) { x := -5, y := 0, z := 0 } ∧
      DeviationDotProduct axisGeom (vehicleAt 0 0) { x := -5, y := 0, z := 0 } ≤ 1) ∧
    deviation axisGeom (vehicleAt 0 0) { x := 5, y := 0, z := 0 } = 0 ∧
    deviation axisGeom (vehicleAt 0 0) { x := -5, y := 0, z := 0 } = 2 ∧
    |deviation axisGeom (vehicleAt 0 0) { x := 5, y := 0, z := 0 }|
      ≤ |deviation axisGeom (vehicleAt 0 0) { x := -5, y := 0, z := 0 }| :=
  ⟨by decide!, by decide!, by decide!, by decide!,
    (C12_deviation_range axisGeom (vehicleAt 0 0) (vehicleAt 0 0)
      { x := 5, y := 0, z := 0 } { x := -5, y := 0, z := 0 } (by decide!) (by decide!)).2.2.1
      (by decide!)⟩


/-! ### C13: the target index is not clamped -/

/-- C13 (the code at the failing input). A standing vehicle at `x = 26` on the road
with nodes 30 m apart, both buffers empty: the buffer is seeded with node 1 and
extended to `[1, 2]`, whose back is 30 m from its front; `horizon_index` is 2, and
`waypoint_buffer.at(2)` throws, so the pass ends in `std::out_of_range` instead of
taking the last node.  The same happens in the output step for a buffer of size
exactly 1. -/
theorem C13_target_index_out_of_range :
    horizon_index (axisGeom.Length (vehicleAt 26 0).velocity) = 2 ∧
    (do
      let s ← PurgeAndInitialize axisGeom sparseRoad
        (singleVehicleStage (vehicleAt 26 0) [] []) 0 (vehicleAt 26 0)
      let s ← AssignLaneChange axisGeom sparseRoad s 0 (vehicleAt 26 0)
      let s ← ExtendBuffer axisGeom sparseRoad 10 s 0 (vehicleAt 26 0)
      pure (s.buffer_map s.collision_frame_selector)) = .ok [[1, 2]] ∧
    ActionPass axisGeom sparseRoad 10 (singleVehicleStage (vehicleAt 26 0) [] []) 0
      = .error Fault.out_of_range ∧
    GenerateOutput axisGeom straightRoad (singleVehicleStage (vehicleAt 4 0) [1] []) 0
      (vehicleAt 4 0) = .error Fault.out_of_range := by
  decide!

/-! ### C14: a vehicle alone on its lane -/

/-- C14. For every stage state, vehicle and current buffer `front :: rest`: when, after
the road position of the vehicle has been published, the traffic distribution holds
fewer than 2 vehicles on the front waypoint's (road, section, lane), the scan leaves
`need_to_change_lane` false and the "assign lane change" step returns the stage with
nothing but the traffic distribution updated: the buffer is not cleared and reseeded,
whatever siblings the front waypoint has and whoever is on their lanes. -/
theorem C14_single_vehicle_no_lane_change (g : Geom) (map : InMemoryMap)
    (s : LocalizationStage) (i : Nat) (vehicle : Actor) (front : WaypointPtr) (rest : Buffer)
    (hb : at_ (s.buffer_map s.collision_frame_selector) i = .ok (front :: rest))
    (hco : ((s.publish_road_position map vehicle front).traffic_distribution.GetVehicleIds
        (current_road_ids map front)).length < 2) :
    NeedToChangeLane g map (s.publish_road_position map vehicle front) vehicle
        (current_road_ids map front)
        (map.node front).left_waypoint (map.node front).right_waypoint
        ((s.publish_road_position map vehicle front).traffic_distribution.GetVehicleIds
          (current_road_ids map front))
      = .ok { need_to_change_lane := false, lane_change_direction := false } ∧
    AssignLaneChange g map s i vehicle = .ok (s.publish_road_position map vehicle front) ∧
    (s.publish_road_position map vehicle front).buffer_list_a = s.buffer_list_a ∧
    (s.publish_road_position map vehicle front).buffer_list_b = s.buffer_list_b := by
  have hn : ¬ ((s.publish_road_position map vehicle front).traffic_distribution.GetVehicleIds
        (current_road_ids map front)).length ≥ 2 := by omega
  refine ⟨?_, ?_, rfl, rfl⟩
  · unfold NeedToChangeLane
    rw [if_neg hn]
  · unfold AssignLaneChange
    simp only [hb, bind, Except.bind, List.head?_cons]
    by_cases hj : (!(map.node front).junction) = true
    · rw [if_pos hj]
      unfold LaneChangeBlock NeedToChangeLane
      unfold LocalizationStage.publish_road_position current_road_ids at hn
      simp only [if_neg hn, bind, Except.bind]
      unfold PossibleToLaneChange ChangeLane
      simp [LocalizationStage.publish_road_position, current_road_ids]
    · rw [if_neg hj]
      rfl

/-- C14 (witness): the single vehicle of the straight-road stage, with the buffer
`[1]`; it is alone on its lane and the step only records its road position. -/
theorem C14_single_vehicle_no_lane_change_witness :
    at_ ((singleVehicleStage (vehicleAt 4 0) [1] []).buffer_map true) 0 = .ok [1] ∧
    AssignLaneChange axisGeom straightRoad (singleVehicleStage (vehicleAt 4 0) [1] []) 0
        (vehicleAt 4 0)
      = .ok ((singleVehicleStage (vehicleAt 4 0) [1] []).publish_road_position straightRoad
          (vehicleAt 4 0) 1) ∧
    ((singleVehicleStage (vehicleAt 4 0) [1] []).publish_road_position straightRoad
      (vehicleAt 4 0) 1).traffic_distribution.entries
      = [(42, { road_id := 1, section_id := 0, lane_id := 1 })] :=
  ⟨by decide,
    (C14_single_vehicle_no_lane_change axisGeom straightRoad
      (singleVehicleStage (vehicleAt 4 0) [1] []) 0 (vehicleAt 4 0) 1 []
      (by decide) (by decide)).2.1,
    by decide⟩


/-! ### C15: what `DataSender` sends -/

lemma SendPlannerFrame_some (env : SenderInterference) (s s1 : LocalizationStage)
    (ms ms1 : StageMessengers) (h : SendPlannerFrame env s ms = some (s1, ms1)) :
    s1 = { s with planner_frame_selector := !s.planner_frame_selector,
                  planner_messenger_state := ms1.planner_messenger.state_counter } ∧
      ms1 = { ms with planner_messenger := ms1.planner_messenger } ∧
      ms1.planner_messenger.data = s.planner_frame_selector := by
  unfold SendPlannerFrame at h
  simp only at h
  split at h
  · exact absurd h (by simp)
  · rename_i pm r hsend
    have hr := Messenger.SendData_result _ _ _ _ _ hsend
    simp only [Option.some.injEq, Prod.mk.injEq] at h
    obtain ⟨h1, h2⟩ := h
    subst h1 h2
    exact ⟨by rw [hr.1], rfl, hr.2⟩

lemma SendCollisionFrame_some (env : SenderInterference) (s s1 : LocalizationStage)
    (ms ms1 : StageMessengers) (h : SendCollisionFrame env s ms = some (s1, ms1)) :
    (ms.collision_messenger.GetState ≠ s.collision_messenger_state →
      s1 = { s with collision_messenger_state := ms1.collision_messenger.state_counter,
                    collision_frame_selector := !s.collision_frame_selector } ∧
      ms1 = { ms with collision_messenger := ms1.collision_messenger } ∧
      ms1.collision_messenger.data = s.collision_frame_selector) ∧
    (ms.collision_messenger.GetState = s.collision_messenger_state → s1 = s ∧ ms1 = ms) := by
  unfold SendCollisionFrame at h
  simp only at h
  by_cases hc : ms.collision_messenger.GetState ≠ s.collision_messenger_state
  · rw [if_pos hc] at h
    refine ⟨fun _ => ?_, fun he => absurd he hc⟩
    split at h
    · exact absurd h (by simp)
    · rename_i cm r hsend
      have hr := Messenger.SendData_result _ _ _ _ _ hsend
      simp only [Option.some.injEq, Prod.mk.injEq] at h
      obtain ⟨h1, h2⟩ := h
      subst h1 h2
      exact ⟨by rw [hr.1], rfl, hr.2⟩
  · rw [if_neg hc] at h
    simp only [Option.some.injEq, Prod.mk.injEq] at h
    exact ⟨fun hne => absurd hne hc, fun _ => ⟨h.1.symm, h.2.symm⟩⟩

lemma SendTrafficLightFrame_some (env : SenderInterference) (s s1 : LocalizationStage)
    (ms ms1 : StageMessengers) (h : SendTrafficLightFrame env s ms = some (s1, ms1)) :
    (ms.traffic_light_messenger.GetState ≠ s.traffic_light_messenger_state →
      s1 = { s with
              traffic_light_messenger_state := ms1.traffic_light_messenger.state_counter,
              traffic_light_frame_selector := !s.traffic_light_frame_selector } ∧
      ms1 = { ms with traffic_light_messenger := ms1.traffic_light_messenger } ∧
      ms1.traffic_light_messenger.data = s.traffic_light_frame_selector) ∧
    (ms.traffic_light_messenger.GetState = s.traffic_light_messenger_state →
      s1 = s ∧ ms1 = ms) := by
  unfold SendTrafficLightFrame at h
  simp only at h
  by_cases hc : ms.traffic_light_messenger.GetState ≠ s.traffic_light_messenger_state
  · rw [if_pos hc] at h
    refine ⟨fun _ => ?_, fun he => absurd he hc⟩
    split at h
    · exact absurd h (by simp)
    · rename_i cm r hsend
      have hr := Messenger.SendData_result _ _ _ _ _ hsend
      simp only [Option.some.injEq, Prod.mk.injEq] at h
      obtain ⟨h1, h2⟩ := h
      subst h1 h2
      exact ⟨by rw [hr.1], rfl, hr.2⟩
  · rw [if_neg hc] at h
    simp only [Option.some.injEq, Prod.mk.injEq] at h
    exact ⟨fun hne => absurd hne hc, fun _ => ⟨h.1.symm, h.2.symm⟩⟩

/-- The three parts of a `DataSender` call that returns. -/
lemma DataSender_some (env : SenderInterference) (s s1 : LocalizationStage)
    (ms ms1 : StageMessengers) (h : DataSender env s ms = some (s1, ms1)) :
    ∃ sa msa sb msb, SendPlannerFrame env s ms = some (sa, msa) ∧
      SendCollisionFrame env sa msa = some (sb, msb) ∧
      SendTrafficLightFrame env sb msb = some (s1, ms1) := by
  unfold DataSender at h
  split at h
  · exact absurd h (by simp)
  · rename_i sa msa hp
    split at h
    · exact absurd h (by simp)
    · rename_i sb msb hc
      exact ⟨sa, msa, sb, msb, hp, hc, h⟩


/-- C15. Every `DataSender` call that returns has sent the Planner frame (the frame
under the selector it started with is the payload left in the planner messenger), has
flipped `planner_frame_selector` and has stored the returned state.  It has sent the
Collision frame and flipped `collision_frame_selector` if and only if the collision
messenger's state read by `GetState` differed from `collision_messenger_state`; when
the two were equal it has left that selector, the observed state and the messenger as
they were.  The same holds, on the traffic-light messenger alone, for the
TrafficLight frame. -/
theorem C15_sender_order (env : SenderInterference) (s s1 : LocalizationStage)
    (ms ms1 : StageMessengers) (h : DataSender env s ms = some (s1, ms1)) :
    (s1.planner_frame_selector = (!s.planner_frame_selector) ∧
      ms1.planner_messenger.data = s.planner_frame_selector ∧
      s1.planner_messenger_state = ms1.planner_messenger.state_counter) ∧
    (ms.collision_messenger.GetState ≠ s.collision_messenger_state →
      s1.collision_frame_selector = (!s.collision_frame_selector) ∧
      ms1.collision_messenger.data = s.collision_frame_selector ∧
      s1.collision_messenger_state = ms1.collision_messenger.state_counter) ∧
    (ms.collision_messenger.GetState = s.collision_messenger_state →
      s1.collision_frame_selector = s.collision_frame_selector ∧
      s1.collision_messenger_state = s.collision_messenger_state ∧
      ms1.collision_messenger = ms.collision_messenger) ∧
    (ms.traffic_light_messenger.GetState ≠ s.traffic_light_messenger_state →
      s1.traffic_light_frame_selector = (!s.traffic_light_frame_selector) ∧
      ms1.traffic_light_messenger.data = s.traffic_light_frame_selector ∧
      s1.traffic_light_messenger_state = ms1.traffic_light_messenger.state_counter) ∧
    (ms.traffic_light_messenger.GetState = s.traffic_light_messenger_state →
      s1.traffic_light_frame_selector = s.traffic_light_frame_selector ∧
      s1.traffic_light_messenger_state = s.traffic_light_messenger_state ∧
      ms1.traffic_light_messenger = ms.traffic_light_messenger) := by
  obtain ⟨sa, msa, sb, msb, hp, hc, ht⟩ := DataSender_some env s s1 ms ms1 h
  obtain ⟨ea, ema, hda⟩ := SendPlannerFrame_some env s sa ms msa hp
  obtain ⟨hc1, hc2⟩ := SendCollisionFrame_some env sa sb msa msb hc
  obtain ⟨ht1, ht2⟩ := SendTrafficLightFrame_some env sb s1 msb ms1 ht
  -- what the planner part leaves alone
  have a1 : sa.collision_frame_selector = s.collision_frame_selector := by rw [ea]
  have a2 : sa.collision_messenger_state = s.collision_messenger_state := by rw [ea]
  have a3 : sa.traffic_light_frame_selector = s.traffic_light_frame_selector := by rw [ea]
  have a4 : sa.traffic_light_messenger_state = s.traffic_light_messenger_state := by rw [ea]
  have a5 : msa.collision_messenger = ms.collision_messenger := by rw [ema]
  have a6 : msa.traffic_light_messenger = ms.traffic_light_messenger := by rw [ema]
  have a7 : sa.planner_frame_selector = (!s.planner_frame_selector) := by rw [ea]
  have a8 : sa.planner_messenger_state = msa.planner_messenger.state_counter := by rw [ea]
  -- what the collision part leaves alone
  have b : sb.planner_frame_selector = sa.planner_frame_selector ∧
      sb.planner_messenger_state = sa.planner_messenger_state ∧
      sb.traffic_light_frame_selector = sa.traffic_light_frame_selector ∧
      sb.traffic_light_messenger_state = sa.traffic_light_messenger_state ∧
      msb.planner_messenger = msa.planner_messenger ∧
      msb.traffic_light_messenger = msa.traffic_light_messenger := by
    by_cases hcc : msa.collision_messenger.GetState = sa.collision_messenger_state
    · obtain ⟨e1, e2⟩ := hc2 hcc
      rw [e1, e2]
      exact ⟨rfl, rfl, rfl, rfl, rfl, rfl⟩
    · obtain ⟨e1, e2, -⟩ := hc1 hcc
      refine ⟨by rw [e1], by rw [e1], by rw [e1], by rw [e1], by rw [e2], by rw [e2]⟩
  -- what the traffic-light part leaves alone
  have c : s1.planner_frame_selector = sb.planner_frame_selector ∧
      s1.planner_messenger_state = sb.planner_messenger_state ∧
      s1.collision_frame_selector = sb.collision_frame_selector ∧
      s1.collision_messenger_state = sb.collision_messenger_state ∧
      ms1.planner_messenger = msb.planner_messenger ∧
      ms1.collision_messenger = msb.collision_messenger := by
    by_cases hcc : msb.traffic_light_messenger.GetState = sb.traffic_light_messenger_state
    · obtain ⟨e1, e2⟩ := ht2 hcc
      rw [e1, e2]
      exact ⟨rfl, rfl, rfl, rfl, rfl, rfl⟩
    · obtain ⟨e1, e2, -⟩ := ht1 hcc
      refine ⟨by rw [e1], by rw [e1], by rw [e1], by rw [e1], by rw [e2], by rw [e2]⟩
  obtain ⟨b1, b2, b3, b4, b5, b6⟩ := b
  obtain ⟨c1, c2, c3, c4, c5, c6⟩ := c
  refine ⟨⟨by rw [c1, b1, a7], by rw [c5, b5, hda], by rw [c2, b2, a8, c5, b5]⟩,
    ?_, ?_, ?_, ?_⟩
  · intro hne
    obtain ⟨e1, -, e3⟩ := hc1 (by rw [a5, a2]; exact hne)
    refine ⟨by rw [c3, e1, ← a1], by rw [c6, e3, a1], ?_⟩
    rw [c4, c6, e1]
  · intro heq
    obtain ⟨e1, e2⟩ := hc2 (by rw [a5, a2]; exact heq)
    exact ⟨by rw [c3, e1, a1], by rw [c4, e1, a2], by rw [c6, e2, a5]⟩
  · intro hne
    obtain ⟨e1, -, e3⟩ := ht1 (by rw [b6, a6, b4, a4]; exact hne)
    refine ⟨by rw [e1, ← a3, ← b3], by rw [e3, b3, a3], ?_⟩
    rw [e1]
  · intro heq
    obtain ⟨e1, e2⟩ := ht2 (by rw [b6, a6, b4, a4]; exact heq)
    exact ⟨by rw [e1, b3, a3], by rw [e1, b4, a4], by rw [e2, b6, a6]⟩


/-- C15 (witness): fresh messengers (counter 0) and observed states `-1`, `-1`, `0`.
The call returns; the Planner and Collision frames are sent and their selectors
flipped, the TrafficLight frame is not sent and its selector, observed state and
messenger are as before. -/
theorem C15_sender_order_witness :
    ∃ (s1 : LocalizationStage) (ms1 : StageMessengers),
      DataSender quietSender senderStage freshMessengers = some (s1, ms1) ∧
      (s1.planner_frame_selector = false ∧ ms1.planner_messenger.data = true ∧
        s1.planner_messenger_state = 1) ∧
      (s1.collision_frame_selector = false ∧ ms1.collision_messenger.data = true ∧
        s1.collision_messenger_state = 1) ∧
      (s1.traffic_light_frame_selector = true ∧ s1.traffic_light_messenger_state = 0 ∧
        ms1.traffic_light_messenger = Messenger.new true) := by
  have hv : (DataSender quietSender senderStage freshMessengers).map
      (fun p => (p.2.planner_messenger.state_counter, p.2.collision_messenger.state_counter))
      = some (1, 1) := by decide
  cases h : DataSender quietSender senderStage freshMessengers with
  | none => rw [h] at hv; simp at hv
  | some p =>
    obtain ⟨s1, ms1⟩ := p
    rw [h] at hv
    simp only [Option.map_some', Option.some.injEq, Prod.mk.injEq] at hv
    obtain ⟨hp, hc, -, -, ht⟩ :=
      C15_sender_order quietSender senderStage s1 freshMessengers ms1 h
    have hc1 := hc (by decide)
    have ht1 := ht rfl
    exact ⟨s1, ms1, rfl, ⟨hp.1, hp.2.1, by rw [hp.2.2, hv.1]⟩,
      ⟨hc1.1, hc1.2.1, by rw [hc1.2.2, hv.2]⟩, ⟨ht1.1, ht1.2.1, ht1.2.2⟩⟩


/-! ### C16, C17: the lane-change decision at two concrete inputs -/

/-- C16 (the code at the failing input). On the two-lane road the right lane holds the
follower and the leader, 16 m ahead, and the left lane holds three vehicles.  The
difference `co_lane_vehicles.size() - left_lane_vehicles.size()` is taken in `size_t`:
`2 - 3` is `2^64 - 1`, which is greater than 1, so the scan sets `need_to_change_lane`
towards the left lane although that lane holds more vehicles than the current one. -/
theorem C16_crowded_lane_counts_as_viable :
    ((crowdedStage.publish_road_position twoLaneRoad follower 3).traffic_distribution.GetVehicleIds
      rightLane).length = 2 ∧
    ((crowdedStage.publish_road_position twoLaneRoad follower 3).traffic_distribution.GetVehicleIds
      leftLane).length = 3 ∧
    size_sub 2 3 = 18446744073709551615 ∧
    NeedToChangeLane planeGeom twoLaneRoad
        (crowdedStage.publish_road_position twoLaneRoad follower 3) follower
        (current_road_ids twoLaneRoad 3)
        (twoLaneRoad.node 3).left_waypoint (twoLaneRoad.node 3).right_waypoint
        ((crowdedStage.publish_road_position twoLaneRoad follower
          3).traffic_distribution.GetVehicleIds (current_road_ids twoLaneRoad 3))
      = .ok { need_to_change_lane := true, lane_change_direction := true } := by
  decide!

/-- C17 (the code at the failing input). The follower at 10 m/s behind the leader, the
left lane empty: `change_over_distance` is 5 and the lane change is needed and
hazard-free.  Five steps along `successor[0]` from the left sibling 1003 of the front
waypoint lead to node 1008; the loop `for (int i = change_over_distance; i >= 0; i--)`
takes six, and the buffer is reseeded with the single node 1009. -/
theorem C17_reseed_walks_one_step_further :
    change_over_distance (planeGeom.Length follower.velocity) = 5 ∧
    (twoLaneRoad.node 3).left_waypoint = some 1003 ∧
    AdvanceChangeOverPoint twoLaneRoad 5 1003 = .ok 1008 ∧
    AdvanceChangeOverPoint twoLaneRoad 6 1003 = .ok 1009 ∧
    (AssignLaneChange planeGeom twoLaneRoad overtakeStage 0 follower).toOption.map
        (fun s => s.buffer_map s.collision_frame_selector)
      = some [[1009], [6, 7, 8, 9, 10, 11, 12, 13]] := by
  decide!


/-! ### C18: the hazard rule -/

/-- A scan of the co-lane vehicles that ends with `need_to_change_lane` set has chosen
a side whose sibling exists. -/
lemma ScanCoLaneVehicles_sibling (g : Geom) (map : InMemoryMap) (s : LocalizationStage)
    (vehicle : Actor) (ids : GeoIds) (left right : Option WaypointPtr) (co_size : Nat) :
    ∀ (l : List Nat) (need : LaneChangeNeed),
      ScanCoLaneVehicles g map s vehicle ids left right co_size l = .ok need →
      need.need_to_change_lane = true →
      ∃ cop, (if need.lane_change_direction then left else right) = some cop := by
  intro l
  induction l with
  | nil =>
    intro need h ht
    unfold ScanCoLaneVehicles at h
    rw [← Except.ok.inj h] at ht
    exact absurd ht (by simp)
  | cons a t ih =>
    intro need h ht
    unfold ScanCoLaneVehicles at h
    simp only [bind_eq_ok] at h
    obtain ⟨index, -, buf, -, h⟩ := h
    by_cases hb : IsBlocking g map vehicle vehicle.id a buf = true
    · rw [if_pos hb] at h
      cases left with
      | some lw =>
        simp only at h
        split_ifs at h with hv
        · rw [← Except.ok.inj h]
          exact ⟨lw, rfl⟩
        · exact ih need h ht
      | none =>
        cases right with
        | some rw_ =>
          simp only at h
          split_ifs at h with hv
          · rw [← Except.ok.inj h]
            exact ⟨rw_, rfl⟩
          · exact ih need h ht
        | none =>
          simp only at h
          exact ih need h ht
    · rw [if_neg hb] at h
      exact ih need h ht

/-- The hazard loop ends with `found_hazard` set exactly when one of the vehicles it
was given is a hazard candidate. -/
lemma ScanTargetLaneVehicles_spec (g : Geom) (map : InMemoryMap) (s : LocalizationStage)
    (vehicle : Actor) (cop : WaypointPtr) (cod : Int) :
    ∀ (l : List Nat) (b : Bool),
      ScanTargetLaneVehicles g map s vehicle cop (map.node cop).lane_id cod l = .ok b →
      (b = true ↔ ∃ id ∈ l, HazardCandidate g map s vehicle cop cod id) := by
  intro l
  induction l with
  | nil =>
    intro b h
    unfold ScanTargetLaneVehicles at h
    rw [← Except.ok.inj h]
    simp
  | cons a t ih =>
    intro b h
    unfold ScanTargetLaneVehicles at h
    simp only [bind_eq_ok] at h
    obtain ⟨index, hidx, buf, hbuf, h⟩ := h
    -- the head vehicle is a candidate only through the slot and buffer just read
    have hhead : HazardCandidate g map s vehicle cop cod a →
        ∃ front rest other, buf = front :: rest ∧
          (map.node front).lane_id = (map.node cop).lane_id ∧
          at_ s.actor_list index = .ok other ∧
          IsHazard g map vehicle other cop cod (map.node front).location = true := by
      rintro ⟨index1, front, rest, other, h1, h2, h3, h4, h5⟩
      rw [hidx] at h1
      have e := Except.ok.inj h1
      subst e
      rw [hbuf] at h2
      exact ⟨front, rest, other, Except.ok.inj h2, h3, h4, h5⟩
    have hrest : ∀ b1, ScanTargetLaneVehicles g map s vehicle cop (map.node cop).lane_id cod t
          = .ok b1 → ¬ HazardCandidate g map s vehicle cop cod a →
        (b1 = true ↔ ∃ id ∈ a :: t, HazardCandidate g map s vehicle cop cod id) := by
      intro b1 hb1 hno
      rw [ih b1 hb1]
      constructor
      · rintro ⟨id, hid, hc⟩
        exact ⟨id, List.mem_cons_of_mem a hid, hc⟩
      · rintro ⟨id, hid, hc⟩
        rcases List.mem_cons.mp hid with rfl | hid
        · exact absurd hc hno
        · exact ⟨id, hid, hc⟩
    cases buf with
    | nil =>
      simp only at h
      refine hrest b h ?_
      intro hc
      obtain ⟨front, rest, other, e, -⟩ := hhead hc
      exact absurd e (by simp)
    | cons front rest =>
      simp only at h
      by_cases hl : (map.node front).lane_id = (map.node cop).lane_id
      · rw [if_pos hl] at h
        simp only [bind_eq_ok] at h
        obtain ⟨other, hother, h⟩ := h
        by_cases hz : IsHazard g map vehicle other cop cod (map.node front).location = true
        · rw [if_pos hz] at h
          rw [← Except.ok.inj h]
          simp only [true_iff]
          exact ⟨a, List.mem_cons_self a t, index, front, rest, other, hidx, hbuf, hl,
            hother, hz⟩
        · rw [if_neg hz] at h
          refine hrest b h ?_
          intro hc
          obtain ⟨front1, rest1, other1, e, -, ho, hh⟩ := hhead hc
          rw [List.cons.injEq] at e
          rw [hother] at ho
          rw [← e.1, ← Except.ok.inj ho] at hh
          exact hz hh
      · rw [if_neg hl] at h
        refine hrest b h ?_
        intro hc
        obtain ⟨front1, rest1, other1, e, hl1, -⟩ := hhead hc
        rw [List.cons.injEq] at e
        rw [← e.1] at hl1
        exact hl hl1

/-- Floating-point `>` on two quotients with positive divisors is the comparison of
the rational quotients. -/
lemma float_div_gt (a b c d : ℚ) (hb : 0 < b) (hd : 0 < d) :
    (float_div a b).gt (float_div c d) = true ↔ a / b > c / d := by
  unfold float_div
  rw [if_neg (ne_of_gt hb), if_neg (ne_of_gt hd)]
  simp [FloatQuotient.gt]

/-- The hazard test is the rule of the spec, the two times being compared as
floating-point quotients; for positive speeds that is the rule word for word. -/
lemma IsHazard_iff (g : Geom) (map : InMemoryMap) (vehicle other_vehicle : Actor)
    (cop : WaypointPtr) (cod : Int) (other_location : Vector3D) :
    (IsHazard g map vehicle other_vehicle cop cod other_location = true ↔
      if DeviationDotProduct g vehicle other_location < 0 then
        DeviationDotProduct g vehicle other_location > g.cos135 ∨
          (float_div (g.Distance (map.node cop).location other_location + cod)
            (g.Length other_vehicle.velocity)).gt
            (float_div (g.Distance (map.node cop).location vehicle.location + cod)
              (g.Length vehicle.velocity)) = true
      else
        g.Distance (map.node cop).location other_location < 1 + cod + vehicle.extent_x * 2) ∧
    (0 < g.Length other_vehicle.velocity → 0 < g.Length vehicle.velocity →
      (IsHazard g map vehicle other_vehicle cop cod other_location = true ↔
        spec_hazard g.cos135 (DeviationDotProduct g vehicle other_location)
          (g.Distance (map.node cop).location other_location)
          (g.Distance (map.node cop).location vehicle.location)
          (g.Length other_vehicle.velocity) (g.Length vehicle.velocity) cod
          vehicle.extent_x)) := by
  have h1 : IsHazard g map vehicle other_vehicle cop cod other_location = true ↔
      if DeviationDotProduct g vehicle other_location < 0 then
        DeviationDotProduct g vehicle other_location > g.cos135 ∨
          (float_div (g.Distance (map.node cop).location other_location + cod)
            (g.Length other_vehicle.velocity)).gt
            (float_div (g.Distance (map.node cop).location vehicle.location + cod)
              (g.Length vehicle.velocity)) = true
      else
        g.Distance (map.node cop).location other_location
          < 1 + cod + vehicle.extent_x * 2 := by
    unfold IsHazard
    by_cases hr : DeviationDotProduct g vehicle other_location < 0
    · simp only [if_pos hr, Bool.or_eq_true, decide_eq_true_eq]
    · simp only [if_neg hr, decide_eq_true_eq]
  refine ⟨h1, ?_⟩
  intro ho hs
  rw [h1]
  unfold spec_hazard
  by_cases hr : DeviationDotProduct g vehicle other_location < 0
  · simp only [if_pos hr]
    rw [float_div_gt _ _ _ _ ho hs]
  · simp only [if_neg hr]
    rw [mul_comm vehicle.extent_x 2]


/-- The hazard test where the spec's quotients are not defined or not needed: a
candidate ahead is judged by its distance alone, whatever the speeds; a standing
candidate behind is a hazard whenever the vehicle itself moves (its time is `+inf`);
and for a standing vehicle no time exceeds its own, so a candidate behind is a hazard
exactly when its dot product is above cos 135°. -/
lemma IsHazard_standing (g : Geom) (map : InMemoryMap) (vehicle other_vehicle : Actor)
    (cop : WaypointPtr) (cod : Int) (other_location : Vector3D) :
    (0 ≤ DeviationDotProduct g vehicle other_location →
      (IsHazard g map vehicle other_vehicle cop cod other_location = true ↔
        g.Distance (map.node cop).location other_location
          < 1 + cod + 2 * vehicle.extent_x)) ∧
    (0 ≤ DeviationDotProduct g vehicle other_location →
      (IsHazard g map vehicle other_vehicle cop cod other_location = true ↔
        spec_hazard g.cos135 (DeviationDotProduct g vehicle other_location)
          (g.Distance (map.node cop).location other_location)
          (g.Distance (map.node cop).location vehicle.location)
          (g.Length other_vehicle.velocity) (g.Length vehicle.velocity) cod
          vehicle.extent_x)) ∧
    (DeviationDotProduct g vehicle other_location < 0 →
      g.Length other_vehicle.velocity = 0 → g.Length vehicle.velocity ≠ 0 →
      0 < g.Distance (map.node cop).location other_location + cod →
      IsHazard g map vehicle other_vehicle cop cod other_location = true) ∧
    (DeviationDotProduct g vehicle other_location < 0 →
      g.Length vehicle.velocity = 0 →
      0 ≤ g.Distance (map.node cop).location vehicle.location + cod →
      (IsHazard g map vehicle other_vehicle cop cod other_location = true ↔
        DeviationDotProduct g vehicle other_location > g.cos135)) := by
  have h1 := (IsHazard_iff g map vehicle other_vehicle cop cod other_location).1
  refine ⟨?_, ?_, ?_, ?_⟩
  · intro hd
    rw [h1, if_neg (not_lt.mpr hd), mul_comm vehicle.extent_x 2]
  · intro hd
    rw [h1, if_neg (not_lt.mpr hd)]
    unfold spec_hazard
    rw [if_neg (not_lt.mpr hd), mul_comm vehicle.extent_x 2]
  · intro hd ho hs hnum
    rw [h1, if_pos hd]
    right
    unfold float_div
    rw [if_pos ho, if_pos hnum, if_neg hs]
    rfl
  · intro hd hs hnum
    rw [h1, if_pos hd]
    have href : float_div (g.Distance (map.node cop).location vehicle.location + cod)
          (g.Length vehicle.velocity) = FloatQuotient.pos_inf ∨
        float_div (g.Distance (map.node cop).location vehicle.location + cod)
          (g.Length vehicle.velocity) = FloatQuotient.nan := by
      unfold float_div
      rw [if_pos hs]
      by_cases hpos : 0 < g.Distance (map.node cop).location vehicle.location + cod
      · left
        rw [if_pos hpos]
      · right
        rw [if_neg hpos, if_neg (not_lt.mpr hnum)]
    have hno : (float_div (g.Distance (map.node cop).location other_location + cod)
        (g.Length other_vehicle.velocity)).gt
        (float_div (g.Distance (map.node cop).location vehicle.location + cod)
          (g.Length vehicle.velocity)) = false := by
      rcases href with h | h <;> rw [h] <;>
        cases float_div (g.Distance (map.node cop).location other_location + cod)
          (g.Length other_vehicle.velocity) <;> rfl
    rw [hno]
    simp

/-- C18. When the scan of the co-lane vehicles has set `need_to_change_lane` and the
lane-change block completes, the chosen sibling `cop` exists and the lane change is
carried out if and only if no vehicle that the traffic distribution holds on the
target lane, with a slot and a non-empty buffer whose front is on that lane, is a
hazard: with such a hazard the stage, and so the buffer and its front on the original
lane, is left as it was; without one the buffer is reseeded with the single node the
walk from `cop` ends at.  A candidate behind (relative dot `< 0`) is a hazard iff its
dot is greater than cos 135° or its time to the merge point exceeds the vehicle's, a
candidate ahead iff its distance to the merge point is below
`1.0 + change_over_distance + 2 * bbox_extent_x`, whatever the speeds; the times are
floating-point quotients, so that for positive speeds the test is the spec's rule word
for word, a standing candidate behind a moving vehicle is a hazard (its time is
`+inf`), and behind a standing vehicle only the dot product decides. -/
theorem C18_hazard_rule (g : Geom) (map : InMemoryMap) (s s1 : LocalizationStage) (i : Nat)
    (vehicle : Actor) (front : WaypointPtr) (need : LaneChangeNeed)
    (hneed : NeedToChangeLane g map s vehicle (current_road_ids map front)
      (map.node front).left_waypoint (map.node front).right_waypoint
      (s.traffic_distribution.GetVehicleIds (current_road_ids map front)) = .ok need)
    (htrue : need.need_to_change_lane = true)
    (hres : LaneChangeBlock g map s i vehicle front (current_road_ids map front) = .ok s1) :
    ∃ cop : WaypointPtr,
      (if need.lane_change_direction then (map.node front).left_waypoint
        else (map.node front).right_waypoint) = some cop ∧
      ((∃ id ∈ target_lane_vehicles map s (current_road_ids map front) cop,
          HazardCandidate g map s vehicle cop
            (change_over_distance (g.Length vehicle.velocity)) id) → s1 = s) ∧
      ((¬ ∃ id ∈ target_lane_vehicles map s (current_road_ids map front) cop,
          HazardCandidate g map s vehicle cop
            (change_over_distance (g.Length vehicle.velocity)) id) →
        ∃ node, AdvanceChangeOverPoint map
            (change_over_distance (g.Length vehicle.velocity) + 1).toNat cop = .ok node ∧
          s1 = s.set_buffer s.collision_frame_selector i [node]) ∧
      (∀ (other_vehicle : Actor) (other_location : Vector3D),
        0 < g.Length other_vehicle.velocity → 0 < g.Length vehicle.velocity →
        (IsHazard g map vehicle other_vehicle cop
            (change_over_distance (g.Length vehicle.velocity)) other_location = true ↔
          spec_hazard g.cos135 (DeviationDotProduct g vehicle other_location)
            (g.Distance (map.node cop).location other_location)
            (g.Distance (map.node cop).location vehicle.location)
            (g.Length other_vehicle.velocity) (g.Length vehicle.velocity)
            (change_over_distance (g.Length vehicle.velocity)) vehicle.extent_x)) ∧
      (∀ (other_vehicle : Actor) (other_location : Vector3D),
        (IsHazard g map vehicle other_vehicle cop
            (change_over_distance (g.Length vehicle.velocity)) other_location = true ↔
          if DeviationDotProduct g vehicle other_location < 0 then
            DeviationDotProduct g vehicle other_location > g.cos135 ∨
              (float_div (g.Distance (map.node cop).location other_location
                  + change_over_distance (g.Length vehicle.velocity))
                (g.Length other_vehicle.velocity)).gt
                (float_div (g.Distance (map.node cop).location vehicle.location
                  + change_over_distance (g.Length vehicle.velocity))
                  (g.Length vehicle.velocity)) = true
          else
            g.Distance (map.node cop).location other_location
              < 1 + change_over_distance (g.Length vehicle.velocity)
                + vehicle.extent_x * 2) ∧
        (0 ≤ DeviationDotProduct g vehicle other_location →
          (IsHazard g map vehicle other_vehicle cop
              (change_over_distance (g.Length vehicle.velocity)) other_location = true ↔
            g.Distance (map.node cop).location other_location
              < 1 + change_over_distance (g.Length vehicle.velocity)
                + 2 * vehicle.extent_x)) ∧
        (0 ≤ DeviationDotProduct g vehicle other_location →
          (IsHazard g map vehicle other_vehicle cop
              (change_over_distance (g.Length vehicle.velocity)) other_location = true ↔
            spec_hazard g.cos135 (DeviationDotProduct g vehicle other_location)
              (g.Distance (map.node cop).location other_location)
              (g.Distance (map.node cop).location vehicle.location)
              (g.Length other_vehicle.velocity) (g.Length vehicle.velocity)
              (change_over_distance (g.Length vehicle.velocity)) vehicle.extent_x)) ∧
        (DeviationDotProduct g vehicle other_location < 0 →
          g.Length other_vehicle.velocity = 0 → g.Length vehicle.velocity ≠ 0 →
          0 < g.Distance (map.node cop).location other_location
            + change_over_distance (g.Length vehicle.velocity) →
          IsHazard g map vehicle other_vehicle cop
            (change_over_distance (g.Length vehicle.velocity)) other_location = true) ∧
        (DeviationDotProduct g vehicle other_location < 0 →
          g.Length vehicle.velocity = 0 →
          0 ≤ g.Distance (map.node cop).location vehicle.location
            + change_over_distance (g.Length vehicle.velocity) →
          (IsHazard g map vehicle other_vehicle cop
              (change_over_distance (g.Length vehicle.velocity)) other_location = true ↔
            DeviationDotProduct g vehicle other_location > g.cos135))) := by
  -- the chosen sibling exists
  have hcop : ∃ cop, (if need.lane_change_direction then (map.node front).left_waypoint
      else (map.node front).right_waypoint) = some cop := by
    unfold NeedToChangeLane at hneed
    split_ifs at hneed with hlen
    · exact ScanCoLaneVehicles_sibling g map s vehicle _ _ _ _ _ need hneed htrue
    · rw [← Except.ok.inj hneed] at htrue
      exact absurd htrue (by simp)
  obtain ⟨cop, hcop⟩ := hcop
  refine ⟨cop, hcop, ?_, ?_, fun ov ol ho hs => (IsHazard_iff g map vehicle ov cop _ ol).2 ho hs,
    fun ov ol => ⟨(IsHazard_iff g map vehicle ov cop _ ol).1,
      IsHazard_standing g map vehicle ov cop _ ol⟩⟩
  all_goals
    unfold LaneChangeBlock at hres
    simp only [bind_eq_ok] at hres
    obtain ⟨need1, hneed1, possible, hposs, hch⟩ := hres
    rw [hneed] at hneed1
    have e := Except.ok.inj hneed1
    subst e
    unfold PossibleToLaneChange at hposs
    rw [if_pos htrue] at hposs
    simp only [hcop] at hposs
    unfold ChangeLane at hch
  · rintro ⟨id, hid, hc⟩
    unfold target_lane_vehicles at hid
    have hpos : (s.traffic_distribution.GetVehicleIds
        { road_id := (current_road_ids map front).road_id,
          section_id := (current_road_ids map front).section_id,
          lane_id := (map.node cop).lane_id }).length > 0 :=
      List.length_pos_of_mem hid
    rw [if_pos hpos] at hposs
    simp only [bind_eq_ok] at hposs
    obtain ⟨found, hfound, hp⟩ := hposs
    have hf : found = true :=
      (ScanTargetLaneVehicles_spec g map s vehicle cop _ _ found hfound).2 ⟨id, hid, hc⟩
    rw [← Except.ok.inj hp, hf] at hch
    simp only [Bool.not_true, Bool.and_false, Bool.false_eq_true, if_false] at hch
    exact (Except.ok.inj hch).symm
  · intro hno
    unfold target_lane_vehicles at hno
    have hp1 : possible = (true, some cop) := by
      split_ifs at hposs with hpos
      · simp only [bind_eq_ok] at hposs
        obtain ⟨found, hfound, hp⟩ := hposs
        have hf : found = false := by
          cases hfd : found with
          | false => rfl
          | true =>
            exact absurd ((ScanTargetLaneVehicles_spec g map s vehicle cop _ _ found
              hfound).1 hfd) hno
        rw [← Except.ok.inj hp, hf]
        rfl
      · exact (Except.ok.inj hposs).symm
    rw [hp1, htrue] at hch
    simp only [Bool.and_self, if_true, bind_eq_ok] at hch
    obtain ⟨node, hnode, hs⟩ := hch
    exact ⟨node, hnode, (Except.ok.inj hs).symm⟩


/-- C18 (witness): the follower at 10 m/s behind the leader, and vehicle 3 on the left
lane at 12 m/s with its buffer front at `(4, 3)`, behind the follower (dot `-4/5`).
Its time to the merge point `(12, 3)` is `(8 + 5) / 12`, the follower's `(5 + 5) / 10`:
it is a hazard, and the lane-change block leaves the stage as it was.  A standing
vehicle is a hazard too, ahead at the merge point (distance `0 < 10`) as well as behind
at `(4, 3)` (its time is `+inf`). -/
theorem C18_hazard_rule_witness :
    NeedToChangeLane planeGeom twoLaneRoad blockedStage follower (current_road_ids twoLaneRoad 3)
        (twoLaneRoad.node 3).left_waypoint (twoLaneRoad.node 3).right_waypoint
        (blockedStage.traffic_distribution.GetVehicleIds (current_road_ids twoLaneRoad 3))
      = .ok { need_to_change_lane := true, lane_change_direction := true } ∧
    HazardCandidate planeGeom twoLaneRoad blockedStage follower 1003
      (change_over_distance (planeGeom.Length follower.velocity)) 3 ∧
    IsHazard planeGeom twoLaneRoad follower (laneVehicle 9 12 3 0) 1003
      (change_over_distance (planeGeom.Length follower.velocity))
      (twoLaneRoad.node 1003).location = true ∧
    IsHazard planeGeom twoLaneRoad follower (laneVehicle 9 4 3 0) 1003
      (change_over_distance (planeGeom.Length follower.velocity))
      (twoLaneRoad.node 1001).location = true ∧
    ∃ s1, LaneChangeBlock planeGeom twoLaneRoad blockedStage 0 follower 3
        (current_road_ids twoLaneRoad 3) = .ok s1 ∧ s1 = blockedStage := by
  have hneed : NeedToChangeLane planeGeom twoLaneRoad blockedStage follower
      (current_road_ids twoLaneRoad 3)
      (twoLaneRoad.node 3).left_waypoint (twoLaneRoad.node 3).right_waypoint
      (blockedStage.traffic_distribution.GetVehicleIds (current_road_ids twoLaneRoad 3))
      = .ok { need_to_change_lane := true, lane_change_direction := true } := by decide!
  have hc : HazardCandidate planeGeom twoLaneRoad blockedStage follower 1003
      (change_over_distance (planeGeom.Length follower.velocity)) 3 :=
    ⟨2, 1001, [1002, 1003, 1004, 1005, 1006, 1007, 1008], laneVehicle 3 3 3 12,
      by decide!, by decide!, by decide!, by decide!, by decide!⟩
  have hsome : (LaneChangeBlock planeGeom twoLaneRoad blockedStage 0 follower 3
      (current_road_ids twoLaneRoad 3)).toOption.isSome = true := by decide!
  refine ⟨hneed, hc, by decide!, by decide!, ?_⟩
  cases h : LaneChangeBlock planeGeom twoLaneRoad blockedStage 0 follower 3
      (current_road_ids twoLaneRoad 3) with
  | error e => rw [h] at hsome; simp [Except.toOption] at hsome
  | ok s1 =>
    obtain ⟨cop, hcop, hyes, -, -⟩ :=
      C18_hazard_rule planeGeom twoLaneRoad blockedStage s1 0 follower 3 _ hneed rfl h
    have hl : (twoLaneRoad.node 3).left_waypoint = some 1003 := by decide!
    have e : cop = 1003 := by
      simp only [if_true, hl, Option.some.injEq] at hcop
      exact hcop.symm
    subst e
    exact ⟨s1, rfl, hyes ⟨3, by decide!, hc⟩⟩


/-! ### C19: the junction verdict -/

/-- The fan-out scan over `n` slots from `i`, all of them inside the buffer, returns,
and its verdict is true exactly when one of those slots holds a node with more than
one successor. -/
lemma ScanFanOut_spec (map : InMemoryMap) (wb : Buffer) :
    ∀ n i : Nat, i + n ≤ wb.length →
      ∃ b, ScanFanOut map wb n i = .ok b ∧
        (b = true ↔ ∃ j, i ≤ j ∧ j < i + n ∧ ∃ w, wb.get? j = some w ∧
          1 < (map.node w).next_waypoints.length) := by
  intro n
  induction n with
  | zero =>
    intro i _
    refine ⟨false, rfl, ?_⟩
    simp only [Bool.false_eq_true, false_iff, not_exists, not_and]
    intro j h1 h2
    omega
  | succ n ih =>
    intro i hi
    have hlt : i < wb.length := by omega
    obtain ⟨w, hw⟩ : ∃ w, wb.get? i = some w :=
      ⟨wb.get ⟨i, hlt⟩, List.get?_eq_get hlt⟩
    have hat : at_ wb i = .ok w := (at__eq_ok wb i w).2 hw
    unfold ScanFanOut
    simp only [hat, bind, Except.bind]
    by_cases hf : (map.node w).next_waypoints.length > 1
    · rw [if_pos hf]
      exact ⟨true, rfl, by simp only [true_iff]; exact ⟨i, le_refl i, by omega, w, hw, hf⟩⟩
    · rw [if_neg hf]
      obtain ⟨b, hb, hiff⟩ := ih (i + 1) (by omega)
      refine ⟨b, hb, ?_⟩
      rw [hiff]
      constructor
      · rintro ⟨j, h1, h2, hj⟩
        exact ⟨j, by omega, by omega, hj⟩
      · rintro ⟨j, h1, h2, w1, hw1, hf1⟩
        by_cases hji : j = i
        · subst hji
          rw [hw] at hw1
          rw [Option.some.inj hw1] at hf
          exact absurd hf1 hf
        · exact ⟨j, by omega, by omega, w1, hw1, hf1⟩

lemma look_ahead_index_eq (v : ℚ) : look_ahead_index v = max ⌊2 * v⌋ 5 := by
  unfold look_ahead_index static_cast_int MINIMUM_JUNCTION_LOOK_AHEAD
  split_ifs <;> simp

lemma look_ahead_index_pos (v : ℚ) : 5 ≤ look_ahead_index v := by
  rw [look_ahead_index_eq]
  exact le_max_right _ _

/-- The junction verdict for a buffer longer than the look-ahead index `k`: true
exactly when `buffer[k]` is a junction, the front is not, and either the speed limit
is at most `HIGHWAY_SPEED` or a node at an index below `k` has more than one
successor. -/
lemma ApproachingJunction_spec (map : InMemoryMap) (vehicle : Actor) (v : ℚ) (wb : Buffer)
    (hlen : look_ahead_index v < (wb.length : Int)) :
    ∃ (front ahead : WaypointPtr) (b : Bool),
      wb.head? = some front ∧ wb.get? (look_ahead_index v).toNat = some ahead ∧
      ApproachingJunction map vehicle v wb = .ok b ∧
      (b = true ↔ (map.node ahead).junction = true ∧ (map.node front).junction = false ∧
        (vehicle.speed_limit ≤ HIGHWAY_SPEED ∨
          ∃ j, j < (look_ahead_index v).toNat ∧ ∃ w, wb.get? j = some w ∧
            1 < (map.node w).next_waypoints.length)) := by
  have h5 := look_ahead_index_pos v
  have hk : (look_ahead_index v).toNat < wb.length := by omega
  obtain ⟨ahead, hahead⟩ : ∃ w, wb.get? (look_ahead_index v).toNat = some w :=
    ⟨wb.get ⟨_, hk⟩, List.get?_eq_get hk⟩
  obtain ⟨front, hfront⟩ : ∃ f, wb.head? = some f := by
    cases wb with
    | nil => simp at hk
    | cons a t => exact ⟨a, rfl⟩
  obtain ⟨bs, hbs, hiff⟩ := ScanFanOut_spec map wb (look_ahead_index v).toNat 0 (by omega)
  have hlp : look_ahead_point wb (look_ahead_index v) = .ok ahead := by
    unfold look_ahead_point
    rw [if_pos (by omega)]
    exact (at__eq_ok _ _ _).2 hahead
  unfold ApproachingJunction
  simp only [hlp, hfront, bind, Except.bind]
  by_cases hj : ((map.node ahead).junction && !(map.node front).junction) = true
  · rw [if_pos hj]
    simp only [Bool.and_eq_true, Bool.not_eq_true'] at hj
    by_cases hs : vehicle.speed_limit > HIGHWAY_SPEED
    · rw [if_pos hs]
      refine ⟨front, ahead, bs, rfl, hahead, hbs, ?_⟩
      rw [hiff]
      constructor
      · rintro ⟨j, -, h2, hw⟩
        exact ⟨hj.1, hj.2, Or.inr ⟨j, by omega, hw⟩⟩
      · rintro ⟨-, -, h | ⟨j, h2, hw⟩⟩
        · exact absurd h (not_le.mpr hs)
        · exact ⟨j, Nat.zero_le j, by omega, hw⟩
    · rw [if_neg hs]
      exact ⟨front, ahead, true, rfl, hahead, rfl,
        by simp only [true_iff]; exact ⟨hj.1, hj.2, Or.inl (not_lt.mp hs)⟩⟩
  · rw [if_neg hj]
    refine ⟨front, ahead, false, rfl, hahead, rfl, ?_⟩
    simp only [Bool.false_eq_true, false_iff]
    rintro ⟨h1, h2, -⟩
    rw [h1, h2] at hj
    exact hj rfl


/-- C19 (counterexample). At 20 m/s with the buffer `[1, ..., 45]`, a junction at index
40, a front that is no junction and no fan-out above 1, under a speed limit equal to
the single-precision constant `HIGHWAY_SPEED`: that limit exceeds `50 / 3.6`, so the
spec's rule gives false, but `speed_limit > HIGHWAY_SPEED` is false in the code and the
verdict, also as written to the Planner frame, is true. -/
theorem C19_limit_at_rounded_constant :
    (50 / (36 / 10) : ℚ) < roundedLimitVehicle.speed_limit ∧
    roundedLimitVehicle.speed_limit = HIGHWAY_SPEED ∧
    look_ahead_index 20 = 40 ∧
    ApproachingJunction junctionRoad roundedLimitVehicle 20 (List.range' 1 45) = .ok true ∧
    (GenerateOutput axisGeom junctionRoad
        (singleVehicleStage roundedLimitVehicle (List.range' 1 45) []) 0
        roundedLimitVehicle).toOption.map
      (fun s => (s.planner_frame_map s.planner_frame_selector).map
        (fun m => m.approaching_true_junction)) = some [true] ∧
    ¬ spec_approaching_junction junctionRoad roundedLimitVehicle.speed_limit 40
      (List.range' 1 45) := by
  refine ⟨by decide!, by decide!, by decide!, by decide!, by decide!, ?_⟩
  rintro ⟨front, ahead, -, -, -, -, hle | ⟨j, -, w, -, hfan⟩⟩
  · exact absurd hle (by decide!)
  · simp [junctionRoad] at hfan

/-- C19 (amended). With the look-ahead index `k = max(floor(2 v), 5)` and a buffer
longer than `k`, the junction verdict is true if and only if `buffer[k]` is a junction,
the front is not a junction, and either the speed limit is at most `HIGHWAY_SPEED`, the
single-precision value `3640889 / 262144` of `50 / 3.6` (above `50 / 3.6` by less than
`2^-21`), or some buffer node at an index below `k` has more than one successor.  For
every speed limit outside the gap between `50 / 3.6` and that value this is the rule
with `50 / 3.6`.  A completed output step on that buffer writes the verdict to
`approaching_true_junction` in the Planner frame. -/
theorem C19_junction_verdict (map : InMemoryMap) (vehicle : Actor) (v : ℚ) (wb : Buffer)
    (hlen : look_ahead_index v < (wb.length : Int)) :
    look_ahead_index v = max ⌊2 * v⌋ 5 ∧
    HIGHWAY_SPEED = 3640889 / 262144 ∧ (50 / (36 / 10) : ℚ) < HIGHWAY_SPEED ∧
    HIGHWAY_SPEED - 50 / (36 / 10) < 1 / 2097152 ∧
    ∃ (front ahead : WaypointPtr) (b : Bool),
      wb.head? = some front ∧ wb.get? (look_ahead_index v).toNat = some ahead ∧
      ApproachingJunction map vehicle v wb = .ok b ∧
      (b = true ↔ (map.node ahead).junction = true ∧ (map.node front).junction = false ∧
        (vehicle.speed_limit ≤ HIGHWAY_SPEED ∨
          ∃ j, j < (look_ahead_index v).toNat ∧ ∃ w, wb.get? j = some w ∧
            1 < (map.node w).next_waypoints.length)) ∧
      ((vehicle.speed_limit ≤ 50 / (36 / 10) ∨ HIGHWAY_SPEED < vehicle.speed_limit) →
        (b = true ↔
          spec_approaching_junction map vehicle.speed_limit (look_ahead_index v).toNat wb)) ∧
      (∀ (g : Geom) (s s1 : LocalizationStage) (i : Nat),
        v = g.Length vehicle.velocity →
        at_ (s.buffer_map s.collision_frame_selector) i = .ok wb →
        GenerateOutput g map s i vehicle = .ok s1 →
        ∃ message, at_ (s1.planner_frame_map s1.planner_frame_selector) i = .ok message ∧
          message.approaching_true_junction = b) := by
  obtain ⟨front, ahead, b, hf, ha, hb, hiff⟩ := ApproachingJunction_spec map vehicle v wb hlen
  have hgap : (50 / (36 / 10) : ℚ) < HIGHWAY_SPEED := by
    unfold HIGHWAY_SPEED
    norm_num
  refine ⟨look_ahead_index_eq v, rfl, hgap, by unfold HIGHWAY_SPEED; norm_num,
    front, ahead, b, hf, ha, hb, hiff, ?_, ?_⟩
  · intro hout
    have hlim : vehicle.speed_limit ≤ HIGHWAY_SPEED ↔ vehicle.speed_limit ≤ 50 / (36 / 10) := by
      constructor
      · intro hle
        rcases hout with h1 | h1
        · exact h1
        · exact absurd hle (not_le.mpr h1)
      · intro hle
        exact le_of_lt (lt_of_le_of_lt hle hgap)
    rw [hiff, hlim]
    unfold spec_approaching_junction
    constructor
    · rintro ⟨h1, h2, h3⟩
      exact ⟨front, ahead, hf, ha, h1, h2, h3⟩
    · rintro ⟨front1, ahead1, hf1, ha1, h1, h2, h3⟩
      rw [hf] at hf1
      rw [ha] at ha1
      rw [Option.some.inj hf1, Option.some.inj ha1]
      exact ⟨h1, h2, h3⟩
  · intro g s s1 i hv hwb hout
    obtain ⟨wb1, tw, aj, hwb1, -, haj, -, hm⟩ := GenerateOutput_planner g map s s1 i vehicle hout
    rw [hwb] at hwb1
    have e := Except.ok.inj hwb1
    subst e
    rw [← hv, hb] at haj
    have e2 := Except.ok.inj haj
    subst e2
    exact ⟨_, hm, rfl⟩

/-- C19 (witness): 20 m/s under a speed limit of 25 m/s, the buffer `[1, ..., 45]` on
the road whose node 41, at index 40, is a junction, every node having one successor:
`k` is 40 and the verdict, also as written by the output step, is false. -/
theorem C19_junction_verdict_witness :
    look_ahead_index 20 < ((List.range' 1 45).length : Int) ∧
    look_ahead_index 20 = 40 ∧
    (List.range' 1 45).get? 40 = some 41 ∧
    (junctionRoad.node 41).junction = true ∧
    HIGHWAY_SPEED < highwayVehicle.speed_limit ∧
    ApproachingJunction junctionRoad highwayVehicle 20 (List.range' 1 45) = .ok false ∧
    (GenerateOutput axisGeom junctionRoad
        (singleVehicleStage highwayVehicle (List.range' 1 45) []) 0
        highwayVehicle).toOption.map
      (fun s => (s.planner_frame_map s.planner_frame_selector).map
        (fun m => m.approaching_true_junction)) = some [false] ∧
    ∃ (front ahead : WaypointPtr) (b : Bool),
      (List.range' 1 45).head? = some front ∧
      (List.range' 1 45).get? (look_ahead_index 20).toNat = some ahead ∧
      ApproachingJunction junctionRoad highwayVehicle 20 (List.range' 1 45) = .ok b := by
  refine ⟨by decide!, by decide!, by decide!, by decide!, by decide!, by decide!,
    by decide!, ?_⟩
  obtain ⟨-, -, -, -, front, ahead, b, h1, h2, h3, -⟩ :=
    C19_junction_verdict junctionRoad highwayVehicle 20 (List.range' 1 45) (by decide!)
  exact ⟨front, ahead, b, h1, h2, h3⟩


/-- The condition of the sync step in words: both buffers have a front, and the fronts
differ in lane id or in section id. -/
lemma SyncCondition_iff (map : InMemoryMap) (wb cb : Buffer) :
    SyncCondition map wb cb = true ↔
      ∃ w c, wb.head? = some w ∧ cb.head? = some c ∧
        ((map.node c).lane_id ≠ (map.node w).lane_id ∨
          (map.node c).section_id ≠ (map.node w).section_id) := by
  cases wb with
  | nil => simp [SyncCondition]
  | cons w wr =>
    cases cb with
    | nil => simp [SyncCondition]
    | cons c cr => simp [SyncCondition]

/-- Writing a slot under one selector leaves the list under the other selector alone. -/
lemma buffer_map_set_buffer_other (s : LocalizationStage) (sel : Bool) (i : Nat) (b : Buffer) :
    (s.set_buffer sel i b).buffer_map (!sel) = s.buffer_map (!sel) := by
  cases sel <;> simp [LocalizationStage.set_buffer, LocalizationStage.buffer_map]

/-- Writing slot `i` leaves every other slot under the same selector alone. -/
lemma buffer_map_set_buffer_ne (s : LocalizationStage) (sel : Bool) (i j : Nat) (b : Buffer)
    (hj : j ≠ i) :
    ((s.set_buffer sel i b).buffer_map sel).get? j = (s.buffer_map sel).get? j := by
  cases sel <;>
    simp [LocalizationStage.set_buffer, LocalizationStage.buffer_map, List.getElem?_set,
      Ne.symm hj]

lemma set_buffer_last_lane_change_location (s : LocalizationStage) (sel : Bool) (i : Nat)
    (b : Buffer) :
    (s.set_buffer sel i b).last_lane_change_location = s.last_lane_change_location := by
  cases sel <;> simp [LocalizationStage.set_buffer]

/-- C20. Step 1 on slot `i` of a stage whose two buffer lists and list of lane-change
locations have a slot `i` returns, and: if both buffers have a front and the other
buffer's front differs from the current buffer's front in lane id or section id, the
current buffer becomes equal to the other buffer and `last_lane_change_location[i]`
becomes the vehicle's location; otherwise the current buffer list and
`last_lane_change_location` are unchanged.  The other buffer list and the slots of the
other vehicles are never modified. -/
theorem C20_sync_lane_change (map : InMemoryMap) (s : LocalizationStage) (i : Nat)
    (vehicle : Actor)
    (hcur : i < (s.buffer_map s.collision_frame_selector).length)
    (hoth : i < (s.buffer_map (!s.collision_frame_selector)).length)
    (hloc : i < s.last_lane_change_location.length) :
    ∃ (s1 : LocalizationStage) (waypoint_buffer copy_waypoint_buffer : Buffer),
      SyncLaneChange map s i vehicle = .ok s1 ∧
      at_ (s.buffer_map s.collision_frame_selector) i = .ok waypoint_buffer ∧
      at_ (s.buffer_map (!s.collision_frame_selector)) i = .ok copy_waypoint_buffer ∧
      s1.collision_frame_selector = s.collision_frame_selector ∧
      s1.buffer_map (!s.collision_frame_selector) =
        s.buffer_map (!s.collision_frame_selector) ∧
      (∀ j, j ≠ i → (s1.buffer_map s.collision_frame_selector).get? j =
        (s.buffer_map s.collision_frame_selector).get? j) ∧
      (∀ j, j ≠ i → s1.last_lane_change_location.get? j =
        s.last_lane_change_location.get? j) ∧
      ((∃ w c, waypoint_buffer.head? = some w ∧ copy_waypoint_buffer.head? = some c ∧
          ((map.node c).lane_id ≠ (map.node w).lane_id ∨
            (map.node c).section_id ≠ (map.node w).section_id)) →
        at_ (s1.buffer_map s.collision_frame_selector) i = .ok copy_waypoint_buffer ∧
        at_ s1.last_lane_change_location i = .ok vehicle.location) ∧
      ((¬ ∃ w c, waypoint_buffer.head? = some w ∧ copy_waypoint_buffer.head? = some c ∧
          ((map.node c).lane_id ≠ (map.node w).lane_id ∨
            (map.node c).section_id ≠ (map.node w).section_id)) →
        s1.buffer_map s.collision_frame_selector =
          s.buffer_map s.collision_frame_selector ∧
        s1.last_lane_change_location = s.last_lane_change_location) := by
  obtain ⟨wb, hwb⟩ : ∃ wb, (s.buffer_map s.collision_frame_selector).get? i = some wb :=
    ⟨_, List.get?_eq_get hcur⟩
  obtain ⟨cb, hcb⟩ : ∃ cb, (s.buffer_map (!s.collision_frame_selector)).get? i = some cb :=
    ⟨_, List.get?_eq_get hoth⟩
  have hwb1 := (at__eq_ok _ _ _).mpr hwb
  have hcb1 := (at__eq_ok _ _ _).mpr hcb
  by_cases hc : SyncCondition map wb cb = true
  · have hrun : SyncLaneChange map s i vehicle =
        .ok { s.set_buffer s.collision_frame_selector i cb with
              last_lane_change_location := s.last_lane_change_location.set i vehicle.location } := by
      unfold SyncLaneChange
      rw [hwb1, hcb1]
      simp only [bind, Except.bind, hc, if_true, set_at,
        set_buffer_last_lane_change_location, hloc]
    refine ⟨_, wb, cb, hrun, hwb1, hcb1, ?_, ?_, ?_, ?_, ?_, ?_⟩
    · exact set_buffer_selector _ _ _ _
    · exact buffer_map_set_buffer_other s _ i cb
    · intro j hj
      exact buffer_map_set_buffer_ne s _ i j cb hj
    · intro j hj
      simp [List.getElem?_set, Ne.symm hj]
    · intro _
      refine ⟨buffer_map_set_buffer s _ i cb hcur, ?_⟩
      rw [at__eq_ok]
      simp [List.getElem?_set, hloc]
    · intro hno
      exact absurd ((SyncCondition_iff map wb cb).mp hc) hno
  · have hrun : SyncLaneChange map s i vehicle = .ok s := by
      unfold SyncLaneChange
      rw [hwb1, hcb1]
      simp only [bind, Except.bind, hc]
      rfl
    refine ⟨s, wb, cb, hrun, hwb1, hcb1, rfl, rfl, fun _ _ => rfl, fun _ _ => rfl, ?_, ?_⟩
    · intro hyes
      exact absurd ((SyncCondition_iff map wb cb).mpr hyes) hc
    · intro _
      exact ⟨rfl, rfl⟩

/-- C20 (witness): the follower at `(8, 0, 0)` with the current buffer `[3, 4, 5, 6]` on
lane 1 and the other buffer `[1004, 1005, 1006]` on lane 2: step 1 copies the other
buffer and records `(8, 0, 0)`; with the other buffer `[5, 6, 7]` on lane 1 it changes
nothing. -/
theorem C20_sync_lane_change_witness :
    (0 < (syncStage.buffer_map syncStage.collision_frame_selector).length ∧
      0 < (syncStage.buffer_map (!syncStage.collision_frame_selector)).length ∧
      0 < syncStage.last_lane_change_location.length) ∧
    (SyncLaneChange twoLaneRoad syncStage 0 follower).toOption.map
      (fun s => (s.buffer_list_a, s.buffer_list_b, s.last_lane_change_location)) =
      some ([[1004, 1005, 1006]], [[1004, 1005, 1006]], [{ x := 8, y := 0, z := 0 }]) ∧
    SyncLaneChange twoLaneRoad agreeingStage 0 follower = .ok agreeingStage ∧
    ∃ s1, SyncLaneChange twoLaneRoad syncStage 0 follower = .ok s1 ∧
      s1.buffer_map (!syncStage.collision_frame_selector) =
        syncStage.buffer_map (!syncStage.collision_frame_selector) := by
  refine ⟨by decide, by decide!, by decide!, ?_⟩
  obtain ⟨s1, -, -, h, -, -, -, hother, -⟩ :=
    C20_sync_lane_change twoLaneRoad syncStage 0 follower (by decide) (by decide) (by decide)
  exact ⟨s1, h, hother⟩


/-! ### C21: the left sibling is preferred -/

/-- With a left sibling, a scan of the co-lane vehicles that sets `need_to_change_lane`
sets the direction to left. -/
lemma ScanCoLaneVehicles_left (g : Geom) (map : InMemoryMap) (s : LocalizationStage)
    (vehicle : Actor) (ids : GeoIds) (left : WaypointPtr) (right : Option WaypointPtr)
    (co_size : Nat) :
    ∀ (l : List Nat) (need : LaneChangeNeed),
      ScanCoLaneVehicles g map s vehicle ids (some left) right co_size l = .ok need →
      need.need_to_change_lane = true → need.lane_change_direction = true := by
  intro l
  induction l with
  | nil =>
    intro need h ht
    unfold ScanCoLaneVehicles at h
    rw [← Except.ok.inj h] at ht
    exact absurd ht (by simp)
  | cons a t ih =>
    intro need h ht
    unfold ScanCoLaneVehicles at h
    simp only [bind_eq_ok] at h
    obtain ⟨index, -, buf, -, h⟩ := h
    by_cases hb : IsBlocking g map vehicle vehicle.id a buf = true
    · rw [if_pos hb] at h
      split_ifs at h with hv
      · rw [← Except.ok.inj h]
      · exact ih need h ht
    · rw [if_neg hb] at h
      exact ih need h ht

/-- The same for the whole block that computes `need_to_change_lane`. -/
lemma NeedToChangeLane_left (g : Geom) (map : InMemoryMap) (s : LocalizationStage)
    (vehicle : Actor) (ids : GeoIds) (left : WaypointPtr) (right : Option WaypointPtr)
    (co : List Nat) (need : LaneChangeNeed)
    (h : NeedToChangeLane g map s vehicle ids (some left) right co = .ok need)
    (ht : need.need_to_change_lane = true) : need.lane_change_direction = true := by
  unfold NeedToChangeLane at h
  split_ifs at h
  · exact ScanCoLaneVehicles_left g map s vehicle ids left right _ co need h ht
  · rw [← Except.ok.inj h] at ht
    exact absurd ht (by simp)

/-- C21. For every stage state and vehicle whose front waypoint has a left sibling
`left`: whenever the scan sets `need_to_change_lane` it sets the direction to left, and
a completed lane-change block either leaves the stage as it was or reseeds the buffer
with the single node reached from `left` along `successor[0]`; the right sibling is
never the change-over point, whatever it is and whoever is on the lanes. -/
theorem C21_left_preference (g : Geom) (map : InMemoryMap) (s s1 : LocalizationStage)
    (i : Nat) (vehicle : Actor) (front left : WaypointPtr) (ids : GeoIds)
    (hleft : (map.node front).left_waypoint = some left)
    (hres : LaneChangeBlock g map s i vehicle front ids = .ok s1) :
    (∃ need, NeedToChangeLane g map s vehicle ids (map.node front).left_waypoint
        (map.node front).right_waypoint (s.traffic_distribution.GetVehicleIds ids) = .ok need ∧
      (need.need_to_change_lane = true → need.lane_change_direction = true) ∧
      ∀ possible, PossibleToLaneChange g map s vehicle ids (map.node front).left_waypoint
          (map.node front).right_waypoint need
          (change_over_distance (g.Length vehicle.velocity)) = .ok possible →
        need.need_to_change_lane = true → possible.2 = some left) ∧
    (s1 = s ∨
      ∃ node, AdvanceChangeOverPoint map
          (change_over_distance (g.Length vehicle.velocity) + 1).toNat left = .ok node ∧
        s1 = s.set_buffer s.collision_frame_selector i [node]) := by
  unfold LaneChangeBlock at hres
  simp only [bind_eq_ok] at hres
  obtain ⟨need, hneed, possible, hposs, hres⟩ := hres
  have hdir : need.need_to_change_lane = true → need.lane_change_direction = true := by
    intro ht
    rw [hleft] at hneed
    exact NeedToChangeLane_left g map s vehicle ids left _ _ need hneed ht
  have hcop : ∀ possible, PossibleToLaneChange g map s vehicle ids
      (map.node front).left_waypoint (map.node front).right_waypoint need
      (change_over_distance (g.Length vehicle.velocity)) = .ok possible →
      need.need_to_change_lane = true → possible.2 = some left := by
    intro p hp ht
    unfold PossibleToLaneChange at hp
    rw [if_pos ht] at hp
    simp only [hdir ht, if_true, hleft] at hp
    split_ifs at hp
    · simp only [bind_eq_ok] at hp
      obtain ⟨fh, -, hp⟩ := hp
      rw [← Except.ok.inj hp]
    · rw [← Except.ok.inj hp]
  refine ⟨⟨need, hneed, hdir, hcop⟩, ?_⟩
  unfold ChangeLane at hres
  by_cases hn : (need.need_to_change_lane && possible.1) = true
  · rw [if_pos hn] at hres
    have ht : need.need_to_change_lane = true := by
      cases hx : need.need_to_change_lane
      · rw [hx] at hn
        simp at hn
      · rfl
    rw [hcop possible hposs ht] at hres
    simp only [bind_eq_ok] at hres
    obtain ⟨node, hnode, hres⟩ := hres
    exact Or.inr ⟨node, hnode, (Except.ok.inj hres).symm⟩
  · rw [if_neg hn] at hres
    exact Or.inl (Except.ok.inj hres).symm

/-- C21 (witness): the follower on the middle lane of the three-lane road, blocked by
the leader, with a right sibling whose lane is empty.  When the vehicle on the left lane
is a hazard the need is set towards the left and the block leaves the stage as it was;
when the left lane fails the count (`2 - 1 = 1`) the need is not set at all.  In
neither case is the buffer reseeded from the right sibling 2003. -/
theorem C21_left_preference_witness :
    (threeLaneRoad.node 3).left_waypoint = some 1003 ∧
    (threeLaneRoad.node 3).right_waypoint = some 2003 ∧
    hemmedStage.traffic_distribution.GetVehicleIds outerRightLane = [] ∧
    NeedToChangeLane planeGeom threeLaneRoad hemmedStage follower
        (current_road_ids threeLaneRoad 3)
        (threeLaneRoad.node 3).left_waypoint (threeLaneRoad.node 3).right_waypoint
        (hemmedStage.traffic_distribution.GetVehicleIds (current_road_ids threeLaneRoad 3))
      = .ok { need_to_change_lane := true, lane_change_direction := true } ∧
    LaneChangeBlock planeGeom threeLaneRoad hemmedStage 0 follower 3
      (current_road_ids threeLaneRoad 3) = .ok hemmedStage ∧
    NeedToChangeLane planeGeom threeLaneRoad outnumberedStage follower
        (current_road_ids threeLaneRoad 3)
        (threeLaneRoad.node 3).left_waypoint (threeLaneRoad.node 3).right_waypoint
        (outnumberedStage.traffic_distribution.GetVehicleIds (current_road_ids threeLaneRoad 3))
      = .ok { need_to_change_lane := false, lane_change_direction := false } ∧
    LaneChangeBlock planeGeom threeLaneRoad outnumberedStage 0 follower 3
      (current_road_ids threeLaneRoad 3) = .ok outnumberedStage ∧
    (hemmedStage = hemmedStage ∨
      ∃ node, AdvanceChangeOverPoint threeLaneRoad
          (change_over_distance (planeGeom.Length follower.velocity) + 1).toNat 1003
            = .ok node ∧
        hemmedStage = hemmedStage.set_buffer hemmedStage.collision_frame_selector 0 [node]) :=
  ⟨by decide!, by decide!, by decide!, by decide!, by decide!, by decide!, by decide!,
    (C21_left_preference planeGeom threeLaneRoad hemmedStage hemmedStage 0 follower 3 1003
      (current_road_ids threeLaneRoad 3) (by decide!) (by decide!)).2⟩


/-! ### C22: the divergence choice -/

/-- C22 (counterexample). Seed 7, back node with id `2^62 - 1` and three successors:
the product `7 * 2^62` is reduced modulo `2^64` to `3 * 2^62`, so the code picks index
`0`, whereas on mathematical integers `7 * 2^62 mod 3` is `1`.  On the fork road the
buffer `[1]` is extended through node 2, `successor[0]`, not through node 102. -/
theorem C22_product_wraps_before_mod :
    at_ (singleVehicleStage (vehicleAt 4 0) [1] []).divergence_choice 0 = .ok 7 ∧
    (forkRoad.node 1).id = 4611686018427387903 ∧
    (forkRoad.node 1).next_waypoints = [2, 102, 202] ∧
    selection_index (singleVehicleStage (vehicleAt 4 0) [1] []) 0 4611686018427387903 3
      = .ok 0 ∧
    spec_selection_index 7 4611686018427387903 3 = 1 ∧
    (ExtendBuffer axisGeom forkRoad 10 (singleVehicleStage (vehicleAt 4 0) [1] []) 0
        (vehicleAt 4 0)).toOption.map (fun s => s.buffer_map s.collision_frame_selector)
      = some [[1, 2, 3, 4, 5, 6, 7]] := by
  decide!

/-- C22 (amended). With the seed `choice` of slot `i`, a back node with id `id` and
`fanout > 1` successors, the index is `((choice * (1 + id)) mod 2^64) mod fanout`; it
is below `fanout`, so the successor lookup succeeds; and it is the spec's
`(choice * (1 + id)) mod fanout` whenever the product lies in `[0, 2^64)`.  With
`fanout = 1` the index is 0. -/
theorem C22_selection_index (s : LocalizationStage) (i : Nat) (choice : Int)
    (pre_selection_id : Nat) (next_waypoints : List WaypointPtr)
    (hchoice : at_ s.divergence_choice i = .ok choice) :
    (1 < next_waypoints.length →
      ∃ index : Nat,
        selection_index s i pre_selection_id next_waypoints.length = .ok index ∧
        index = ((choice * ((1 + pre_selection_id : Nat) : Int)) % 18446744073709551616).toNat
          % next_waypoints.length ∧
        index < next_waypoints.length ∧
        (∃ way_front, at_ next_waypoints index = .ok way_front) ∧
        (0 ≤ choice * ((1 + pre_selection_id : Nat) : Int) →
          choice * ((1 + pre_selection_id : Nat) : Int) < 18446744073709551616 →
          (index : Int) = spec_selection_index choice pre_selection_id next_waypoints.length) ∧
        (∀ (g : Geom) (map : InMemoryMap) (horizon_size : ℚ) (fuel : Nat)
            (waypoint_buffer : Buffer) (front back : WaypointPtr),
          waypoint_buffer.head? = some front → waypoint_buffer.getLast? = some back →
          g.Distance (map.node back).location (map.node front).location ≤ horizon_size →
          (map.node back).id = pre_selection_id →
          (map.node back).next_waypoints = next_waypoints →
          ∃ way_front, at_ next_waypoints index = .ok way_front ∧
            PopulateBuffer g map s i horizon_size (fuel + 1) waypoint_buffer =
              PopulateBuffer g map s i horizon_size fuel (waypoint_buffer ++ [way_front]))) ∧
    (next_waypoints.length = 1 →
      selection_index s i pre_selection_id next_waypoints.length = .ok 0) := by
  constructor
  · intro hf
    have hpos : 0 < next_waypoints.length := by omega
    have hlt : ((choice * ((1 + pre_selection_id : Nat) : Int)) % 18446744073709551616).toNat
        % next_waypoints.length < next_waypoints.length := Nat.mod_lt _ hpos
    have hsel : selection_index s i pre_selection_id next_waypoints.length = .ok
        (((choice * ((1 + pre_selection_id : Nat) : Int)) % 18446744073709551616).toNat
          % next_waypoints.length) := by
      unfold selection_index
      rw [if_pos hf, hchoice]
      rfl
    have hat : at_ next_waypoints
        (((choice * ((1 + pre_selection_id : Nat) : Int)) % 18446744073709551616).toNat
          % next_waypoints.length) = .ok (next_waypoints.get ⟨_, hlt⟩) :=
      (at__eq_ok _ _ _).mpr (List.get?_eq_get hlt)
    refine ⟨_, hsel, rfl, hlt, ⟨_, hat⟩, ?_, ?_⟩
    rotate_left
    · intro g map horizon_size fuel waypoint_buffer front back hfront hback hd hid hnext
      refine ⟨_, hat, ?_⟩
      conv_lhs => unfold PopulateBuffer
      simp only [hfront, hback, hd, if_true, hid, hnext, hsel, hat, bind, Except.bind]
    · intro h0 h1
      unfold spec_selection_index
      rw [Int.emod_eq_of_lt h0 h1]
      have hc : ((1 + pre_selection_id : Nat) : Int) = 1 + (pre_selection_id : Int) := by
        push_cast
        ring
      rw [hc] at h0 ⊢
      rw [Int.natCast_mod, Int.toNat_of_nonneg h0]
  · intro h1
    unfold selection_index
    rw [if_neg (by omega)]

/-- C22 (witness): seed 7, a back node with id 4 and three successors: the index is
`7 * 5 mod 3 = 2`, the spec's value, and the lookup returns the third successor. -/
theorem C22_selection_index_witness :
    at_ (singleVehicleStage (vehicleAt 4 0) [1] []).divergence_choice 0 = .ok 7 ∧
    selection_index (singleVehicleStage (vehicleAt 4 0) [1] []) 0 4 [5, 105, 205].length
      = .ok 2 ∧
    spec_selection_index 7 4 3 = 2 ∧
    ∃ index : Nat,
      selection_index (singleVehicleStage (vehicleAt 4 0) [1] []) 0 4 [5, 105, 205].length
        = .ok index ∧
      index < [5, 105, 205].length := by
  refine ⟨by decide!, by decide!, by decide!, ?_⟩
  obtain ⟨index, h1, -, h2, -⟩ :=
    (C22_selection_index (singleVehicleStage (vehicleAt 4 0) [1] []) 0 7 4 [5, 105, 205]
      (by decide!)).1 (by decide)
  exact ⟨index, h1, h2⟩


/-! ### C23: the buffer stays a path -/

/-- The current buffer of slot `i` after the sync step is the buffer it was or the
other buffer of the slot. -/
lemma SyncLaneChange_buffer (map : InMemoryMap) (s s1 : LocalizationStage) (i : Nat)
    (vehicle : Actor) (h : SyncLaneChange map s i vehicle = .ok s1) :
    ∃ wb cb, at_ (s.buffer_map s.collision_frame_selector) i = .ok wb ∧
      at_ (s.buffer_map (!s.collision_frame_selector)) i = .ok cb ∧
      (at_ (s1.buffer_map s1.collision_frame_selector) i = .ok wb ∨
        at_ (s1.buffer_map s1.collision_frame_selector) i = .ok cb) := by
  have hsel := SyncLaneChange_selector map s s1 i vehicle h
  unfold SyncLaneChange at h
  simp only [bind_eq_ok] at h
  obtain ⟨wb, hwb, cb, hcb, h⟩ := h
  refine ⟨wb, cb, hwb, hcb, ?_⟩
  rw [hsel]
  split_ifs at h
  · simp only [bind_eq_ok] at h
    obtain ⟨l, -, h⟩ := h
    rw [← Except.ok.inj h]
    exact Or.inr (buffer_map_set_buffer s _ i cb (at__lt _ _ _ hwb))
  · rw [← Except.ok.inj h]
    exact Or.inl hwb

/-- The current buffer of slot `i` after the purge and reseed steps. -/
lemma PurgeAndInitialize_buffer (g : Geom) (map : InMemoryMap) (s s1 : LocalizationStage)
    (i : Nat) (vehicle : Actor) (b : Buffer)
    (hb : at_ (s.buffer_map s.collision_frame_selector) i = .ok b)
    (h : PurgeAndInitialize g map s i vehicle = .ok s1) :
    at_ (s1.buffer_map s1.collision_frame_selector) i =
      .ok (InitializeIfEmpty map vehicle.location (PurgePassedWaypoints g map vehicle b)) := by
  unfold PurgeAndInitialize at h
  rw [hb] at h
  have hs : s1 = s.set_buffer s.collision_frame_selector i
      (InitializeIfEmpty map vehicle.location (PurgePassedWaypoints g map vehicle b)) :=
    (Except.ok.inj h).symm
  rw [hs, set_buffer_selector]
  exact buffer_map_set_buffer s _ i _ (at__lt _ _ _ hb)

/-- The current buffer of slot `i` after the lane-change step: the buffer it was, or a
single node. -/
lemma AssignLaneChange_buffer (g : Geom) (map : InMemoryMap) (s s1 : LocalizationStage)
    (i : Nat) (vehicle : Actor) (b : Buffer)
    (hb : at_ (s.buffer_map s.collision_frame_selector) i = .ok b)
    (h : AssignLaneChange g map s i vehicle = .ok s1) :
    at_ (s1.buffer_map s1.collision_frame_selector) i = .ok b ∨
      ∃ node, at_ (s1.buffer_map s1.collision_frame_selector) i = .ok [node] := by
  obtain ⟨td, h1 | ⟨cop, h1⟩⟩ := AssignLaneChange_ok g map s s1 i vehicle h
  · left
    rw [h1]
    exact hb
  · right
    refine ⟨cop, ?_⟩
    rw [h1, set_buffer_selector]
    exact buffer_map_set_buffer _ _ i _ (at__lt _ _ _ hb)

/-- The current buffer of slot `i` after the extension step is what the populate loop
makes of the buffer it was. -/
lemma ExtendBuffer_buffer (g : Geom) (map : InMemoryMap) (fuel : Nat)
    (s s1 : LocalizationStage) (i : Nat) (vehicle : Actor) (b : Buffer)
    (hb : at_ (s.buffer_map s.collision_frame_selector) i = .ok b)
    (h : ExtendBuffer g map fuel s i vehicle = .ok s1) :
    ∃ b1, PopulateBuffer g map s i
        (max (WAYPOINT_TIME_HORIZON * g.Length vehicle.velocity) MINIMUM_HORIZON_LENGTH)
        fuel b = .ok b1 ∧
      at_ (s1.buffer_map s1.collision_frame_selector) i = .ok b1 := by
  unfold ExtendBuffer at h
  simp only [bind_eq_ok] at h
  obtain ⟨b0, hb0, b1, hb1, h⟩ := h
  rw [hb] at hb0
  have e := Except.ok.inj hb0
  subst e
  refine ⟨b1, hb1, ?_⟩
  rw [← Except.ok.inj h, set_buffer_selector]
  exact buffer_map_set_buffer s _ i b1 (at__lt _ _ _ hb)

/-- Popping fronts keeps a successor chain. -/
lemma PurgePassedWaypoints_chain (g : Geom) (map : InMemoryMap) (vehicle : Actor)
    (b : Buffer) (hc : successor_chain map b) :
    successor_chain map (PurgePassedWaypoints g map vehicle b) := by
  obtain ⟨⟨popped, hp, -⟩, -⟩ := PurgePassedWaypoints_spec g map vehicle b
  unfold successor_chain at hc ⊢
  rw [hp] at hc
  exact hc.right_of_append

/-- Reseeding an empty buffer with one node keeps a successor chain. -/
lemma InitializeIfEmpty_chain (map : InMemoryMap) (l : Vector3D) (b : Buffer)
    (hc : successor_chain map b) : successor_chain map (InitializeIfEmpty map l b) := by
  unfold InitializeIfEmpty
  cases b with
  | nil => simp [successor_chain]
  | cons a t => simpa using hc

/-- The populate loop keeps a successor chain: every node it appends is a successor of
the back node. -/
lemma PopulateBuffer_chain (g : Geom) (map : InMemoryMap) (s : LocalizationStage) (i : Nat)
    (horizon_size : ℚ) (fuel : Nat) :
    ∀ b b1 : Buffer, PopulateBuffer g map s i horizon_size fuel b = .ok b1 →
      successor_chain map b → successor_chain map b1 := by
  induction fuel with
  | zero =>
    intro b b1 h hc
    unfold PopulateBuffer at h
    split at h
    · split_ifs at h
      rw [← Except.ok.inj h]
      exact hc
    · simp at h
  | succ n ih =>
    intro b b1 h hc
    unfold PopulateBuffer at h
    split at h
    · rename_i front back hf hb
      split_ifs at h with hd
      · simp only [bind_eq_ok] at h
        obtain ⟨index, -, way, hway, h⟩ := h
        refine ih _ _ h ?_
        unfold successor_chain at hc ⊢
        refine hc.append (List.chain'_singleton way) ?_
        intro x hx y hy
        rw [hb] at hx
        simp only [Option.mem_def, Option.some.injEq] at hx
        simp only [List.head?_cons, Option.mem_def, Option.some.injEq] at hy
        subst hx
        subst hy
        rw [at__eq_ok] at hway
        exact List.get?_mem hway
      · rw [← Except.ok.inj h]
        exact hc
    · simp at h

/-- C23. If at the start of the pass for vehicle `i` both of its buffers are successor
chains, then after a completed pass the current buffer is a successor chain; and so
it is after each of the steps: after the sync step (the buffer it was, or the other
buffer), after purge and reseed (a tail of it, or one node), after the lane-change
step (unchanged, or one node) and after the extension (successors appended); the
output step writes no buffer. -/
theorem C23_buffer_stays_path (g : Geom) (map : InMemoryMap) (fuel : Nat)
    (s s1 : LocalizationStage) (i : Nat) (waypoint_buffer copy_waypoint_buffer : Buffer)
    (hwb : at_ (s.buffer_map s.collision_frame_selector) i = .ok waypoint_buffer)
    (hcb : at_ (s.buffer_map (!s.collision_frame_selector)) i = .ok copy_waypoint_buffer)
    (hcw : successor_chain map waypoint_buffer)
    (hcc : successor_chain map copy_waypoint_buffer)
    (h : ActionPass g map fuel s i = .ok s1) :
    (∃ b, at_ (s1.buffer_map s1.collision_frame_selector) i = .ok b ∧
      successor_chain map b) ∧
    ∃ (vehicle : Actor) (s2 s3 s4 s5 : LocalizationStage) (b2 b3 b4 b5 : Buffer),
      SyncLaneChange map s i vehicle = .ok s2 ∧
      at_ (s2.buffer_map s2.collision_frame_selector) i = .ok b2 ∧ successor_chain map b2 ∧
      PurgeAndInitialize g map s2 i vehicle = .ok s3 ∧
      at_ (s3.buffer_map s3.collision_frame_selector) i = .ok b3 ∧ successor_chain map b3 ∧
      AssignLaneChange g map s3 i vehicle = .ok s4 ∧
      at_ (s4.buffer_map s4.collision_frame_selector) i = .ok b4 ∧ successor_chain map b4 ∧
      ExtendBuffer g map fuel s4 i vehicle = .ok s5 ∧
      at_ (s5.buffer_map s5.collision_frame_selector) i = .ok b5 ∧ successor_chain map b5 ∧
      GenerateOutput g map s5 i vehicle = .ok s1 ∧
      at_ (s1.buffer_map s1.collision_frame_selector) i = .ok b5 := by
  unfold ActionPass at h
  simp only [bind_eq_ok] at h
  obtain ⟨vehicle, -, s2, h2, s3, h3, s4, h4, s5, h5, h⟩ := h
  -- sync
  obtain ⟨wb, cb, hwb1, hcb1, hsync⟩ := SyncLaneChange_buffer map s s2 i vehicle h2
  rw [hwb] at hwb1
  rw [hcb] at hcb1
  have e1 := Except.ok.inj hwb1
  have e2 := Except.ok.inj hcb1
  subst e1
  subst e2
  obtain ⟨b2, hb2, hc2⟩ : ∃ b2, at_ (s2.buffer_map s2.collision_frame_selector) i = .ok b2 ∧
      successor_chain map b2 := by
    rcases hsync with hs | hs
    · exact ⟨_, hs, hcw⟩
    · exact ⟨_, hs, hcc⟩
  -- purge and reseed
  have hb3 := PurgeAndInitialize_buffer g map s2 s3 i vehicle b2 hb2 h3
  have hc3 := InitializeIfEmpty_chain map vehicle.location _
    (PurgePassedWaypoints_chain g map vehicle b2 hc2)
  -- lane change
  obtain ⟨b4, hb4, hc4⟩ : ∃ b4, at_ (s4.buffer_map s4.collision_frame_selector) i = .ok b4 ∧
      successor_chain map b4 := by
    rcases AssignLaneChange_buffer g map s3 s4 i vehicle _ hb3 h4 with hs | ⟨node, hs⟩
    · exact ⟨_, hs, hc3⟩
    · exact ⟨_, hs, by simp [successor_chain]⟩
  -- extension
  obtain ⟨b5, hpop, hb5⟩ := ExtendBuffer_buffer g map fuel s4 s5 i vehicle b4 hb4 h5
  have hc5 := PopulateBuffer_chain g map s4 i _ fuel b4 b5 hpop hc4
  -- output
  obtain ⟨ea, eb, esel, -⟩ := GenerateOutput_ok g map s5 s1 i vehicle h
  have hb1 : at_ (s1.buffer_map s1.collision_frame_selector) i = .ok b5 := by
    rw [← hb5, esel]
    unfold LocalizationStage.buffer_map
    rw [ea, eb]
  exact ⟨⟨b5, hb1, hc5⟩, vehicle, s2, s3, s4, s5, b2, _, b4, b5, h2, hb2, hc2, h3, hb3, hc3,
    h4, hb4, hc4, h5, hb5, hc5, h, hb1⟩


/-- C23 (witness): a standing vehicle at `x = 4` on the straight road with the current
buffer `[0, 1, 2]` and an empty other buffer: the pass pops node 0, extends the rest
to `[1, ..., 7]`, and that buffer is a successor chain. -/
theorem C23_buffer_stays_path_witness :
    successor_chain straightRoad [0, 1, 2] ∧ successor_chain straightRoad [] ∧
    ∃ s1 : LocalizationStage,
      ActionPass axisGeom straightRoad 10 (singleVehicleStage (vehicleAt 4 0) [0, 1, 2] []) 0
        = .ok s1 ∧
      at_ (s1.buffer_map s1.collision_frame_selector) 0 = .ok [1, 2, 3, 4, 5, 6, 7] ∧
      ∃ b, at_ (s1.buffer_map s1.collision_frame_selector) 0 = .ok b ∧
        successor_chain straightRoad b := by
  have hok : (ActionPass axisGeom straightRoad 10
      (singleVehicleStage (vehicleAt 4 0) [0, 1, 2] []) 0).toOption.map
        (fun s => s.buffer_map s.collision_frame_selector) = some [[1, 2, 3, 4, 5, 6, 7]] := by
    decide!
  have h1 : successor_chain straightRoad [0, 1, 2] := by simp [successor_chain, straightRoad]
  have h2 : successor_chain straightRoad [] := by simp [successor_chain]
  refine ⟨h1, h2, ?_⟩
  cases h : ActionPass axisGeom straightRoad 10
      (singleVehicleStage (vehicleAt 4 0) [0, 1, 2] []) 0 with
  | error e => rw [h] at hok; simp [Except.toOption] at hok
  | ok s1 =>
    rw [h] at hok
    simp only [Except.toOption, Option.map_some', Option.some.injEq] at hok
    exact ⟨s1, rfl, by rw [hok]; rfl,
      (C23_buffer_stays_path axisGeom straightRoad 10 _ s1 0 [0, 1, 2] [] (by decide!)
        (by decide!) h1 h2 h).1⟩


/-! ### C24: the downstream sends do not wait -/

/-- The collision part of `DataSender` returns, whatever the wake-up list, when the
observed state is at most the counter and the counter is not lowered before the send
takes the lock; it leaves the observed state at most the counter and does not touch the
traffic-light side. -/
lemma SendCollisionFrame_returns (env : SenderInterference) (s : LocalizationStage)
    (ms : StageMessengers)
    (hc : s.collision_messenger_state ≤ ms.collision_messenger.state_counter)
    (hcg : ms.collision_messenger.state_counter
      ≤ (env.collision_gap ms.collision_messenger).state_counter) :
    ∃ s1 ms1, SendCollisionFrame env s ms = some (s1, ms1) ∧
      s1.collision_messenger_state ≤ ms1.collision_messenger.state_counter ∧
      s1.traffic_light_messenger_state = s.traffic_light_messenger_state ∧
      s1.traffic_light_frame_selector = s.traffic_light_frame_selector ∧
      ms1.traffic_light_messenger = ms.traffic_light_messenger := by
  unfold SendCollisionFrame
  simp only
  by_cases hne : ms.collision_messenger.GetState ≠ s.collision_messenger_state
  · rw [if_pos hne]
    have hlt : s.collision_messenger_state < ms.collision_messenger.state_counter :=
      lt_of_le_of_ne hc (fun e => hne e.symm)
    have hne1 : (env.collision_gap ms.collision_messenger).state_counter
        ≠ s.collision_messenger_state := ne_of_gt (lt_of_lt_of_le hlt hcg)
    rw [Messenger.SendData_of_ne _ _ _ hne1]
    exact ⟨_, _, rfl, le_refl _, rfl, rfl, rfl⟩
  · rw [if_neg hne]
    exact ⟨s, ms, rfl, hc, rfl, rfl, rfl⟩

/-- The traffic-light part of `DataSender` returns under the same conditions. -/
lemma SendTrafficLightFrame_returns (env : SenderInterference) (s : LocalizationStage)
    (ms : StageMessengers)
    (ht : s.traffic_light_messenger_state ≤ ms.traffic_light_messenger.state_counter)
    (htg : ms.traffic_light_messenger.state_counter
      ≤ (env.traffic_light_gap ms.traffic_light_messenger).state_counter) :
    ∃ s1 ms1, SendTrafficLightFrame env s ms = some (s1, ms1) ∧
      s1.traffic_light_messenger_state ≤ ms1.traffic_light_messenger.state_counter ∧
      s1.collision_messenger_state = s.collision_messenger_state ∧
      ms1.collision_messenger = ms.collision_messenger := by
  unfold SendTrafficLightFrame
  simp only
  by_cases hne : ms.traffic_light_messenger.GetState ≠ s.traffic_light_messenger_state
  · rw [if_pos hne]
    have hlt : s.traffic_light_messenger_state < ms.traffic_light_messenger.state_counter :=
      lt_of_le_of_ne ht (fun e => hne e.symm)
    have hne1 : (env.traffic_light_gap ms.traffic_light_messenger).state_counter
        ≠ s.traffic_light_messenger_state := ne_of_gt (lt_of_lt_of_le hlt htg)
    rw [Messenger.SendData_of_ne _ _ _ hne1]
    exact ⟨_, _, rfl, le_refl _, rfl, rfl⟩
  · rw [if_neg hne]
    exact ⟨s, ms, rfl, ht, rfl, rfl⟩

/-- C24. In a `DataSender` call entered with each downstream observed state at most the
counter of its messenger (as the constructor leaves them, and as every returning call
leaves them again), during which the other threads do not lower a counter between the
sender's `GetState` and its `SendData`: whenever `SendData` is invoked on the collision
or on the traffic-light messenger, the counter it finds differs from the packet id, so
the call returns without consulting a single wake-up; and the whole of `DataSender`
returns exactly when its Planner send does. -/
theorem C24_downstream_sends_do_not_wait (env : SenderInterference) (s : LocalizationStage)
    (ms : StageMessengers)
    (hc : s.collision_messenger_state ≤ ms.collision_messenger.state_counter)
    (hcg : ms.collision_messenger.state_counter
      ≤ (env.collision_gap ms.collision_messenger).state_counter)
    (ht : s.traffic_light_messenger_state ≤ ms.traffic_light_messenger.state_counter)
    (htg : ms.traffic_light_messenger.state_counter
      ≤ (env.traffic_light_gap ms.traffic_light_messenger).state_counter) :
    (ms.collision_messenger.GetState ≠ s.collision_messenger_state →
      (env.collision_gap ms.collision_messenger).state_counter
        ≠ (collision_data_packet s).id ∧
      ∀ waits, Messenger.SendData waits (env.collision_gap ms.collision_messenger)
          (collision_data_packet s) =
        ((Messenger.SendData_tail (env.collision_gap ms.collision_messenger)
            (collision_data_packet s)).1,
          some (Messenger.SendData_tail (env.collision_gap ms.collision_messenger)
            (collision_data_packet s)).2)) ∧
    (ms.traffic_light_messenger.GetState ≠ s.traffic_light_messenger_state →
      (env.traffic_light_gap ms.traffic_light_messenger).state_counter
        ≠ (traffic_light_data_packet s).id ∧
      ∀ waits, Messenger.SendData waits (env.traffic_light_gap ms.traffic_light_messenger)
          (traffic_light_data_packet s) =
        ((Messenger.SendData_tail (env.traffic_light_gap ms.traffic_light_messenger)
            (traffic_light_data_packet s)).1,
          some (Messenger.SendData_tail (env.traffic_light_gap ms.traffic_light_messenger)
            (traffic_light_data_packet s)).2)) ∧
    ((DataSender env s ms).isSome =
      (Messenger.SendData env.planner_waits ms.planner_messenger
        (planner_data_packet s)).2.isSome) ∧
    (∀ s1 ms1, DataSender env s ms = some (s1, ms1) →
      s1.collision_messenger_state ≤ ms1.collision_messenger.state_counter ∧
      s1.traffic_light_messenger_state ≤ ms1.traffic_light_messenger.state_counter) := by
  refine ⟨?_, ?_, ?_, ?_⟩
  · intro hne
    have hlt : s.collision_messenger_state < ms.collision_messenger.state_counter :=
      lt_of_le_of_ne hc (fun e => hne e.symm)
    have hne1 : (env.collision_gap ms.collision_messenger).state_counter
        ≠ (collision_data_packet s).id := ne_of_gt (lt_of_lt_of_le hlt hcg)
    refine ⟨hne1, fun waits => ?_⟩
    rw [Messenger.SendData_of_ne _ _ _ hne1]
    rfl
  · intro hne
    have hlt : s.traffic_light_messenger_state < ms.traffic_light_messenger.state_counter :=
      lt_of_le_of_ne ht (fun e => hne e.symm)
    have hne1 : (env.traffic_light_gap ms.traffic_light_messenger).state_counter
        ≠ (traffic_light_data_packet s).id := ne_of_gt (lt_of_lt_of_le hlt htg)
    refine ⟨hne1, fun waits => ?_⟩
    rw [Messenger.SendData_of_ne _ _ _ hne1]
    rfl
  · unfold DataSender SendPlannerFrame planner_data_packet
    simp only
    rcases hsend : Messenger.SendData env.planner_waits ms.planner_messenger
        { id := s.planner_messenger_state, data := s.planner_frame_selector } with ⟨pm, r⟩
    cases r with
    | none => rfl
    | some r =>
      simp only
      obtain ⟨sb, msb, hb, -, hb1, -, hb2⟩ := SendCollisionFrame_returns env
        { s with planner_frame_selector := !s.planner_frame_selector,
                 planner_messenger_state := r }
        { ms with planner_messenger := pm } hc hcg
      rw [hb]
      simp only
      obtain ⟨sc, msc, hcc, -⟩ := SendTrafficLightFrame_returns env sb msb
        (by rw [hb1, hb2]; exact ht) (by rw [hb2]; exact htg)
      rw [hcc]
      rfl
  · intro s1 ms1 h
    obtain ⟨sa, msa, sb, msb, hp, hcf, htf⟩ := DataSender_some env s s1 ms ms1 h
    obtain ⟨ea, ema, -⟩ := SendPlannerFrame_some env s sa ms msa hp
    have hca : sa.collision_messenger_state ≤ msa.collision_messenger.state_counter := by
      rw [ea, ema]
      exact hc
    have hcga : msa.collision_messenger.state_counter
        ≤ (env.collision_gap msa.collision_messenger).state_counter := by
      rw [ema]
      exact hcg
    obtain ⟨sb1, msb1, hb, hinv, hb1, -, hb2⟩ := SendCollisionFrame_returns env sa msa hca hcga
    rw [hcf] at hb
    simp only [Option.some.injEq, Prod.mk.injEq] at hb
    obtain ⟨e1, e2⟩ := hb
    subst e1
    subst e2
    have htb : sb.traffic_light_messenger_state ≤ msb.traffic_light_messenger.state_counter := by
      rw [hb1, hb2, ea, ema]
      exact ht
    have htgb : msb.traffic_light_messenger.state_counter
        ≤ (env.traffic_light_gap msb.traffic_light_messenger).state_counter := by
      rw [hb2, ema]
      exact htg
    obtain ⟨sc, msc, hcc, hinvt, hc1, hc2⟩ := SendTrafficLightFrame_returns env sb msb htb htgb
    rw [htf] at hcc
    simp only [Option.some.injEq, Prod.mk.injEq] at hcc
    obtain ⟨e1, e2⟩ := hcc
    subst e1
    subst e2
    exact ⟨by rw [hc1, hc2]; exact hinv, hinvt⟩


/-- C24 (witness): fresh messengers (counter 0) and the observed states `-1` the
constructor computes, the receivers completing one receive on each downstream messenger
before the sender takes the lock: both downstream sends find the counter 1 against the
id `-1` and the call returns, leaving the downstream counters at 2.  With the observed
planner state equal to the planner counter and nobody receiving, the call does not
return: the Planner send waits. -/
theorem C24_downstream_sends_do_not_wait_witness :
    ((singleVehicleStage (vehicleAt 4 0) [] []).observe_messengers
        freshMessengers).collision_messenger_state = -1 ∧
    (busySender.collision_gap freshMessengers.collision_messenger).state_counter = 1 ∧
    (DataSender busySender
        ((singleVehicleStage (vehicleAt 4 0) [] []).observe_messengers freshMessengers)
        freshMessengers).map
      (fun r => (r.2.planner_messenger.state_counter, r.2.collision_messenger.state_counter,
        r.2.traffic_light_messenger.state_counter)) = some (1, 2, 2) ∧
    (DataSender quietSender waitingStage freshMessengers).isSome = false ∧
    (DataSender busySender
        ((singleVehicleStage (vehicleAt 4 0) [] []).observe_messengers freshMessengers)
        freshMessengers).isSome =
      (Messenger.SendData busySender.planner_waits freshMessengers.planner_messenger
        (planner_data_packet ((singleVehicleStage (vehicleAt 4 0) [] []).observe_messengers
          freshMessengers))).2.isSome :=
  ⟨by decide, by decide, by decide, by decide,
    (C24_downstream_sends_do_not_wait busySender
      ((singleVehicleStage (vehicleAt 4 0) [] []).observe_messengers freshMessengers)
      freshMessengers (by decide) (by decide) (by decide) (by decide)).2.2.1⟩


/-! ### C25: index safety of the output step -/

lemma static_cast_int_intCast (n : Int) : static_cast_int (n : ℚ) = n := by
  unfold static_cast_int
  split_ifs <;> simp

lemma horizon_index_eq (v : ℚ) : horizon_index v = max ⌈(1 / 2 : ℚ) * v⌉ 2 := by
  unfold horizon_index TARGET_WAYPOINT_TIME_HORIZON TARGET_WAYPOINT_HORIZON_LENGTH
  have hm : max ((⌈v * (1 / 2 : ℚ)⌉ : Int) : ℚ) 2 = ((max ⌈v * (1 / 2 : ℚ)⌉ 2 : Int) : ℚ) := by
    push_cast
    rfl
  rw [hm, static_cast_int_intCast, mul_comm]

lemma horizon_index_pos (v : ℚ) : 2 ≤ horizon_index v := by
  rw [horizon_index_eq]
  exact le_max_right _ _

/-- A completed output step has read `waypoint_buffer[look_ahead_index]` for the
junction test, not `waypoint_buffer.back()`. -/
lemma GenerateOutput_no_fallback (g : Geom) (map : InMemoryMap) (s s1 : LocalizationStage)
    (i : Nat) (vehicle : Actor) (h : GenerateOutput g map s i vehicle = .ok s1) :
    ∃ wb, at_ (s.buffer_map s.collision_frame_selector) i = .ok wb ∧
      (wb.length : Int) > horizon_index (g.Length vehicle.velocity) ∧
      (wb.length : Int) > look_ahead_index (g.Length vehicle.velocity) ∧
      look_ahead_point wb (look_ahead_index (g.Length vehicle.velocity)) =
        at_ wb (look_ahead_index (g.Length vehicle.velocity)).toNat := by
  have hh := horizon_index_pos (g.Length vehicle.velocity)
  have hk := look_ahead_index_pos (g.Length vehicle.velocity)
  rw [GenerateOutput_eq] at h
  simp only [bind_eq_ok] at h
  obtain ⟨wb, hwb, tw, htw, aj, -, jl, hjl, -⟩ := h
  have l1 := at__lt _ _ _ htw
  have l2 := at__lt _ _ _ hjl
  have hlen : (wb.length : Int) > look_ahead_index (g.Length vehicle.velocity) := by omega
  refine ⟨wb, hwb, by omega, hlen, ?_⟩
  unfold look_ahead_point
  rw [if_pos hlen]

lemma set_buffer_planner (s : LocalizationStage) (sel : Bool) (i : Nat) (b : Buffer) :
    (s.set_buffer sel i b).planner_frame_a = s.planner_frame_a ∧
    (s.set_buffer sel i b).planner_frame_b = s.planner_frame_b ∧
    (s.set_buffer sel i b).planner_frame_selector = s.planner_frame_selector := by
  cases sel <;> simp [LocalizationStage.set_buffer]

/-- The steps before the output step do not touch the planner frames. -/
lemma ActionPass_output (g : Geom) (map : InMemoryMap) (fuel : Nat)
    (s s1 : LocalizationStage) (i : Nat) (h : ActionPass g map fuel s i = .ok s1) :
    ∃ (vehicle : Actor) (s5 : LocalizationStage),
      GenerateOutput g map s5 i vehicle = .ok s1 ∧
      s5.planner_frame_a = s.planner_frame_a ∧ s5.planner_frame_b = s.planner_frame_b ∧
      s5.planner_frame_selector = s.planner_frame_selector := by
  unfold ActionPass at h
  simp only [bind_eq_ok] at h
  obtain ⟨vehicle, -, s2, h2, s3, h3, s4, h4, s5, h5, h⟩ := h
  refine ⟨vehicle, s5, h, ?_⟩
  have e2 : s2.planner_frame_a = s.planner_frame_a ∧ s2.planner_frame_b = s.planner_frame_b ∧
      s2.planner_frame_selector = s.planner_frame_selector := by
    unfold SyncLaneChange at h2
    simp only [bind_eq_ok] at h2
    obtain ⟨wb, -, cb, -, h2⟩ := h2
    split_ifs at h2
    · simp only [bind_eq_ok] at h2
      obtain ⟨l, -, h2⟩ := h2
      rw [← Except.ok.inj h2]
      exact set_buffer_planner _ _ _ _
    · rw [← Except.ok.inj h2]
      exact ⟨rfl, rfl, rfl⟩
  have e3 : s3.planner_frame_a = s2.planner_frame_a ∧ s3.planner_frame_b = s2.planner_frame_b ∧
      s3.planner_frame_selector = s2.planner_frame_selector := by
    unfold PurgeAndInitialize at h3
    simp only [bind_eq_ok] at h3
    obtain ⟨wb, -, h3⟩ := h3
    rw [← Except.ok.inj h3]
    exact set_buffer_planner _ _ _ _
  have e4 : s4.planner_frame_a = s3.planner_frame_a ∧ s4.planner_frame_b = s3.planner_frame_b ∧
      s4.planner_frame_selector = s3.planner_frame_selector := by
    obtain ⟨td, h1 | ⟨cop, h1⟩⟩ := AssignLaneChange_ok g map s3 s4 i vehicle h4
    · rw [h1]
      exact ⟨rfl, rfl, rfl⟩
    · rw [h1]
      exact set_buffer_planner _ _ _ _
  have e5 : s5.planner_frame_a = s4.planner_frame_a ∧ s5.planner_frame_b = s4.planner_frame_b ∧
      s5.planner_frame_selector = s4.planner_frame_selector := by
    unfold ExtendBuffer at h5
    simp only [bind_eq_ok] at h5
    obtain ⟨wb, -, b, -, h5⟩ := h5
    rw [← Except.ok.inj h5]
    exact set_buffer_planner _ _ _ _
  exact ⟨by rw [e5.1, e4.1, e3.1, e2.1], by rw [e5.2.1, e4.2.1, e3.2.1, e2.2.1],
    by rw [e5.2.2, e4.2.2, e3.2.2, e2.2.2]⟩

/-- The output step for slot `i` leaves the planner messages of the other slots alone. -/
lemma GenerateOutput_planner_other (g : Geom) (map : InMemoryMap) (s s1 : LocalizationStage)
    (i : Nat) (vehicle : Actor) (h : GenerateOutput g map s i vehicle = .ok s1) :
    ∀ (sel : Bool) (k : Nat), k ≠ i →
      at_ (s1.planner_frame_map sel) k = at_ (s.planner_frame_map sel) k := by
  rw [GenerateOutput_eq] at h
  simp only [bind_eq_ok] at h
  obtain ⟨wb, -, tw, -, aj, -, jl, -, s2, hs2, s3, hs3, h⟩ := h
  have e3 := (write_other_frames_planner s2 s3 i).1 _ hs3
  have e4 := (write_other_frames_planner s3 s1 i).2 _ h
  intro sel k hk
  unfold LocalizationStage.planner_frame_map
  rw [e4.1, e4.2.1, e3.1, e3.2.1]
  unfold LocalizationStage.write_planner_frame at hs2
  split_ifs at hs2 <;> obtain ⟨f, hf, hs⟩ := map_eq_ok _ _ _ hs2 <;> subst hs <;>
    rw [set_at_eq_ok _ _ _ _ hf] <;> cases sel <;>
    simp [at_, List.getElem?_set, Ne.symm hk]

/-- The planner frame a range of passes leaves: the selector and the slots below the
range are untouched, and each slot of the range holds the message written by its pass,
whose output step read `waypoint_buffer[look_ahead_index]` for the junction test. -/
lemma Action_published (g : Geom) (map : InMemoryMap) (fuel : Nat) :
    ∀ (count : Nat) (s0 s1 : LocalizationStage) (start : Nat),
      Action g map fuel s0 start count = .ok s1 →
      s1.planner_frame_selector = s0.planner_frame_selector ∧
      (∀ (sel : Bool) (k : Nat), k < start →
        at_ (s1.planner_frame_map sel) k = at_ (s0.planner_frame_map sel) k) ∧
      ∀ j, j < count →
        ∃ (sj sj1 : LocalizationStage) (vehicle : Actor) (wb : Buffer)
            (message : LocalizationToPlannerData),
          GenerateOutput g map sj (start + j) vehicle = .ok sj1 ∧
          at_ (sj.buffer_map sj.collision_frame_selector) (start + j) = .ok wb ∧
          (wb.length : Int) > look_ahead_index (g.Length vehicle.velocity) ∧
          look_ahead_point wb (look_ahead_index (g.Length vehicle.velocity)) =
            at_ wb (look_ahead_index (g.Length vehicle.velocity)).toNat ∧
          ApproachingJunction map vehicle (g.Length vehicle.velocity) wb
            = .ok message.approaching_true_junction ∧
          at_ (s1.planner_frame_map s1.planner_frame_selector) (start + j) = .ok message := by
  intro count
  induction count with
  | zero =>
    intro s0 s1 start h
    unfold Action at h
    rw [← Except.ok.inj h]
    exact ⟨rfl, fun _ _ _ => rfl, fun j hj => absurd hj (Nat.not_lt_zero j)⟩
  | succ n ih =>
    intro s0 s1 start h
    unfold Action at h
    simp only [bind_eq_ok] at h
    obtain ⟨sa, hpass, hrest⟩ := h
    obtain ⟨hsel, hlow, hslots⟩ := ih sa s1 (start + 1) hrest
    obtain ⟨vehicle, s5, hout, ea, eb, esel⟩ := ActionPass_output g map fuel s0 sa start hpass
    obtain ⟨wb0, tw, aj, hwb0, -, haj, hsel5, hm⟩ :=
      GenerateOutput_planner g map s5 sa start vehicle hout
    obtain ⟨wb, hwb, -, hlen, hla⟩ := GenerateOutput_no_fallback g map s5 sa start vehicle hout
    rw [hwb] at hwb0
    have e := Except.ok.inj hwb0
    subst e
    have hother := GenerateOutput_planner_other g map s5 sa start vehicle hout
    have hsela : sa.planner_frame_selector = s0.planner_frame_selector := by
      rw [hsel5, esel]
    refine ⟨by rw [hsel, hsela], ?_, ?_⟩
    · intro sel k hk
      rw [hlow sel k (by omega), hother sel k (by omega)]
      unfold LocalizationStage.planner_frame_map
      rw [ea, eb]
    · intro j hj
      cases j with
      | zero =>
        refine ⟨s5, sa, vehicle, wb,
          { actor := some start, deviation := deviation g vehicle (map.node tw).location,
            approaching_true_junction := aj }, hout, hwb, hlen, hla, haj, ?_⟩
        rw [Nat.add_zero, hlow _ start (by omega), hsel]
        exact hm
      | succ j =>
        obtain ⟨sj, sj1, v, b, m, h1, h2, h3, h4, h5, h6⟩ := hslots j (by omega)
        have e : start + 1 + j = start + (j + 1) := by omega
        rw [e] at h1 h2 h6
        exact ⟨sj, sj1, v, b, m, h1, h2, h3, h4, h5, h6⟩

/-- On frames that have the slot, each write to it and the read of the traffic-light
message succeed, and the frames still have the slot afterwards. -/
lemma write_frames_some (s : LocalizationStage) (i : Nat) (hs : s.frames_have_slot i) :
    (∀ m, ∃ s1, s.write_planner_frame i m = .ok s1 ∧ s1.frames_have_slot i) ∧
    (∀ m, ∃ s1, s.write_collision_frame i m = .ok s1 ∧ s1.frames_have_slot i) ∧
    (∀ m, ∃ s1, s.write_traffic_light_frame i m = .ok s1 ∧ s1.frames_have_slot i) ∧
    ∃ m0, s.read_traffic_light_frame i = .ok m0 := by
  obtain ⟨h1, h2, h3, h4, h5, h6⟩ := hs
  refine ⟨?_, ?_, ?_, ?_⟩
  · intro m
    unfold LocalizationStage.write_planner_frame set_at LocalizationStage.frames_have_slot
    cases s.planner_frame_selector <;> simp [h1, h2, h3, h4, h5, h6, Except.map]
  · intro m
    unfold LocalizationStage.write_collision_frame set_at LocalizationStage.frames_have_slot
    cases s.collision_frame_selector <;> simp [h1, h2, h3, h4, h5, h6, Except.map]
  · intro m
    unfold LocalizationStage.write_traffic_light_frame set_at LocalizationStage.frames_have_slot
    cases s.traffic_light_frame_selector <;> simp [h1, h2, h3, h4, h5, h6, Except.map]
  · unfold LocalizationStage.read_traffic_light_frame
    cases s.traffic_light_frame_selector
    · exact ⟨_, (at__eq_ok _ _ _).mpr (List.get?_eq_get h6)⟩
    · exact ⟨_, (at__eq_ok _ _ _).mpr (List.get?_eq_get h5)⟩

/-- A pass whose buffer reaches `horizon_index` but not `look_ahead_index` throws at the
last statement of the output step, after it has written the planner message with the
verdict of the junction test on `waypoint_buffer.back()`. -/
lemma GenerateOutputSteps_short (g : Geom) (map : InMemoryMap) (s : LocalizationStage)
    (i : Nat) (vehicle : Actor) (wb : Buffer) (b : Bool)
    (hwb : at_ (s.buffer_map s.collision_frame_selector) i = .ok wb)
    (hframes : s.frames_have_slot i)
    (hh : horizon_index (g.Length vehicle.velocity) < (wb.length : Int))
    (hk : ¬ look_ahead_index (g.Length vehicle.velocity) < (wb.length : Int))
    (hb : ApproachingJunction map vehicle (g.Length vehicle.velocity) wb = .ok b) :
    ∃ (s3 : LocalizationStage) (target_waypoint back : WaypointPtr),
      wb.getLast? = some back ∧
      look_ahead_point wb (look_ahead_index (g.Length vehicle.velocity)) = .ok back ∧
      at_ wb (horizon_index (g.Length vehicle.velocity)).toNat = .ok target_waypoint ∧
      GenerateOutputSteps g map s i vehicle = .error (s3, Fault.out_of_range) ∧
      s3.planner_frame_selector = s.planner_frame_selector ∧
      at_ (s3.planner_frame_map s3.planner_frame_selector) i =
        .ok { actor := some i,
              deviation := deviation g vehicle (map.node target_waypoint).location,
              approaching_true_junction := b } := by
  have hh2 := horizon_index_pos (g.Length vehicle.velocity)
  have hk5 := look_ahead_index_pos (g.Length vehicle.velocity)
  have n1 : (horizon_index (g.Length vehicle.velocity)).toNat < wb.length := by omega
  have n2 : ¬ (look_ahead_index (g.Length vehicle.velocity)).toNat < wb.length := by omega
  have htw : at_ wb (horizon_index (g.Length vehicle.velocity)).toNat
      = .ok (wb.get ⟨_, n1⟩) := (at__eq_ok _ _ _).mpr (List.get?_eq_get n1)
  have hjl : at_ wb (look_ahead_index (g.Length vehicle.velocity)).toNat
      = .error Fault.out_of_range := by
    unfold at_
    rw [List.get?_eq_none.mpr (by omega)]
  have hne : wb ≠ [] := at__ne_nil _ _ _ htw
  have hlast : wb.getLast? = some (wb.getLast hne) := List.getLast?_eq_getLast _ _
  have hlook : look_ahead_point wb (look_ahead_index (g.Length vehicle.velocity))
      = .ok (wb.getLast hne) := by
    unfold look_ahead_point
    rw [if_neg (by omega), hlast]
  obtain ⟨s1, hw1, hf1⟩ := (write_frames_some s i hframes).1
    { actor := some i, deviation := deviation g vehicle (map.node (wb.get ⟨_, n1⟩)).location,
      approaching_true_junction := b }
  obtain ⟨s2, hw2, hf2⟩ := (write_frames_some s1 i hf1).2.1
    { actor := some i, buffer := some (s.collision_frame_selector, i) }
  obtain ⟨m0, hr⟩ := (write_frames_some s2 i hf2).2.2.2
  obtain ⟨s3, hw3, -⟩ := (write_frames_some s2 i hf2).2.2.1
    { m0 with actor := some i, closest_waypoint := wb.head? }
  obtain ⟨e1, hm⟩ := write_planner_frame_ok s s1 i _ hw1
  have e2 := (write_other_frames_planner s1 s2 i).1 _ hw2
  have e3 := (write_other_frames_planner s2 s3 i).2 _ hw3
  refine ⟨s3, wb.get ⟨_, n1⟩, wb.getLast hne, hlast, hlook, htw, ?_,
    by rw [e3.2.2, e2.2.2, e1], ?_⟩
  · unfold GenerateOutputSteps
    simp only [hwb, htw, hb, hw1, hw2, hr, hw3, hjl, thrown_at, bind, Except.bind]
  · rw [← hm]
    unfold LocalizationStage.planner_frame_map
    rw [e3.1, e3.2.1, e3.2.2, e2.1, e2.2.1, e2.2.2]
/-- The fan-out scan can only fail with `std::out_of_range`. -/
lemma ScanFanOut_error (map : InMemoryMap) (wb : Buffer) :
    ∀ (n i : Nat) (e : Fault), ScanFanOut map wb n i = .error e → e = Fault.out_of_range := by
  intro n
  induction n with
  | zero =>
    intro i e h
    simp [ScanFanOut] at h
  | succ n ih =>
    intro i e h
    unfold ScanFanOut at h
    cases hat : at_ wb i with
    | error e1 =>
      rw [hat] at h
      simp only [bind, Except.bind, Except.error.injEq] at h
      subst h
      unfold at_ at hat
      split at hat
      · simp at hat
      · exact (Except.error.inj hat).symm
    | ok w =>
      rw [hat] at h
      simp only [bind, Except.bind] at h
      split_ifs at h
      exact ih _ e h

/-- On a non-empty buffer the junction test can only fail with `std::out_of_range`. -/
lemma ApproachingJunction_error (map : InMemoryMap) (vehicle : Actor) (v : ℚ) (wb : Buffer)
    (hne : wb ≠ []) (e : Fault) (h : ApproachingJunction map vehicle v wb = .error e) :
    e = Fault.out_of_range := by
  cases wb with
  | nil => exact absurd rfl hne
  | cons a t =>
    unfold ApproachingJunction look_ahead_point at h
    dsimp only at h
    by_cases hlen : (((a :: t).length : Nat) : Int) > look_ahead_index v
    · rw [if_pos hlen] at h
      cases hat : at_ (a :: t) (look_ahead_index v).toNat with
      | error e1 =>
        rw [hat] at h
        simp only [bind, Except.bind, Except.error.injEq] at h
        subst h
        unfold at_ at hat
        split at hat
        · simp at hat
        · exact (Except.error.inj hat).symm
      | ok w =>
        rw [hat] at h
        simp only [bind, Except.bind, List.head?_cons] at h
        split_ifs at h
        exact ScanFanOut_error map _ _ _ e h
    · rw [if_neg hlen] at h
      have hl : (a :: t).getLast? = some ((a :: t).getLast (by simp)) :=
        List.getLast?_eq_getLast _ _
      rw [hl] at h
      simp only [bind, Except.bind, List.head?_cons] at h
      split_ifs at h
      exact ScanFanOut_error map _ _ _ e h

/-- The three frame writes of the output step succeed on frames that have the slot. -/
lemma write_frames_ok (s : LocalizationStage) (i : Nat) (hs : s.frames_have_slot i)
    (pm : LocalizationToPlannerData) (cm : LocalizationToCollisionData)
    (tm : LocalizationToTrafficLightData) :
    ∃ s1, (do
      let s ← s.write_planner_frame i pm
      let s ← s.write_collision_frame i cm
      s.write_traffic_light_frame i tm) = .ok s1 := by
  obtain ⟨h1, h2, h3, h4, h5, h6⟩ := hs
  unfold LocalizationStage.write_planner_frame LocalizationStage.write_collision_frame
    LocalizationStage.write_traffic_light_frame set_at
  cases hp : s.planner_frame_selector <;> cases hc : s.collision_frame_selector <;>
    cases ht : s.traffic_light_frame_selector <;>
    simp [h1, h2, h3, h4, h5, h6, hp, hc, ht, Except.map, bind, Except.bind]

/-- The output step completes exactly on a buffer with more than
`max(horizon_index, look_ahead_index)` nodes, and otherwise throws `std::out_of_range`. -/
lemma GenerateOutput_index_safety (g : Geom) (map : InMemoryMap) (s : LocalizationStage)
    (i : Nat) (vehicle : Actor) (waypoint_buffer : Buffer)
    (hwb : at_ (s.buffer_map s.collision_frame_selector) i = .ok waypoint_buffer)
    (hframes : s.frames_have_slot i) :
    horizon_index (g.Length vehicle.velocity) = max ⌈(1 / 2 : ℚ) * g.Length vehicle.velocity⌉ 2 ∧
    look_ahead_index (g.Length vehicle.velocity) = max ⌊2 * g.Length vehicle.velocity⌋ 5 ∧
    ((∃ s1, GenerateOutput g map s i vehicle = .ok s1) ↔
      max (horizon_index (g.Length vehicle.velocity)) (look_ahead_index (g.Length vehicle.velocity))
        < (waypoint_buffer.length : Int)) ∧
    (¬ max (horizon_index (g.Length vehicle.velocity))
          (look_ahead_index (g.Length vehicle.velocity)) < (waypoint_buffer.length : Int) →
      GenerateOutput g map s i vehicle = .error Fault.out_of_range) ∧
    (∀ s1, GenerateOutput g map s i vehicle = .ok s1 →
      (waypoint_buffer.length : Int) > look_ahead_index (g.Length vehicle.velocity) ∧
      look_ahead_point waypoint_buffer (look_ahead_index (g.Length vehicle.velocity)) =
        at_ waypoint_buffer (look_ahead_index (g.Length vehicle.velocity)).toNat) := by
  have hh := horizon_index_pos (g.Length vehicle.velocity)
  have hk := look_ahead_index_pos (g.Length vehicle.velocity)
  -- a completed step has made both reads
  have hfwd : ∀ s1, GenerateOutput g map s i vehicle = .ok s1 →
      max (horizon_index (g.Length vehicle.velocity))
        (look_ahead_index (g.Length vehicle.velocity)) < (waypoint_buffer.length : Int) := by
    intro s1 h
    rw [GenerateOutput_eq] at h
    simp only [bind_eq_ok] at h
    obtain ⟨wb, hwb1, tw, htw, aj, -, jl, hjl, -⟩ := h
    rw [hwb] at hwb1
    have e := Except.ok.inj hwb1
    subst e
    have l1 := at__lt _ _ _ htw
    have l2 := at__lt _ _ _ hjl
    rw [max_lt_iff]
    omega
  -- a buffer too short for one of the reads makes the step throw
  have hshort : ¬ max (horizon_index (g.Length vehicle.velocity))
        (look_ahead_index (g.Length vehicle.velocity)) < (waypoint_buffer.length : Int) →
      GenerateOutput g map s i vehicle = .error Fault.out_of_range := by
    intro hn
    cases hres : GenerateOutput g map s i vehicle with
    | ok s1 => exact absurd (hfwd s1 hres) hn
    | error e =>
      congr 1
      rw [GenerateOutput_eq] at hres
      rw [hwb] at hres
      simp only [bind, Except.bind] at hres
      cases htw : at_ waypoint_buffer (horizon_index (g.Length vehicle.velocity)).toNat with
      | error e1 =>
        rw [htw] at hres
        simp only [Except.error.injEq] at hres
        subst hres
        unfold at_ at htw
        split at htw
        · simp at htw
        · exact (Except.error.inj htw).symm
      | ok tw =>
        rw [htw] at hres
        simp only at hres
        have hne : waypoint_buffer ≠ [] := at__ne_nil _ _ _ htw
        cases haj : ApproachingJunction map vehicle (g.Length vehicle.velocity)
            waypoint_buffer with
        | error e1 =>
          rw [haj] at hres
          simp only [Except.error.injEq] at hres
          subst hres
          exact ApproachingJunction_error map vehicle _ _ hne _ haj
        | ok aj =>
          rw [haj] at hres
          simp only at hres
          cases hjl : at_ waypoint_buffer
              (look_ahead_index (g.Length vehicle.velocity)).toNat with
          | error e1 =>
            rw [hjl] at hres
            simp only [Except.error.injEq] at hres
            subst hres
            unfold at_ at hjl
            split at hjl
            · simp at hjl
            · exact (Except.error.inj hjl).symm
          | ok jl =>
            exfalso
            apply hn
            have l1 := at__lt _ _ _ htw
            have l2 := at__lt _ _ _ hjl
            rw [max_lt_iff]
            omega
  refine ⟨horizon_index_eq _, look_ahead_index_eq _, ⟨fun ⟨s1, h⟩ => hfwd s1 h, ?_⟩, hshort, ?_⟩
  · intro hlen
    rw [max_lt_iff] at hlen
    obtain ⟨hl1, hl2⟩ := hlen
    have n1 : (horizon_index (g.Length vehicle.velocity)).toNat < waypoint_buffer.length := by
      omega
    have n2 : (look_ahead_index (g.Length vehicle.velocity)).toNat < waypoint_buffer.length := by
      omega
    have htw : at_ waypoint_buffer (horizon_index (g.Length vehicle.velocity)).toNat
        = .ok (waypoint_buffer.get ⟨_, n1⟩) := (at__eq_ok _ _ _).mpr (List.get?_eq_get n1)
    have hjl : at_ waypoint_buffer (look_ahead_index (g.Length vehicle.velocity)).toNat
        = .ok (waypoint_buffer.get ⟨_, n2⟩) := (at__eq_ok _ _ _).mpr (List.get?_eq_get n2)
    obtain ⟨front, ahead, b, -, -, haj, -⟩ :=
      ApproachingJunction_spec map vehicle (g.Length vehicle.velocity) waypoint_buffer hl2
    rw [GenerateOutput_eq, hwb]
    simp only [bind, Except.bind, htw, haj, hjl]
    exact write_frames_ok s i hframes _ _ _
  · intro s1 h
    have hlen := hfwd s1 h
    rw [max_lt_iff] at hlen
    refine ⟨hlen.2, ?_⟩
    unfold look_ahead_point
    rw [if_pos hlen.2]


/-- What `DataSender` hands to the planner messenger: the selector of the planner frame
as `Action` left it; the frames themselves are not written by `DataSender`. -/
lemma DataSender_payload (env : SenderInterference) (s s1 : LocalizationStage)
    (ms ms1 : StageMessengers) (h : DataSender env s ms = some (s1, ms1)) :
    ms1.planner_messenger.data = s.planner_frame_selector ∧
    s1.planner_frame_map ms1.planner_messenger.data =
      s.planner_frame_map s.planner_frame_selector := by
  obtain ⟨sa, msa, sb, msb, hp, hc, ht⟩ := DataSender_some env s s1 ms ms1 h
  obtain ⟨ea, ema, hda⟩ := SendPlannerFrame_some env s sa ms msa hp
  obtain ⟨hc1, hc2⟩ := SendCollisionFrame_some env sa sb msa msb hc
  obtain ⟨ht1, ht2⟩ := SendTrafficLightFrame_some env sb s1 msb ms1 ht
  have b : sb.planner_frame_a = sa.planner_frame_a ∧ sb.planner_frame_b = sa.planner_frame_b ∧
      msb.planner_messenger = msa.planner_messenger := by
    by_cases hcc : msa.collision_messenger.GetState = sa.collision_messenger_state
    · obtain ⟨e1, e2⟩ := hc2 hcc
      rw [e1, e2]
      exact ⟨rfl, rfl, rfl⟩
    · obtain ⟨e1, e2, -⟩ := hc1 hcc
      exact ⟨by rw [e1], by rw [e1], by rw [e2]⟩
  have c : s1.planner_frame_a = sb.planner_frame_a ∧ s1.planner_frame_b = sb.planner_frame_b ∧
      ms1.planner_messenger = msb.planner_messenger := by
    by_cases hcc : msb.traffic_light_messenger.GetState = sb.traffic_light_messenger_state
    · obtain ⟨e1, e2⟩ := ht2 hcc
      rw [e1, e2]
      exact ⟨rfl, rfl, rfl⟩
    · obtain ⟨e1, e2, -⟩ := ht1 hcc
      exact ⟨by rw [e1], by rw [e1], by rw [e2]⟩
  have hdata : ms1.planner_messenger.data = s.planner_frame_selector := by
    rw [c.2.2, b.2.2, hda]
  refine ⟨hdata, ?_⟩
  have fa : s1.planner_frame_a = s.planner_frame_a := by rw [c.1, b.1, ea]
  have fb : s1.planner_frame_b = s.planner_frame_b := by rw [c.2.1, b.2.1, ea]
  rw [hdata]
  unfold LocalizationStage.planner_frame_map
  rw [fa, fb]

end traffic_manager
